import Mathlib

/-!
# FruityMesh mesh-formation core: a shallow embedding of `src/src/mesh/Node.cpp`

The node, its mesh connections and the JOIN_ME candidate buffer are plain
structures; every handler of `Node.cpp` is a function from the state before
the call to the state after it.

Conventions.
* Unsigned 32-bit quantities (`appTimerDs`, time stamps, scores) are `Nat`
  and every operation of the source that can leave the range is followed by
  an explicit `% 4294967296`.
* The cluster-update counter travels in the one-byte `counter` field of the
  cluster-info update packet and is incremented on every accepted update, so
  it wraps in normal operation: its increment is taken `% 256`.
* `ClusterSize` values (cluster sizes, size changes, hops to sink) are signed
  16-bit in the source. They are `Int` here, and every value the handlers
  compute and store in such a field (`clusterSize += ...`, `hops + 1`,
  `-connectedClusterSize`) is truncated with `toI16`. Comparisons are made on
  the promoted `int` values, as in the source. The size change queued in the
  pending packet of a link is accumulated as an integer, which is the 16-bit
  value as long as the sum stays inside the 16-bit range.
* A mesh connection is named by its index in the list of mesh connections of
  the connection manager; a handler called for an index without a connection
  leaves the state alone.
* Logging, the terminal, the radio jobs (advertising, scanning), the
  transmit queues and the slot bookkeeping of the connection manager are
  outside the state.
-/

namespace FruityMesh

/-! ## Data model -/

/-- Device types returned by `GET_DEVICE_TYPE()`. -/
inductive DeviceType where
  | INVALID | STATIC | ROAMING | SINK | ASSET | LEAF
  deriving DecidableEq, Repr

/-- Discovery states of the node state machine. -/
inductive DiscoveryState where
  | INVALID | HIGH | LOW | OFF
  deriving DecidableEq, Repr

/-- Modelled from the spec: the states of a mesh link, in the order the
source compares them with (`>= ConnectionState::HANDSHAKE_DONE`); the
enumeration itself is declared in a header that is not among the sources. -/
inductive ConnectionState where
  | DISCONNECTED | CONNECTING | CONNECTED | HANDSHAKING | HANDSHAKE_DONE
  | REESTABLISHING | REESTABLISHING_HANDSHAKE
  deriving DecidableEq, Repr

/-- Numeric rank of a connection state, used for the `>=` comparisons. -/
def ConnectionState.rank : ConnectionState → Nat
  | .DISCONNECTED => 0
  | .CONNECTING => 1
  | .CONNECTED => 2
  | .HANDSHAKING => 3
  | .HANDSHAKE_DONE => 4
  | .REESTABLISHING => 5
  | .REESTABLISHING_HANDSHAKE => 6

/-- Direction of a connection as seen from this node. -/
inductive ConnectionDirection where
  | DIRECTION_IN | DIRECTION_OUT | INVALID
  deriving DecidableEq, Repr

/-- Reasons handed to the disconnect handler (the ones `Node.cpp` names). -/
inductive AppDisconnectReason where
  | UNKNOWN | I_AM_SMALLER | PARTNER_HAS_MASTERBIT | SHOULD_WAIT_AS_SLAVE
  | EMERGENCY_DISCONNECT | EMERGENCY_DISCONNECT_RESET
  deriving DecidableEq, Repr

/-- Preferred-connection modes of the node configuration. -/
inductive PreferredConnectionMode where
  | PENALTY | IGNORED
  deriving DecidableEq, Repr

/-- Reasons stored for a scheduled reboot (the ones `Node.cpp` names, and
`UNKNOWN` for none). -/
inductive RebootReason where
  | UNKNOWN | LOCAL_RESET | REMOTE_RESET | DFU | PREFERRED_CONNECTIONS
  deriving DecidableEq, Repr

/-- Cluster-info update packet: the header sender and the payload fields. -/
structure connPacketClusterInfoUpdate where
  sender : Nat := 0
  clusterSizeChange : Int := 0
  hopsToSink : Int := 0
  connectionMasterBitHandover : Bool := false
  counter : Nat := 0
  deriving DecidableEq, Repr

/-- The fields of the handshake packet ACK1 that `Node.cpp` reads. -/
structure connPacketClusterAck1 where
  sender : Nat := 0
  hopsToSink : Int := 0
  deriving DecidableEq, Repr

/-- The fields of the handshake packet ACK2 that `Node.cpp` reads. -/
structure connPacketClusterAck2 where
  clusterId : Nat := 0
  clusterSize : Int := 0
  hopsToSink : Int := 0
  deriving DecidableEq, Repr

/-- A mesh connection (`MeshConnection`), with the fields `Node.cpp` uses. -/
structure MeshConnection where
  partnerId : Nat := 0
  direction : ConnectionDirection := ConnectionDirection.DIRECTION_OUT
  connectionState : ConnectionState := ConnectionState.HANDSHAKE_DONE
  connectedClusterId : Nat := 0
  connectedClusterSize : Int := 0
  hopsToSink : Int := -1
  connectionMasterBit : Bool := false
  nextExpectedClusterUpdateCounter : Nat := 0
  currentClusterInfoUpdatePacket : connPacketClusterInfoUpdate := {}
  clusterIDBackup : Nat := 0
  clusterAck1Packet : connPacketClusterAck1 := {}
  clusterAck2Packet : connPacketClusterAck2 := {}
  connectionHandshakedTimestampDs : Nat := 0
  deriving DecidableEq, Repr

/-- Payload of a JOIN_ME advertisement (`advPacketPayloadJoinMeV0`). -/
structure advPacketPayloadJoinMeV0 where
  sender : Nat := 0
  clusterId : Nat := 0
  clusterSize : Int := 0
  freeMeshInConnections : Nat := 0
  freeMeshOutConnections : Nat := 0
  batteryRuntime : Nat := 0
  txPower : Int := 0
  deviceType : DeviceType := DeviceType.INVALID
  hopsToSink : Int := 0
  meshWriteHandle : Nat := 0
  ackField : Nat := 0
  deriving DecidableEq, Repr

/-- One slot of the candidate buffer (`joinMeBufferPacket`); a slot cleared
by `CheckedMemset(.., 0x00, ..)` has every field zero. -/
structure joinMeBufferPacket where
  addr : Nat := 0
  advType : Nat := 0
  rssi : Int := 0
  receivedTimeDs : Nat := 0
  lastConnectAttemptDs : Nat := 0
  attemptsToConnect : Nat := 0
  payload : advPacketPayloadJoinMeV0 := {}
  deriving DecidableEq, Repr

/-- Compile-time constants that `Node.cpp` uses and a header outside the
sources defines; they are parameters of the embedding. -/
structure Constants where
  MAX_JOIN_ME_PACKET_AGE_DS : Nat
  STABLE_CONNECTION_RSSI_THRESHOLD : Int
  meshHandshakeTimeoutDs : Nat
  deriving DecidableEq, Repr

/-- The node together with the parts of the global state (`GS->...`) that
the handlers of `Node.cpp` read or write. -/
structure Node where
  nodeId : Nat := 1
  networkId : Nat := 1
  deviceType : DeviceType := DeviceType.STATIC
  clusterId : Nat := 0
  clusterSize : Int := 1
  connectionLossCounter : Nat := 0
  randomBootNumber : Nat := 0
  currentAckId : Nat := 0
  currentDiscoveryState : DiscoveryState := DiscoveryState.HIGH
  nextDiscoveryState : DiscoveryState := DiscoveryState.INVALID
  currentStateTimeoutDs : Int := 0
  stateMachineDisabled : Bool := false
  noNodesFoundCounter : Nat := 0
  disconnectTimestampDs : Nat := 0
  joinMePackets : List joinMeBufferPacket := []
  appTimerDs : Nat := 0
  connections : List MeshConnection := []
  baseConnectionCreationTimesDs : List Nat := []
  freeMeshInConnections : Nat := 0
  freeMeshOutConnections : Nat := 0
  meshMaxInConnections : Nat := 2
  highToLowDiscoveryTimeSec : Nat := 0
  preferredPartnerIds : List Nat := []
  preferredConnectionMode : PreferredConnectionMode := PreferredConnectionMode.PENALTY
  rebootTimeDs : Nat := 0
  rebootReason : RebootReason := RebootReason.UNKNOWN
  generateLoadTarget : Nat := 0
  generateLoadPayloadSize : Nat := 0
  generateLoadMessagesLeft : Nat := 0
  generateLoadTimeBetweenMessagesDs : Nat := 0
  generateLoadRequestHandle : Nat := 0
  deriving DecidableEq, Repr

/-! ## Helpers of the connection layer -/

/-- Unsigned 32-bit subtraction, as in `GS->appTimerDs - packet.receivedTimeDs`. -/
def u32sub (a b : Nat) : Nat :=
  (a % 4294967296 + (4294967296 - b % 4294967296)) % 4294967296

/-- The value of an `int` expression after it is stored in an `i16` (the type
of `ClusterSize` and of the hops to sink): truncation to 16 bits in two's
complement. -/
def toI16 (v : Int) : Int :=
  (v + 32768) % 65536 - 32768

/-- Modelled from the spec: the macro `SEC_TO_DS` (defined in a header that is
not among the sources) converts seconds to deciseconds, the unit of the tick,
as an unsigned 32-bit value. -/
def SEC_TO_DS (sec : Nat) : Nat :=
  (sec * 10) % 4294967296

/-- Modelled from the spec: `isConnected()` of a connection, true from the
state CONNECTED on. -/
def MeshConnection.isConnected (c : MeshConnection) : Bool :=
  decide (ConnectionState.CONNECTED.rank ≤ c.connectionState.rank)

/-- Modelled from the spec: `IsHandshakeDone()` of a connection, true from the
state HANDSHAKE_DONE on. -/
def MeshConnection.IsHandshakeDone (c : MeshConnection) : Bool :=
  decide (ConnectionState.HANDSHAKE_DONE.rank ≤ c.connectionState.rank)

/-- Modelled from the spec: `MeshConnection::HandoverMasterBit` queues a
cluster-info update with the handover flag on the link and clears the link's
own master bit at once. -/
def MeshConnection.HandoverMasterBit (c : MeshConnection) : MeshConnection :=
  { c with
    connectionMasterBit := false
    currentClusterInfoUpdatePacket :=
      { c.currentClusterInfoUpdatePacket with connectionMasterBitHandover := true } }

/-- Modelled from the spec: `MeshConnection::ClearCurrentClusterInfoUpdatePacket`
drops whatever update is queued on the link. -/
def MeshConnection.ClearCurrentClusterInfoUpdatePacket (c : MeshConnection) : MeshConnection :=
  { c with currentClusterInfoUpdatePacket := {} }

/-- Hops of the handshake-done links other than `excludeConnection` that know
a way to a sink. -/
def sinkHopCandidates (conns : List MeshConnection) (excludeConnection : Option Nat) : List Int :=
  (conns.mapIdx (fun i c => (i, c))).filterMap (fun ic =>
    if some ic.1 ≠ excludeConnection ∧ ic.2.IsHandshakeDone = true ∧ -1 < ic.2.hopsToSink
    then some ic.2.hopsToSink else none)

/-- Modelled from the spec: the short-sink oracle
`GS->cm.GetMeshHopsToShortestSink(excludeConnection)`: the minimum over the
links of the link's hops to sink plus one, -1 if there is none, and 0 on a
sink. -/
def GetMeshHopsToShortestSink (deviceType : DeviceType) (conns : List MeshConnection)
    (excludeConnection : Option Nat) : Int :=
  if deviceType = DeviceType.SINK then 0
  else
    match (sinkHopCandidates conns excludeConnection).min? with
    | none => -1
    | some m => m + 1

/-- Modelled from the spec: `GS->cm.GetMeshConnectionToPartner(partner)` is a
valid handle exactly when some mesh connection has this partner. -/
def GetMeshConnectionToPartner (s : Node) (partner : Nat) : Bool :=
  s.connections.any (fun c => decide (c.partnerId = partner))

/-- Modelled from the spec: `GS->cm.ForceDisconnectOtherMeshConnections(nullptr, reason)`
tears down every mesh link of the node. -/
def ForceDisconnectOtherMeshConnections (s : Node) : Node :=
  { s with connections := [] }

/-! ## Master-bit governor and cluster-info propagation -/

/-- Embeds `Node::HasAllMasterBits`. -/
def HasAllMasterBits (s : Node) : Bool :=
  s.connections.all (fun c => !(c.IsHandshakeDone && !c.connectionMasterBit))

/-- Embeds `Node::HandOverMasterBitIfNecessary`. -/
def HandOverMasterBitIfNecessary (s : Node) : Node :=
  if HasAllMasterBits s then
    { s with connections := s.connections.map (fun c =>
        if c.IsHandshakeDone && decide (s.clusterSize - c.connectedClusterSize < c.connectedClusterSize)
        then c.HandoverMasterBit else c) }
  else s

/-- What the governor does to one link of the node `s`. -/
def governLink (s : Node) (c : MeshConnection) : MeshConnection :=
  if HasAllMasterBits s && (c.IsHandshakeDone
      && decide (s.clusterSize - c.connectedClusterSize < c.connectedClusterSize))
  then c.HandoverMasterBit else c

/-- Loop body of `Node::SendClusterInfoUpdate` for the connection at index `i`. -/
def sendClusterInfoUpdateStep (s : Node) (ignoreConnection : Option Nat)
    (packet : Option connPacketClusterInfoUpdate) (i : Nat) (c : MeshConnection) : MeshConnection :=
  if c.isConnected then
    let cur : connPacketClusterInfoUpdate :=
      { c.currentClusterInfoUpdatePacket with
        hopsToSink := GetMeshHopsToShortestSink s.deviceType s.connections (some i) }
    if ignoreConnection = some i then { c with currentClusterInfoUpdatePacket := cur }
    else
      match packet with
      | none => { c with currentClusterInfoUpdatePacket := cur }
      | some p =>
        { c with currentClusterInfoUpdatePacket :=
            { cur with clusterSizeChange := cur.clusterSizeChange + p.clusterSizeChange } }
  else c

/-- Embeds `Node::SendClusterInfoUpdate`: the update is saved in the pending
packet of every connected link except `ignoreConnection`; sending the cluster
state to mesh-access connections and `fillTransmitBuffers` act on the
transmit queues only. -/
def SendClusterInfoUpdate (s : Node) (ignoreConnection : Option Nat)
    (packet : Option connPacketClusterInfoUpdate) : Node :=
  HandOverMasterBitIfNecessary
    { s with connections := s.connections.mapIdx (sendClusterInfoUpdateStep s ignoreConnection packet) }

/-! ## Discovery state machine -/

/-- Embeds `Node::ChangeState` on the fields of the node. -/
def ChangeState (s : Node) (newState : DiscoveryState) : Node :=
  if s.currentDiscoveryState = newState ∨ s.stateMachineDisabled = true
      ∨ s.deviceType = DeviceType.ASSET then
    { s with currentStateTimeoutDs :=
        if s.currentDiscoveryState = newState then (SEC_TO_DS s.highToLowDiscoveryTimeSec : Int)
        else s.currentStateTimeoutDs }
  else
    match newState with
    | DiscoveryState.HIGH =>
      { s with
        currentDiscoveryState := newState
        noNodesFoundCounter := 0
        currentStateTimeoutDs := (SEC_TO_DS s.highToLowDiscoveryTimeSec : Int)
        nextDiscoveryState :=
          if s.highToLowDiscoveryTimeSec = 0 then DiscoveryState.INVALID else DiscoveryState.LOW }
    | DiscoveryState.LOW =>
      { s with
        currentDiscoveryState := newState
        currentStateTimeoutDs := 0
        nextDiscoveryState := DiscoveryState.INVALID }
    | DiscoveryState.OFF =>
      { s with
        currentDiscoveryState := newState
        nextDiscoveryState := DiscoveryState.INVALID }
    | DiscoveryState.INVALID => { s with currentDiscoveryState := newState }

/-- Embeds `Node::KeepHighDiscoveryActive`. -/
def KeepHighDiscoveryActive (s : Node) : Node :=
  if s.currentDiscoveryState = DiscoveryState.OFF then s
  else if s.currentDiscoveryState = DiscoveryState.HIGH then
    { s with currentStateTimeoutDs := (SEC_TO_DS s.highToLowDiscoveryTimeSec : Int) }
  else ChangeState s DiscoveryState.HIGH

/-- Embeds `Node::GenerateClusterID`, in unsigned 32-bit arithmetic. -/
def GenerateClusterID (s : Node) : Nat :=
  (s.nodeId + (((s.connectionLossCounter + s.randomBootNumber) % 4294967296) * 65536) % 4294967296)
    % 4294967296

/-! ## Inbound cluster-info updates -/

/-- The changes `ReceiveClusterInfoUpdate` makes to the receiving link for an
accepted packet: counter, connected cluster size, hops to sink, master bit. -/
def applyUpdateToLink (c : MeshConnection) (packet : connPacketClusterInfoUpdate) : MeshConnection :=
  let c1 : MeshConnection :=
    { c with nextExpectedClusterUpdateCounter := (c.nextExpectedClusterUpdateCounter + 1) % 256 }
  let c2 : MeshConnection :=
    if packet.clusterSizeChange ≠ 0 then
      { c1 with connectedClusterSize := toI16 (c1.connectedClusterSize + packet.clusterSizeChange) }
    else c1
  let c3 : MeshConnection :=
    { c2 with hopsToSink := if -1 < packet.hopsToSink then toI16 (packet.hopsToSink + 1) else -1 }
  if packet.connectionMasterBitHandover = true then { c3 with connectionMasterBit := true } else c3

/-- The node after `ReceiveClusterInfoUpdate` has applied an accepted packet
to the cluster size and to the receiving link `c` at index `connection`, before
the governor and the propagator run. -/
def acceptedUpdateState (s : Node) (connection : Nat) (c : MeshConnection)
    (packet : connPacketClusterInfoUpdate) : Node :=
  { s with
    clusterSize :=
      if packet.clusterSizeChange ≠ 0 then toI16 (s.clusterSize + packet.clusterSizeChange)
      else s.clusterSize
    connections := s.connections.set connection (applyUpdateToLink c packet) }

/-- Embeds `Node::ReceiveClusterInfoUpdate` for the mesh connection at index
`connection`. `UpdateJoinMePacket` rewrites the advertising job only. -/
def ReceiveClusterInfoUpdate (s : Node) (connection : Nat)
    (packet : connPacketClusterInfoUpdate) : Node :=
  match s.connections[connection]? with
  | none => s
  | some c =>
    if c.nextExpectedClusterUpdateCounter = packet.counter then
      let outPacket : connPacketClusterInfoUpdate := { clusterSizeChange := packet.clusterSizeChange }
      let s1 := acceptedUpdateState s connection c packet
      let s2 := HandOverMasterBitIfNecessary s1
      let s3 := SendClusterInfoUpdate s2 (some connection) (some outPacket)
      KeepHighDiscoveryActive s3
    else s

/-! ## Cluster scorer -/

/-- The number of connection attempts to one node before blacklisting this
node for some time. -/
def connectAttemptsBeforeBlacklisting : Nat := 5

/-- Embeds `Node::IsPreferredConnection`. -/
def IsPreferredConnection (s : Node) (id : Nat) : Bool :=
  if s.preferredPartnerIds.length = 0 then true
  else s.preferredPartnerIds.any (fun q => decide (q = id))

/-- Embeds `Node::ModifyScoreBasedOnPreferredPartners`. -/
def ModifyScoreBasedOnPreferredPartners (s : Node) (score partner : Nat) : Nat :=
  if 0 < score ∧ IsPreferredConnection s partner = false then
    match s.preferredConnectionMode with
    | PreferredConnectionMode.PENALTY => if score / 10 < 1 then 1 else score / 10
    | PreferredConnectionMode.IGNORED => 0
  else score

/-- The value of `u32 rssiScore = 100 + packet.rssi`. -/
def rssiScore (rssi : Int) : Nat :=
  ((100 + rssi) % 4294967296).toNat

/-- The temporary-blacklist test of `CalculateClusterScoreAsMaster`. -/
def recentlyAttempted (s : Node) (packet : joinMeBufferPacket) : Bool :=
  decide (packet.lastConnectAttemptDs ≠ 0)
    && decide (connectAttemptsBeforeBlacklisting < packet.attemptsToConnect)
    && decide (s.appTimerDs <
        (packet.lastConnectAttemptDs + SEC_TO_DS 1 * packet.attemptsToConnect) % 4294967296)

/-- Embeds `Node::CalculateClusterScoreAsMaster`. -/
def CalculateClusterScoreAsMaster (k : Constants) (s : Node) (packet : joinMeBufferPacket) : Nat :=
  if k.MAX_JOIN_ME_PACKET_AGE_DS < u32sub s.appTimerDs packet.receivedTimeDs then 0
  else if packet.payload.clusterId = s.clusterId then 0
  else if packet.payload.freeMeshInConnections = 0 then 0
  else if packet.payload.ackField ≠ 0 ∧ packet.payload.ackField ≠ s.clusterId then 0
  else if s.clusterSize < packet.payload.clusterSize then 0
  else if recentlyAttempted s packet = true then 0
  else if GetMeshConnectionToPartner s packet.payload.sender = true then 0
  else if packet.rssi < k.STABLE_CONNECTION_RSSI_THRESHOLD then 0
  else if s.deviceType = DeviceType.LEAF then 0
  else
    ModifyScoreBasedOnPreferredPartners s
      ((packet.payload.freeMeshInConnections * 10000
          + packet.payload.freeMeshOutConnections * 100 + rssiScore packet.rssi) % 4294967296)
      packet.payload.sender

/-- The value of `(u32)(packet.payload.clusterSize)` for a signed size. -/
def clusterSizeAsU32 (size : Int) : Nat :=
  (size % 4294967296).toNat

/-- Embeds `Node::CalculateClusterScoreAsSlave`. -/
def CalculateClusterScoreAsSlave (k : Constants) (s : Node) (packet : joinMeBufferPacket) : Nat :=
  if k.MAX_JOIN_ME_PACKET_AGE_DS < u32sub s.appTimerDs packet.receivedTimeDs then 0
  else if packet.payload.clusterId = s.clusterId then 0
  else if packet.payload.clusterSize < s.clusterSize then 0
  else if packet.rssi < k.STABLE_CONNECTION_RSSI_THRESHOLD then 0
  else
    ModifyScoreBasedOnPreferredPartners s
      ((clusterSizeAsU32 packet.payload.clusterSize * 10000
          + packet.payload.freeMeshOutConnections * 100 + rssiScore packet.rssi) % 4294967296)
      packet.payload.sender

/-! ## Decision engine -/

/-- Loop of `Node::DetermineBestCluster`: `i` is the index of the head of the
remaining buffer, the result is the index of the best slot. -/
def determineBestClusterLoop (rating : joinMeBufferPacket → Nat) :
    List joinMeBufferPacket → Nat → Nat → Option Nat → Option Nat
  | [], _, _, bestCluster => bestCluster
  | packet :: rest, i, bestScore, bestCluster =>
    if packet.payload.sender = 0 then determineBestClusterLoop rating rest (i + 1) bestScore bestCluster
    else if bestScore < rating packet then
      determineBestClusterLoop rating rest (i + 1) (rating packet) (some i)
    else determineBestClusterLoop rating rest (i + 1) bestScore bestCluster

/-- Embeds `Node::DetermineBestCluster`; the result is a slot index, `none`
for `nullptr`. -/
def DetermineBestCluster (s : Node) (rating : joinMeBufferPacket → Nat) : Option Nat :=
  determineBestClusterLoop rating s.joinMePackets 0 0 none

/-- Embeds `Node::DetermineBestClusterAsMaster`. -/
def DetermineBestClusterAsMaster (k : Constants) (s : Node) : Option Nat :=
  DetermineBestCluster s (CalculateClusterScoreAsMaster k s)

/-- Embeds `Node::DetermineBestClusterAsSlave`. -/
def DetermineBestClusterAsSlave (k : Constants) (s : Node) : Option Nat :=
  DetermineBestCluster s (CalculateClusterScoreAsSlave k s)

/-- Results of the decision engine. -/
inductive DecisionResult where
  | CONNECT_AS_SLAVE | CONNECT_AS_MASTER | NO_NODES_FOUND
  deriving DecidableEq, Repr

/-- The decision returned by `DetermineBestClusterAvailable`. -/
structure DecisionStruct where
  result : DecisionResult := DecisionResult.NO_NODES_FOUND
  preferredPartner : Nat := 0
  establishResult : Nat := 0
  deriving DecidableEq, Repr

/-- One call of `GS->cm.ConnectAsMaster`; `leafInterval` tells that the slower
interval for leaf nodes was chosen. -/
structure ConnectAsMasterCall where
  partnerId : Nat
  addr : Nat
  writeCharacteristicHandle : Nat
  leafInterval : Bool
  deriving DecidableEq, Repr

/-- What `DetermineBestClusterAvailable` leaves behind: the decision, the
node and the connect call it issued, if any. -/
structure DecisionOutcome where
  decision : DecisionStruct
  node : Node
  connectCall : Option ConnectAsMasterCall
  deriving DecidableEq, Repr

/-- The test for a recently established connection in
`DetermineBestClusterAvailable`. -/
def freshConnectionAvailable (k : Constants) (s : Node) : Bool :=
  s.baseConnectionCreationTimesDs.any (fun t =>
    decide (s.appTimerDs < (t + k.meshHandshakeTimeoutDs) % 4294967296))

/-- The as-slave branch of `DetermineBestClusterAvailable` for the chosen
slot `best`. -/
def waitAsSlave (k : Constants) (s : Node) (best : joinMeBufferPacket) (randomInteger : Nat) : Node :=
  let s1 : Node := { s with currentAckId := best.payload.clusterId }
  if s1.meshMaxInConnections = 1 then
    if freshConnectionAvailable k s1 = false ∧ s1.freeMeshInConnections = 0 then
      if s1.clusterSize ≠ best.payload.clusterSize ∨ randomInteger < 4294967295 / 4 then
        let s2 := ForceDisconnectOtherMeshConnections s1
        { s2 with clusterSize := 1, clusterId := GenerateClusterID s2 }
      else s1
    else s1
  else s1

/-- Embeds `Node::DetermineBestClusterAvailable`. `connectSucceeds` is the
answer of `GS->cm.ConnectAsMaster` (`ErrorType::SUCCESS` or not) and
`randomInteger` the value `Utility::GetRandomInteger()` returns if asked. The
connection that `ConnectAsMaster` starts is kept by the connection manager
and shows up in the state only once the link layer reports it. -/
def DetermineBestClusterAvailable (k : Constants) (s : Node) (connectSucceeds : Bool)
    (randomInteger : Nat) : DecisionOutcome :=
  let bestClusterAsMaster : Option (Nat × joinMeBufferPacket) :=
    match DetermineBestClusterAsMaster k s with
    | none => none
    | some i => (s.joinMePackets[i]?).map (fun packet => (i, packet))
  match (if 0 < s.freeMeshOutConnections then bestClusterAsMaster else none) with
  | some (i, best) =>
    let call : ConnectAsMasterCall :=
      { partnerId := best.payload.sender
        addr := best.addr
        writeCharacteristicHandle := best.payload.meshWriteHandle
        leafInterval := decide (best.payload.deviceType = DeviceType.LEAF) }
    let updated : joinMeBufferPacket :=
      if connectSucceeds then
        { best with
          lastConnectAttemptDs := s.appTimerDs
          attemptsToConnect :=
            if best.attemptsToConnect ≤ 20 then best.attemptsToConnect + 1
            else best.attemptsToConnect }
      else best
    { decision := { result := DecisionResult.CONNECT_AS_MASTER, preferredPartner := best.payload.sender }
      node := { s with currentAckId := 0, joinMePackets := s.joinMePackets.set i updated }
      connectCall := some call }
  | none =>
    let s1 : Node := { s with currentAckId := 0 }
    let bestClusterAsSlave : Option joinMeBufferPacket :=
      match DetermineBestClusterAsSlave k s1 with
      | none => none
      | some i => s1.joinMePackets[i]?
    match bestClusterAsSlave with
    | some best =>
      { decision := { result := DecisionResult.CONNECT_AS_SLAVE, preferredPartner := best.payload.sender }
        node := waitAsSlave k s1 best randomInteger
        connectCall := none }
    | none =>
      { decision := { result := DecisionResult.NO_NODES_FOUND }
        node := s1
        connectCall := none }

/-! ## Handshake and disconnect handlers -/

/-- A candidate slot after `CheckedMemset(packet, 0x00, sizeof(joinMeBufferPacket))`. -/
def clearedJoinMeBufferPacket : joinMeBufferPacket :=
  { addr := 0, advType := 0, rssi := 0, receivedTimeDs := 0, lastConnectAttemptDs := 0,
    attemptsToConnect := 0,
    payload :=
      { sender := 0, clusterId := 0, clusterSize := 0, freeMeshInConnections := 0,
        freeMeshOutConnections := 0, batteryRuntime := 0, txPower := 0,
        deviceType := DeviceType.INVALID, hopsToSink := 0, meshWriteHandle := 0, ackField := 0 } }

/-- The commit step of `HandshakeDoneHandler`, before the link is marked
HANDSHAKE_DONE. -/
def commitHandshake (s : Node) (connection : Nat) (c : MeshConnection)
    (completedAsWinner : Bool) : Node :=
  if completedAsWinner then
    let c1 : MeshConnection :=
      { c with
        hopsToSink :=
          if c.clusterAck1Packet.hopsToSink < 0 then -1
          else toI16 (c.clusterAck1Packet.hopsToSink + 1)
        connectedClusterId := c.clusterIDBackup
        partnerId := c.clusterAck1Packet.sender
        connectedClusterSize := 1 }
    SendClusterInfoUpdate
      { s with clusterSize := toI16 (s.clusterSize + 1), connections := s.connections.set connection c1 }
      (some connection)
      (some { clusterSizeChange := 1, connectionMasterBitHandover := false })
  else
    let c1 : MeshConnection :=
      { c with
        connectedClusterId := c.clusterAck2Packet.clusterId
        connectedClusterSize := toI16 (c.clusterAck2Packet.clusterSize - 1) }
    let c2 : MeshConnection := c1.ClearCurrentClusterInfoUpdatePacket
    let c3 : MeshConnection :=
      { c2 with
        hopsToSink :=
          if c.clusterAck2Packet.hopsToSink < 0 then -1
          else toI16 (c.clusterAck2Packet.hopsToSink + 1) }
    { s with
      clusterId := c.clusterAck2Packet.clusterId
      clusterSize := c.clusterAck2Packet.clusterSize
      connections := s.connections.set connection c3 }

/-- Embeds `Node::HandshakeDoneHandler` for the mesh connection at index
`connection`. The live report, the module callbacks and `UpdateJoinMePacket`
act outside the state. -/
def HandshakeDoneHandler (s : Node) (connection : Nat) (completedAsWinner : Bool) : Node :=
  match s.connections[connection]? with
  | none => s
  | some c =>
    let s0 : Node :=
      { s with joinMePackets := s.joinMePackets.map (fun packet =>
          if packet.payload.sender = c.partnerId then clearedJoinMeBufferPacket else packet) }
    let s1 := commitHandshake s0 connection c completedAsWinner
    let markDone : MeshConnection → MeshConnection := fun d =>
      { d with
        connectionState := ConnectionState.HANDSHAKE_DONE
        connectionHandshakedTimestampDs := s1.appTimerDs }
    let s2 : Node := { s1 with connections := s1.connections.modify markDone connection }
    let s3 := SendClusterInfoUpdate s2 (some connection) none
    let s4 := KeepHighDiscoveryActive s3
    HandOverMasterBitIfNecessary s4

/-- Embeds `Node::MeshConnectionDisconnectedHandler`; the link that was lost
is no longer among the connections when the handler runs. -/
def MeshConnectionDisconnectedHandler (s : Node) (appDisconnectReason : AppDisconnectReason)
    (connectionStateBeforeDisconnection : ConnectionState) (hadConnectionMasterBit : Bool)
    (connectedClusterSize : Int) (connectedClusterId : Nat) : Node :=
  let s0 : Node := { s with connectionLossCounter := (s.connectionLossCounter + 1) % 4294967296 }
  let s1 : Node :=
    if ConnectionState.HANDSHAKE_DONE.rank ≤ connectionStateBeforeDisconnection.rank then
      if hadConnectionMasterBit = false then
        let sa : Node :=
          if appDisconnectReason ≠ AppDisconnectReason.I_AM_SMALLER then
            ForceDisconnectOtherMeshConnections s0
          else s0
        SendClusterInfoUpdate { sa with clusterSize := 1, clusterId := GenerateClusterID sa } none none
      else
        SendClusterInfoUpdate { s0 with clusterSize := toI16 (s0.clusterSize - connectedClusterSize) }
          none (some { clusterSizeChange := toI16 (-connectedClusterSize) })
    else s0
  let s2 := KeepHighDiscoveryActive s1
  let s3 : Node := if s2.clusterSize = 1 then { s2 with clusterId := GenerateClusterID s2 } else s2
  let s4 := HandOverMasterBitIfNecessary s3
  { s4 with noNodesFoundCounter := 0, disconnectTimestampDs := s4.appTimerDs }

/-! ## Sequences of inbound updates -/

/-- Whether `ReceiveClusterInfoUpdate` accepts `packet` on the link at index
`connection`: the link exists and its expected counter matches. -/
def acceptsUpdate (s : Node) (connection : Nat) (packet : connPacketClusterInfoUpdate) : Bool :=
  match s.connections[connection]? with
  | none => false
  | some c => decide (c.nextExpectedClusterUpdateCounter = packet.counter)

/-- Delivers a sequence of cluster-info updates, each on the link it names,
with nothing else happening in between. -/
def deliverUpdates (s : Node) : List (Nat × connPacketClusterInfoUpdate) → Node
  | [] => s
  | (connection, packet) :: rest =>
    deliverUpdates (ReceiveClusterInfoUpdate s connection packet) rest

/-- Sum of the size changes of those updates of the sequence that are
accepted when they are delivered. -/
def acceptedSizeChange (s : Node) : List (Nat × connPacketClusterInfoUpdate) → Int
  | [] => 0
  | (connection, packet) :: rest =>
    (if acceptsUpdate s connection packet = true then packet.clusterSizeChange else 0)
      + acceptedSizeChange (ReceiveClusterInfoUpdate s connection packet) rest

/-- Counters of the updates that are accepted when the sequence is delivered
on the single link at index `connection`, in the order of delivery. -/
def acceptedCounters (s : Node) (connection : Nat) : List connPacketClusterInfoUpdate → List Nat
  | [] => []
  | packet :: rest =>
    if acceptsUpdate s connection packet = true then
      packet.counter :: acceptedCounters (ReceiveClusterInfoUpdate s connection packet) connection rest
    else acceptedCounters (ReceiveClusterInfoUpdate s connection packet) connection rest

/-! ## Candidate buffer -/

/-- The largest unsigned 32-bit value, the start value of both minimum
searches of `findTargetBuffer`. -/
def UINT32_MAX : Nat := 4294967295

/-- First-match loop of `findTargetBuffer`: the index of the first slot that
passes `test`; `i` is the index of the head of the remaining buffer. -/
def firstSlotLoop (test : joinMeBufferPacket → Bool) :
    List joinMeBufferPacket → Nat → Option Nat
  | [], _ => none
  | slot :: rest, i => if test slot = true then some i else firstSlotLoop test rest (i + 1)

/-- Minimum-search loop of `findTargetBuffer`, of the shape
`if (cond && key < lowest) { lowest = key; targetBuffer = slot; }`; `i` is the
index of the head of the remaining buffer. -/
def lowestSlotLoop (cond : joinMeBufferPacket → Bool) (key : joinMeBufferPacket → Nat) :
    List joinMeBufferPacket → Nat → Nat → Option Nat → Option Nat
  | [], _, _, targetBuffer => targetBuffer
  | slot :: rest, i, lowest, targetBuffer =>
    if cond slot = true ∧ key slot < lowest then
      lowestSlotLoop cond key rest (i + 1) (key slot) (some i)
    else lowestSlotLoop cond key rest (i + 1) lowest targetBuffer

/-- The score the last loop of `findTargetBuffer` gives a slot: the as-master
score if the observed cluster is at least as big as the node's, the as-slave
score otherwise. -/
def replacementScore (k : Constants) (s : Node) (packet : advPacketPayloadJoinMeV0)
    (slot : joinMeBufferPacket) : Nat :=
  if s.clusterSize ≤ packet.clusterSize then CalculateClusterScoreAsMaster k s slot
  else CalculateClusterScoreAsSlave k s slot

/-- Embeds `Node::findTargetBuffer` for the observed JOIN_ME payload `packet`:
the index of the chosen slot (`none` for `nullptr`) and the node, on which the
empty-slot rule calls `KeepHighDiscoveryActive`. -/
def findTargetBuffer (k : Constants) (s : Node) (packet : advPacketPayloadJoinMeV0) :
    Option Nat × Node :=
  match firstSlotLoop (fun slot => decide (packet.sender = slot.payload.sender)) s.joinMePackets 0 with
  | some i => (some i, s)
  | none =>
    match firstSlotLoop (fun slot => decide (slot.payload.sender = 0)) s.joinMePackets 0 with
    | some i => (some i, KeepHighDiscoveryActive s)
    | none =>
      match lowestSlotLoop (fun slot => decide (slot.payload.clusterId = s.clusterId))
          (fun slot => slot.receivedTimeDs) s.joinMePackets 0 UINT32_MAX none with
      | some i => (some i, s)
      | none =>
        (lowestSlotLoop (fun _ => true) (replacementScore k s packet) s.joinMePackets 0
          UINT32_MAX none, s)

/-- A run of successive successful connect attempts: before each call of
`DetermineBestClusterAvailable` the timer has advanced to the next value of
`times`. -/
def connectRepeatedly (k : Constants) : Node → List Nat → Node
  | s, [] => s
  | s, now :: rest =>
    connectRepeatedly k (DetermineBestClusterAvailable k { s with appTimerDs := now } true 0).node
      rest

/-! ## Discovery timeout and discovery commands -/

/-- Embeds the head of `Node::TimerEventHandler` (Node.cpp:1803-1812): the
time that has passed is taken off the state timeout, and once the timeout has
run out the state machine moves to the next discovery state, if there is one.
The rest of that handler (emergency-disconnect timer, decision timer,
discovery broadcast) calls neither `ChangeState` nor
`KeepHighDiscoveryActive`. -/
def timerStateTimeout (s : Node) (passedTimeDs : Nat) : Node :=
  let s1 : Node := { s with currentStateTimeoutDs := s.currentStateTimeoutDs - (passedTimeDs : Int) }
  if s1.nextDiscoveryState ≠ DiscoveryState.INVALID ∧ s1.currentStateTimeoutDs ≤ 0 then
    ChangeState s1 s1.nextDiscoveryState
  else s1

/-- A run of timer ticks with nothing else happening in between; each entry
is the time that passed since the tick before. -/
def runTicks (s : Node) : List Nat → Node
  | [] => s
  | passedTimeDs :: rest => runTicks (timerStateTimeout s passedTimeDs) rest

/-- Embeds the SET_DISCOVERY trigger action of `Node::MeshMessageReceivedHandler`
(Node.cpp:705-713) for the payload byte `ds = packet->data[0]`; the response
message is outside the state. -/
def setDiscoveryTrigger (s : Node) (ds : Nat) : Node :=
  if ds = 0 then ChangeState s DiscoveryState.OFF else ChangeState s DiscoveryState.HIGH

/-- The events of `Node.cpp` that reach the discovery state machine: a timer
tick, `KeepHighDiscoveryActive` (which the handshake, disconnect, cluster
update and candidate buffer handlers call), the `ChangeState(HIGH)` of the
node start-up, and a SET_DISCOVERY trigger action with its payload byte. -/
inductive DiscoveryEvent where
  | tick (passedTimeDs : Nat)
  | keepHigh
  | start
  | setDiscovery (ds : Nat)
  deriving DecidableEq, Repr

/-- What a discovery event does to the node. -/
def discoveryStep (s : Node) : DiscoveryEvent → Node
  | .tick passedTimeDs => timerStateTimeout s passedTimeDs
  | .keepHigh => KeepHighDiscoveryActive s
  | .start => ChangeState s DiscoveryState.HIGH
  | .setDiscovery ds => setDiscoveryTrigger s ds

/-- The events that do not ask for discovery to be switched on: timer ticks,
`KeepHighDiscoveryActive` and SET_DISCOVERY with the payload byte 0. -/
def DiscoveryEvent.leavesOff : DiscoveryEvent → Bool
  | .tick _ => true
  | .keepHigh => true
  | .start => false
  | .setDiscovery ds => decide (ds = 0)

/-- A run of discovery events. -/
def discoveryRun (s : Node) : List DiscoveryEvent → Node
  | [] => s
  | e :: rest => discoveryRun (discoveryStep s e) rest

/-! ## Emergency disconnect -/

/-- Reply codes of `EmergencyDisconnectResponseMessage`. -/
inductive EmergencyDisconnectErrorCode where
  | SUCCESS | NOT_ALL_CONNECTIONS_USED_UP | CANT_DISCONNECT_ANYBODY
  deriving DecidableEq, Repr

/-- Modelled from the spec: `GS->cm.GetMeshConnections(direction)` lists the
mesh connections of the given direction (all of them for `INVALID`) in the
order of the connection manager; each comes with its index. -/
def GetMeshConnections (s : Node) (direction : ConnectionDirection) :
    List (Nat × MeshConnection) :=
  (s.connections.mapIdx (fun i c => (i, c))).filter (fun ic =>
    decide (direction = ConnectionDirection.INVALID ∨ ic.2.direction = direction))

/-- The counting loop of the EMERGENCY_DISCONNECT handler (Node.cpp:803-806):
the number of handshake-done connections, kept in a `u16`. -/
def countHandshaked (conns : List (Nat × MeshConnection)) : Nat :=
  (conns.filter (fun ic => ic.2.IsHandshakeDone)).length % 65536

/-- The value of `u32 removalProbability` (Node.cpp:816): computed in signed
arithmetic with the truncating division of C++ and stored in an unsigned
32-bit variable. -/
def removalProbability (clusterSize : Int) (handshakedConnections : Nat)
    (c : MeshConnection) : Nat :=
  if handshakedConnections ≤ 1 ∨ clusterSize ≤ 1 then 1
  else
    (Int.tdiv (((clusterSize - 1) - c.connectedClusterSize) * 65535)
        (((handshakedConnections : Int) - 1) * (clusterSize - 1)) % 4294967296).toNat

/-- Signed division of C++ with its precondition made explicit: `none` for a
zero divisor, otherwise the quotient truncated towards zero. -/
def checkedDiv (a b : Int) : Option Int :=
  if b = 0 then none else some (Int.tdiv a b)

/-- The expression of `u32 removalProbability` (Node.cpp:816) evaluated with
`checkedDiv`: `none` if evaluating it divides by zero. -/
def removalProbabilityChecked (clusterSize : Int) (handshakedConnections : Nat)
    (c : MeshConnection) : Option Nat :=
  if handshakedConnections ≤ 1 ∨ clusterSize ≤ 1 then some 1
  else
    (checkedDiv (((clusterSize - 1) - c.connectedClusterSize) * 65535)
        (((handshakedConnections : Int) - 1) * (clusterSize - 1))).map
      (fun quotient => (quotient % 4294967296).toNat)

/-- The selection loop of the EMERGENCY_DISCONNECT handler (Node.cpp:810-827)
over the connections that are left, with the running `u32 sum`; the result is
the index of `connToDisconnect`, if one was chosen. -/
def emergencyVictimLoop (clusterSize : Int) (handshakedConnections rnd : Nat) :
    List (Nat × MeshConnection) → Nat → Option Nat
  | [], _ => none
  | (i, c) :: rest, sum =>
    if c.IsHandshakeDone = false then
      emergencyVictimLoop clusterSize handshakedConnections rnd rest sum
    else if rnd < (sum + removalProbability clusterSize handshakedConnections c) % 4294967296 then
      some i
    else
      emergencyVictimLoop clusterSize handshakedConnections rnd rest
        ((sum + removalProbability clusterSize handshakedConnections c) % 4294967296)

/-- The connection that the EMERGENCY_DISCONNECT handler selects when no
outbound slot is free, for the value `randomInteger` of
`Utility::GetRandomInteger()`, which is cut to the `u16 rnd`. -/
def emergencyVictim (s : Node) (randomInteger : Nat) : Option Nat :=
  emergencyVictimLoop s.clusterSize
    (countHandshaked (GetMeshConnections s ConnectionDirection.DIRECTION_OUT))
    (randomInteger % 65536)
    (GetMeshConnections s ConnectionDirection.DIRECTION_OUT) 0

/-- What the EMERGENCY_DISCONNECT trigger action does: the code of the
response message and the call `connToDisconnect.DisconnectAndRemove(reason)`,
if there is one, with the index of the connection. -/
structure EmergencyDisconnectOutcome where
  code : EmergencyDisconnectErrorCode
  disconnect : Option (Nat × AppDisconnectReason)
  deriving DecidableEq, Repr

/-- Embeds the EMERGENCY_DISCONNECT trigger action of
`Node::MeshMessageReceivedHandler` (Node.cpp:786-857). -/
def emergencyDisconnectTrigger (s : Node) (randomInteger : Nat) : EmergencyDisconnectOutcome :=
  if s.freeMeshOutConnections = 0 then
    match emergencyVictim s randomInteger with
    | some i =>
      { code := EmergencyDisconnectErrorCode.SUCCESS
        disconnect := some (i, AppDisconnectReason.EMERGENCY_DISCONNECT) }
    | none =>
      { code := EmergencyDisconnectErrorCode.CANT_DISCONNECT_ANYBODY
        disconnect := none }
  else
    { code := EmergencyDisconnectErrorCode.NOT_ALL_CONNECTIONS_USED_UP
      disconnect := none }

/-! ## JOIN_ME advertisements on the air -/

/-- Values of the advertisement layer that `Node.cpp` names and that headers
outside the sources define; they are parameters of the embedding. -/
structure AdvConstants where
  MESH_COMPANY_IDENTIFIER : Nat
  MESH_IDENTIFIER : Nat
  JOIN_ME_V0 : Nat
  ADV_IND : Nat
  ADV_NONCONN_IND : Nat
  deriving DecidableEq, Repr

/-- Modelled from the spec: the number of bytes before the JOIN_ME payload in
the wire format, the flags TLV (3 bytes) and the manufacturer TLV up to and
including the message type (8 bytes). -/
def SIZEOF_ADV_PACKET_HEADER : Nat := 11

/-- Modelled from the spec: the number of bytes of the JOIN_ME payload, the
sum of the field widths of the wire format. -/
def SIZEOF_ADV_PACKET_PAYLOAD_JOIN_ME_V0 : Nat := 21

/-- Modelled from the spec: the length of a whole JOIN_ME advertisement. -/
def SIZEOF_ADV_PACKET_JOIN_ME : Nat :=
  SIZEOF_ADV_PACKET_HEADER + SIZEOF_ADV_PACKET_PAYLOAD_JOIN_ME_V0

/-- The 16-bit two's complement pattern of a signed value. -/
def signedToU16 (v : Int) : Nat := (v % 65536).toNat

/-- The signed value of a 16-bit two's complement pattern. -/
def u16ToSigned (u : Nat) : Int := if u < 32768 then (u : Int) else (u : Int) - 65536

/-- The 8-bit two's complement pattern of a signed value. -/
def signedToU8 (v : Int) : Nat := (v % 256).toNat

/-- The signed value of an 8-bit two's complement pattern. -/
def u8ToSigned (u : Nat) : Int := if u < 128 then (u : Int) else (u : Int) - 256

/-- Modelled from the spec: the byte that stands for a device type in the
`device_type(1)` field; the numbering is that of the enumeration, which a
header outside the sources declares. -/
def DeviceType.toByte : DeviceType → Nat
  | .INVALID => 0
  | .STATIC => 1
  | .ROAMING => 2
  | .SINK => 3
  | .ASSET => 4
  | .LEAF => 5

/-- Modelled from the spec: the device type that a byte of the `device_type(1)`
field stands for. -/
def DeviceType.ofByte (b : Nat) : DeviceType :=
  if b = 1 then DeviceType.STATIC
  else if b = 2 then DeviceType.ROAMING
  else if b = 3 then DeviceType.SINK
  else if b = 4 then DeviceType.ASSET
  else if b = 5 then DeviceType.LEAF
  else DeviceType.INVALID

/-- Modelled from the spec: the bytes of `advPacketHeader` in the JOIN_ME wire
format. The two length bytes, the two type bytes and the flags byte are the
values the spec gives; none of them is read on reception. -/
def advHeader (w : AdvConstants) (networkId : Nat) : List Nat :=
  [2, 1, 6,
   27, 255, w.MESH_COMPANY_IDENTIFIER % 256, w.MESH_COMPANY_IDENTIFIER / 256 % 256,
   w.MESH_IDENTIFIER % 256, networkId % 256, networkId / 256 % 256,
   w.JOIN_ME_V0 % 256]

/-- Modelled from the spec: the bytes of `advPacketPayloadJoinMeV0` in the
JOIN_ME wire format: sender(2 LE), cluster_id(4 LE), cluster_size(2 LE signed),
free_in(1), free_out(1), battery_runtime(1), tx_power(1 signed),
device_type(1), hops_to_sink(2 LE signed), mesh_write_handle(2 LE),
ack_field(4 LE). Writing a field of the structure stores these bytes. -/
def encodePayload (p : advPacketPayloadJoinMeV0) : List Nat :=
  [p.sender % 256, p.sender / 256 % 256,
   p.clusterId % 256, p.clusterId / 256 % 256, p.clusterId / 65536 % 256,
   p.clusterId / 16777216 % 256,
   signedToU16 p.clusterSize % 256, signedToU16 p.clusterSize / 256 % 256,
   p.freeMeshInConnections % 256,
   p.freeMeshOutConnections % 256,
   p.batteryRuntime % 256,
   signedToU8 p.txPower,
   p.deviceType.toByte,
   signedToU16 p.hopsToSink % 256, signedToU16 p.hopsToSink / 256 % 256,
   p.meshWriteHandle % 256, p.meshWriteHandle / 256 % 256,
   p.ackField % 256, p.ackField / 256 % 256, p.ackField / 65536 % 256,
   p.ackField / 16777216 % 256]

/-- Modelled from the spec: reading the fields of `advPacketPayloadJoinMeV0`
from the bytes of the JOIN_ME wire format. -/
def decodePayload : List Nat → advPacketPayloadJoinMeV0
  | b0 :: b1 :: b2 :: b3 :: b4 :: b5 :: b6 :: b7 :: b8 :: b9 :: b10 :: b11 :: b12 :: b13
      :: b14 :: b15 :: b16 :: b17 :: b18 :: b19 :: b20 :: _ =>
    { sender := b0 + 256 * b1
      clusterId := b2 + 256 * b3 + 65536 * b4 + 16777216 * b5
      clusterSize := u16ToSigned (b6 + 256 * b7)
      freeMeshInConnections := b8
      freeMeshOutConnections := b9
      batteryRuntime := b10
      txPower := u8ToSigned b11
      deviceType := DeviceType.ofByte b12
      hopsToSink := u16ToSigned (b13 + 256 * b14)
      meshWriteHandle := b15 + 256 * b16
      ackField := b17 + 256 * b18 + 65536 * b19 + 16777216 * b20 }
  | _ => {}

/-- What `UpdateJoinMePacket` reads outside the node: whether the mesh
advertising job is registered (`meshAdvJobHandle != nullptr`), the battery
voltage of the status reporter module if that module is present, the
configured transmit power and the handle of the mesh write characteristic. -/
structure AdvertisingContext where
  meshAdvJobRegistered : Bool := true
  batteryVoltage : Option Nat := none
  defaultDBmTX : Int := 0
  sendMessageCharacteristicHandle : Nat := 0
  deriving DecidableEq, Repr

/-- The field assignments of `Node::UpdateJoinMePacket` (Node.cpp:1298-1332);
`previous` is what the advertisement buffer held before, of which the ack
field stays when the node has more than one inbound slot. -/
def joinMePayload (ctx : AdvertisingContext) (s : Node) (previous : advPacketPayloadJoinMeV0) :
    advPacketPayloadJoinMeV0 :=
  { sender := s.nodeId
    clusterId := s.clusterId
    clusterSize := s.clusterSize
    freeMeshInConnections :=
      if s.deviceType = DeviceType.LEAF ∧ 0 < s.freeMeshInConnections then 1
      else s.freeMeshInConnections
    freeMeshOutConnections :=
      if s.deviceType = DeviceType.LEAF then 0 else s.freeMeshOutConnections
    batteryRuntime :=
      match ctx.batteryVoltage with
      | some voltage => voltage
      | none => 0
    txPower := ctx.defaultDBmTX
    deviceType := s.deviceType
    hopsToSink := GetMeshHopsToShortestSink s.deviceType s.connections none
    meshWriteHandle := ctx.sendMessageCharacteristicHandle
    ackField := if s.meshMaxInConnections = 1 then s.currentAckId else previous.ackField }

/-- Embeds `Node::UpdateJoinMePacket`: the content of the advertisement
buffer `meshAdvJobHandle->advData` after the call, for the content `advData`
before it. -/
def UpdateJoinMePacket (w : AdvConstants) (ctx : AdvertisingContext) (s : Node)
    (advData : List Nat) : List Nat :=
  if s.networkId = 0 then advData
  else if ctx.meshAdvJobRegistered = false then advData
  else if s.deviceType = DeviceType.ASSET then advData
  else
    advHeader w s.networkId
      ++ encodePayload (joinMePayload ctx s (decodePayload (advData.drop SIZEOF_ADV_PACKET_HEADER)))

/-- An advertisement report (`FruityHal::GapAdvertisementReportEvent`): the
received bytes, the address of the peer, the signal strength and whether the
advertisement is connectable. -/
structure GapAdvertisementReportEvent where
  data : List Nat
  peerAddr : Nat := 0
  rssi : Int := 0
  connectable : Bool := true
  deriving DecidableEq, Repr

/-- Embeds `Node::GapAdvertisementMessageHandler`: a JOIN_ME advertisement of
the right length is put into the slot that `findTargetBuffer` chooses. -/
def GapAdvertisementMessageHandler (w : AdvConstants) (k : Constants) (s : Node)
    (advertisementReportEvent : GapAdvertisementReportEvent) : Node :=
  if s.deviceType = DeviceType.ASSET then s
  else if advertisementReportEvent.data.getD 10 0 = w.JOIN_ME_V0 then
    if advertisementReportEvent.data.length = SIZEOF_ADV_PACKET_JOIN_ME then
      let payload := decodePayload (advertisementReportEvent.data.drop SIZEOF_ADV_PACKET_HEADER)
      match findTargetBuffer k s payload with
      | (some i, s1) =>
        let fill : joinMeBufferPacket → joinMeBufferPacket := fun targetBuffer =>
          { targetBuffer with
            addr := advertisementReportEvent.peerAddr
            advType := if advertisementReportEvent.connectable then w.ADV_IND else w.ADV_NONCONN_IND
            rssi := advertisementReportEvent.rssi
            receivedTimeDs := s1.appTimerDs
            payload := payload }
        { s1 with joinMePackets := s1.joinMePackets.modify fill i }
      | (none, s1) => s1
    else s
  else s

/-- The network id of an advertisement: `network_id(2 LE)`, bytes 8 and 9 of the
JOIN_ME wire format. -/
def advertisementNetworkId (data : List Nat) : Nat :=
  data.getD 8 0 % 256 + 256 * (data.getD 9 0 % 256)

/-- Modelled from the spec: the scan layer, which is not among the sources,
hands an advertisement report to `Node::GapAdvertisementMessageHandler` only if
it is valid ("All advertisement packets are received here if they are valid",
`Node.cpp`); by the data model a JOIN_ME record of another network is dropped,
so a report whose network id is not the node's own does not reach the
handler. -/
def dispatchAdvertisementReport (w : AdvConstants) (k : Constants) (s : Node)
    (advertisementReportEvent : GapAdvertisementReportEvent) : Node :=
  if advertisementNetworkId advertisementReportEvent.data = s.networkId then
    GapAdvertisementMessageHandler w k s advertisementReportEvent
  else s

/-! ## Reboot schedule -/

/-- Embeds `Node::Reboot`; the sum is taken in unsigned 32-bit arithmetic and
the reason is the one kept in `GS->ramRetainStructPtr->rebootReason`. -/
def Reboot (s : Node) (delayDs : Nat) (reason : RebootReason) : Node :=
  let newRebootTimeDs := (s.appTimerDs + delayDs) % 4294967296
  if s.rebootTimeDs = 0 ∨ newRebootTimeDs < s.rebootTimeDs then
    { s with rebootTimeDs := newRebootTimeDs, rebootReason := reason }
  else s

/-- Embeds `Node::IsRebootScheduled`. -/
def IsRebootScheduled (s : Node) : Bool :=
  decide (s.rebootTimeDs ≠ 0)

/-! ## Inbound mesh messages -/

/-- Sizes and limits of the message layer that `Node.cpp` names and that
headers outside the sources define; they are parameters of the embedding. -/
structure MessageConstants where
  SIZEOF_CONN_PACKET_CLUSTER_INFO_UPDATE : Nat
  SIZEOF_CONN_PACKET_MODULE : Nat
  MAX_AMOUNT_PREFERRED_PARTNER_IDS : Nat
  deriving DecidableEq, Repr

/-- What the handler reads through the `GenerateLoadTriggerMessage` it lays
over `packet->data`. -/
structure GenerateLoadTriggerMessage where
  target : Nat := 0
  size : Nat := 0
  amount : Nat := 0
  timeBetweenMessagesDs : Nat := 0
  deriving DecidableEq, Repr

/-- What the handler reads through the `NodeModuleResetMessage` it lays over
`packet->data`. -/
structure NodeModuleResetMessage where
  resetSeconds : Nat := 0
  deriving DecidableEq, Repr

/-- What the handler reads through the `PreferredConnectionMessage` it lays
over `packet->data`. -/
structure PreferredConnectionMessage where
  preferredConnectionMode : PreferredConnectionMode := PreferredConnectionMode.PENALTY
  preferredPartnerIds : List Nat := []
  amountOfPreferredPartnerIds : Nat := 0
  deriving DecidableEq, Repr

/-- The action type of a trigger action for the node module, together with
what the handler reads at `packet->data` for it. The handler reads these
values from the receive buffer whether or not the message is long enough to
hold them: where it is shorter they are whatever the buffer holds behind the
message. -/
inductive NodeTriggerAction where
  | SET_DISCOVERY (ds : Nat)
  | PING
  | START_GENERATE_LOAD (message : GenerateLoadTriggerMessage)
  | GENERATE_LOAD_CHUNK
  | RESET_NODE (message : NodeModuleResetMessage)
  | EMERGENCY_DISCONNECT
  | SET_PREFERRED_CONNECTIONS (message : PreferredConnectionMessage)
  | OTHER
  deriving DecidableEq, Repr

/-- An inbound mesh message, by message type: a cluster-info update, a
trigger action (with whether its module id is that of the node module and its
request handle), or a message of a type that does not touch the state of the
embedding (module configuration, action responses, time synchronisation). -/
inductive InboundMessage where
  | CLUSTER_INFO_UPDATE (packet : connPacketClusterInfoUpdate)
  | MODULE_TRIGGER_ACTION (forNodeModule : Bool) (requestHandle : Nat) (action : NodeTriggerAction)
  | OTHER
  deriving DecidableEq, Repr

/-- Embeds `Node::MeshMessageReceivedHandler` on the state. `connection` is the
index of the FruityMesh connection the message came in on (`none` for a null
connection or one of another type) and `dataLength` is `sendData->dataLength`.
The responses are outside the state; the reply and the disconnect call of
EMERGENCY_DISCONNECT are `emergencyDisconnectTrigger`. -/
def MeshMessageReceivedHandler (m : MessageConstants) (s : Node) (connection : Option Nat)
    (dataLength : Nat) (message : InboundMessage) : Node :=
  match message with
  | .CLUSTER_INFO_UPDATE packet =>
    match connection with
    | some c =>
      if m.SIZEOF_CONN_PACKET_CLUSTER_INFO_UPDATE ≤ dataLength then
        ReceiveClusterInfoUpdate s c packet
      else s
    | none => s
  | .MODULE_TRIGGER_ACTION forNodeModule requestHandle action =>
    if forNodeModule = true then
      match action with
      | .SET_DISCOVERY ds => setDiscoveryTrigger s ds
      | .PING => s
      | .START_GENERATE_LOAD message =>
        { s with
          generateLoadTarget := message.target
          generateLoadPayloadSize := message.size
          generateLoadMessagesLeft := message.amount
          generateLoadTimeBetweenMessagesDs := message.timeBetweenMessagesDs
          generateLoadRequestHandle := requestHandle }
      | .GENERATE_LOAD_CHUNK => s
      | .RESET_NODE message =>
        Reboot s ((message.resetSeconds * 10) % 4294967296) RebootReason.REMOTE_RESET
      | .EMERGENCY_DISCONNECT => s
      | .SET_PREFERRED_CONNECTIONS message =>
        if m.MAX_AMOUNT_PREFERRED_PARTNER_IDS < message.amountOfPreferredPartnerIds then s
        else
          let ids := message.preferredPartnerIds.take message.amountOfPreferredPartnerIds
          Reboot { s with preferredPartnerIds := ids, preferredConnectionMode := message.preferredConnectionMode }
            (SEC_TO_DS 10) RebootReason.PREFERRED_CONNECTIONS
      | .OTHER => s
    else s
  | .OTHER => s

/-! ## Utilities: CRC-16 and byte swapping -/

/-- Body of the loop of `Utility::CalculateCrc16` for one input byte, on a 16-bit
register: each line of the source is followed by the truncation to `uint16_t`. -/
def crc16Step (crc byte : Nat) : Nat :=
  -- crc = (unsigned char)(crc >> 8) | (crc << 8);
  let c1 := (((crc >>> 8) % 256) ||| (crc <<< 8)) % 65536
  -- crc ^= p_data[i];
  let c2 := (c1 ^^^ (byte % 256)) % 65536
  -- crc ^= (unsigned char)(crc & 0xff) >> 4;
  let c3 := (c2 ^^^ (((c2 &&& 255) % 256) >>> 4)) % 65536
  -- crc ^= (crc << 8) << 4;
  let c4 := (c3 ^^^ ((c3 <<< 8) <<< 4)) % 65536
  -- crc ^= ((crc & 0xff) << 4) << 1;
  (c4 ^^^ (((c4 &&& 255) <<< 4) <<< 1)) % 65536

/-- Embedding of `Utility::CalculateCrc16`: `p_crc = none` stands for `nullptr`, the
data block is the list of its bytes. -/
def CalculateCrc16 (p_data : List Nat) (p_crc : Option Nat) : Nat :=
  p_data.foldl crc16Step (match p_crc with | none => 65535 | some crc => crc % 65536)

/-- Reference CRC, written from the words of the specification and not from the
source: one shift of the bit-by-bit CRC-CCITT with polynomial 0x1021, most
significant bit first. -/
def crcCcittShift (crc : Nat) : Nat :=
  if crc &&& 32768 ≠ 0 then ((crc <<< 1) ^^^ 4129) % 65536 else (crc <<< 1) % 65536

/-- Reference CRC: eight shifts. -/
def crcCcittShift8 (crc : Nat) : Nat :=
  crcCcittShift (crcCcittShift (crcCcittShift (crcCcittShift (crcCcittShift (crcCcittShift
    (crcCcittShift (crcCcittShift crc)))))))

/-- Reference CRC: one input byte is xored into the high half of the register, then
the register is shifted eight times. -/
def crcCcittByte (crc byte : Nat) : Nat :=
  crcCcittShift8 (crc ^^^ ((byte % 256) <<< 8))

/-- Reference CRC-CCITT (0xFFFF): initial value 0xFFFF, no reflection, no final xor. -/
def crcCcittBitwise (data : List Nat) : Nat :=
  data.foldl crcCcittByte 65535

/-- Result of running `Utility::swapBytes` on a buffer: the buffer after the loop, or
the first index outside the buffer that the loop reads or writes. -/
inductive SwapOutcome where
  | done (data : List Nat)
  | outOfBounds (index : Nat)
  | outOfFuel
  deriving DecidableEq, Repr

/-- Loop of `Utility::swapBytes`: `for (...; hi > lo; lo++, hi--)` with the three
accesses `tmp = p[lo]; p[lo] = p[hi]; p[hi] = tmp` checked against the buffer. -/
def swapBytesLoop : Nat → List Nat → Nat → Nat → SwapOutcome
  | 0, _, _, _ => .outOfFuel
  | fuel + 1, p, lo, hi =>
    if hi > lo then
      if p.length ≤ lo then .outOfBounds lo
      else if p.length ≤ hi then .outOfBounds hi
      else swapBytesLoop fuel ((p.set lo (p.getD hi 0)).set hi (p.getD lo 0)) (lo + 1) (hi - 1)
    else .done p

/-- Embedding of `Utility::swapBytes (u8 *data, const size_t length)` with
`length = data.length`: `hi = length - 1` is computed in `size_t`, whose largest
value is the parameter `SIZE_MAX`. The loop runs at most `length / 2` times on
indices inside the buffer, so `length + 1` steps of fuel suffice. -/
def swapBytes (SIZE_MAX : Nat) (data : List Nat) : SwapOutcome :=
  swapBytesLoop (data.length + 1) data 0 ((data.length + SIZE_MAX) % (SIZE_MAX + 1))

/-! ## Concrete states used as test inputs -/

/-- A handshake-done link to node 2 whose side of the cluster has one node
and that expects the update counter 3. -/
def sampleLink : MeshConnection :=
  { partnerId := 2
    direction := ConnectionDirection.DIRECTION_OUT
    connectionState := ConnectionState.HANDSHAKE_DONE
    connectedClusterSize := 1
    hopsToSink := -1
    connectionMasterBit := false
    nextExpectedClusterUpdateCounter := 3 }

/-- A node in a cluster of size 2 whose only link is `sampleLink`. -/
def sampleNode : Node :=
  { nodeId := 1, clusterId := 7, clusterSize := 2, connections := [sampleLink] }

/-- An update with counter `expected + 2` for `sampleLink`. -/
def gapPacket : connPacketClusterInfoUpdate :=
  { sender := 2, clusterSizeChange := 1, hopsToSink := -1, counter := 5 }

/-- An update with the expected counter that adds one node and hands the
master bit over. -/
def handoverPacket : connPacketClusterInfoUpdate :=
  { sender := 2, clusterSizeChange := 1, hopsToSink := -1,
    connectionMasterBitHandover := true, counter := 3 }

/-- An update with the expected counter that takes five nodes away. -/
def shrinkPacket : connPacketClusterInfoUpdate :=
  { sender := 2, clusterSizeChange := -5, hopsToSink := -1, counter := 3 }

/-- A node whose only link expects the last counter value, 255. -/
def wrapNode : Node :=
  { nodeId := 1, clusterId := 7, clusterSize := 2,
    connections := [{ sampleLink with nextExpectedClusterUpdateCounter := 255 }] }

/-- A node with two links to the nodes 2 and 3. -/
def threeLinkNode : Node :=
  { nodeId := 1, clusterId := 7, clusterSize := 3,
    connections :=
      [sampleLink,
       { sampleLink with partnerId := 3, connectionMasterBit := true,
                         nextExpectedClusterUpdateCounter := 0 }] }

/-- Constants for the concrete inputs: JOIN_ME packets age out after 10 s,
links below -85 dBm count as unstable, a handshake times out after 4 s. -/
def sampleConstants : Constants :=
  { MAX_JOIN_ME_PACKET_AGE_DS := 100
    STABLE_CONNECTION_RSSI_THRESHOLD := -85
    meshHandshakeTimeoutDs := 40 }

/-- A single node (cluster 7, size 1) at time `now` with no links. -/
def singleNodeAt (now : Nat) : Node :=
  { nodeId := 1, clusterId := 7, clusterSize := 1, appTimerDs := now,
    freeMeshInConnections := 2, freeMeshOutConnections := 3 }

/-- A candidate of another cluster with free slots and a good signal, heard
at `received`, with `attempts` connection attempts, the last one at
`lastAttempt`. -/
def candidateEntry (received lastAttempt attempts : Nat) : joinMeBufferPacket :=
  { addr := 9, rssi := -60, receivedTimeDs := received
    lastConnectAttemptDs := lastAttempt, attemptsToConnect := attempts
    payload :=
      { sender := 9, clusterId := 99, clusterSize := 1
        freeMeshInConnections := 2, freeMeshOutConnections := 3
        deviceType := DeviceType.STATIC, hopsToSink := -1 } }

/-- A node of a cluster of size 2 whose only link has just finished the
handshake as the losing side and was told in ACK2 that the unified cluster
has size 0. -/
def loserNode : Node :=
  { nodeId := 1, clusterId := 7, clusterSize := 2,
    connections :=
      [{ sampleLink with
          connectionState := ConnectionState.HANDSHAKING
          clusterAck2Packet := { clusterId := 99, clusterSize := 0, hopsToSink := -1 } }] }

/-- A node of a cluster of size 2 that has just lost its only link. -/
def bereftNode : Node :=
  { nodeId := 1, clusterId := 7, clusterSize := 2, connections := [] }

/-- A node with the preferred-partner list `[4]` in PENALTY mode. -/
def pickyNode : Node :=
  { nodeId := 1, clusterId := 7, clusterSize := 1
    preferredPartnerIds := [4], preferredConnectionMode := PreferredConnectionMode.PENALTY }

/-- A single node at time 400 whose buffer holds one candidate, heard at 350,
with 20 connection attempts, the last one at 100. -/
def busyNode : Node :=
  { singleNodeAt 400 with joinMePackets := [candidateEntry 350 100 20] }

/-- A node at the last tick of the 32-bit timer whose buffer is full: slot 0
holds a stale candidate of another cluster (sender 5), slot 1 a candidate of
the node's own cluster 7 (sender 6) that was heard at this very tick. -/
def fullBufferNode : Node :=
  { singleNodeAt 4294967295 with
    joinMePackets :=
      [{ candidateEntry 0 0 0 with
          payload := { (candidateEntry 0 0 0).payload with sender := 5 } },
       { candidateEntry 4294967295 0 0 with
          payload := { (candidateEntry 0 0 0).payload with sender := 6, clusterId := 7 } }] }

/-- An observed JOIN_ME payload of sender 9 in cluster 50. -/
def observedPayload : advPacketPayloadJoinMeV0 :=
  { sender := 9, clusterId := 50, clusterSize := 1
    freeMeshInConnections := 1, freeMeshOutConnections := 1
    deviceType := DeviceType.STATIC, hopsToSink := -1 }

/-- A node of a two-node cluster that has just lost its only link; its
cluster id 1 is the one `GenerateClusterID` gave it at boot. -/
def pairNode : Node :=
  { nodeId := 1, clusterId := 1, clusterSize := 2, connectionLossCounter := 0,
    randomBootNumber := 0, connections := [] }

/-- A node of a cluster of size 2 with a handshake-done link to node 2 and a
second link, to node 3, that is about to finish its handshake: ACK1 came from
node 3 with 2 hops to a sink, ACK2 announces cluster 99 of size 5. -/
def handshakingNode : Node :=
  { nodeId := 1, clusterId := 7, clusterSize := 2,
    connections :=
      [sampleLink,
       { partnerId := 0
         direction := ConnectionDirection.DIRECTION_IN
         connectionState := ConnectionState.HANDSHAKING
         currentClusterInfoUpdatePacket := { clusterSizeChange := 4, hopsToSink := -1 }
         clusterIDBackup := 31
         clusterAck1Packet := { sender := 3, hopsToSink := 2 }
         clusterAck2Packet := { clusterId := 99, clusterSize := 5, hopsToSink := -1 } }] }

/-- A node of a two-node cluster whose discovery was switched off by a
SET_DISCOVERY command. -/
def silentNode : Node :=
  { nodeId := 1, clusterId := 1, clusterSize := 2, connections := [],
    currentDiscoveryState := DiscoveryState.OFF, nextDiscoveryState := DiscoveryState.INVALID,
    highToLowDiscoveryTimeSec := 60 }

/-- A node in LOW discovery with a high-to-low timeout of 60 s and one
handshake-done link. -/
def calmNode : Node :=
  { nodeId := 1, clusterId := 7, clusterSize := 2, connections := [sampleLink],
    currentDiscoveryState := DiscoveryState.LOW, nextDiscoveryState := DiscoveryState.INVALID,
    highToLowDiscoveryTimeSec := 60 }

/-- A node of a cluster of 7 whose three outbound slots are all in use: the
links at index 0, 2 and 3 are outbound and handshake-done, with 1, 2 and 3
nodes behind them; the link at index 1 is inbound. -/
def crowdedNode : Node :=
  { nodeId := 1, clusterId := 7, clusterSize := 7, freeMeshOutConnections := 0,
    connections :=
      [{ partnerId := 2, connectedClusterSize := 1, connectionMasterBit := true },
       { partnerId := 3, connectedClusterSize := 0,
         direction := ConnectionDirection.DIRECTION_IN,
         connectionState := ConnectionState.HANDSHAKING },
       { partnerId := 4, connectedClusterSize := 2, connectionMasterBit := true },
       { partnerId := 5, connectedClusterSize := 3, connectionMasterBit := true }] }

/-- Advertisement constants for the concrete inputs. -/
def sampleAdvConstants : AdvConstants :=
  { MESH_COMPANY_IDENTIFIER := 589, MESH_IDENTIFIER := 240, JOIN_ME_V0 := 1,
    ADV_IND := 0, ADV_NONCONN_IND := 3 }

/-- A sink of cluster 70000 with 300 nodes, one free slot in each direction,
an ack for cluster 66000 pending and a single inbound slot configured. -/
def beaconNode : Node :=
  { nodeId := 513, networkId := 11, deviceType := DeviceType.SINK,
    clusterId := 70000, clusterSize := 300, currentAckId := 66000,
    freeMeshInConnections := 1, freeMeshOutConnections := 1, meshMaxInConnections := 1 }

/-- The surroundings of `beaconNode`: a battery at 29, a transmit power of
-4 dBm and the write handle 14. -/
def beaconContext : AdvertisingContext :=
  { batteryVoltage := some 29, defaultDBmTX := -4, sendMessageCharacteristicHandle := 14 }

/-- Message constants for the concrete inputs: a cluster-info update of 11
bytes, a module message header of 8 bytes and room for 8 preferred partners. -/
def sampleMessageConstants : MessageConstants :=
  { SIZEOF_CONN_PACKET_CLUSTER_INFO_UPDATE := 11
    SIZEOF_CONN_PACKET_MODULE := 8
    MAX_AMOUNT_PREFERRED_PARTNER_IDS := 8 }

/-- The test `HasAllMasterBits` makes on one link. -/
def linkHoldsBit (c : MeshConnection) : Bool :=
  !(c.IsHandshakeDone && !c.connectionMasterBit)

/-- The link-local function an accepted update applies to the link at index
`j`: governor, propagator step, governor. -/
def acceptedLinkMap (s1 : Node) (connection : Nat) (sizeChange : Int) (j : Nat)
    (x : MeshConnection) : MeshConnection :=
  let h1 := HandOverMasterBitIfNecessary s1
  let packet : Option connPacketClusterInfoUpdate := some { clusterSizeChange := sizeChange }
  let step := sendClusterInfoUpdateStep h1 (some connection) packet
  governLink { h1 with connections := h1.connections.mapIdx step } (step j (governLink s1 x))

/-- What `SendClusterInfoUpdate` does to the link at index `j`: the step of
the propagator, then the governor. -/
def sendLinkMap (s : Node) (ign : Option Nat) (packet : Option connPacketClusterInfoUpdate)
    (j : Nat) (c : MeshConnection) : MeshConnection :=
  let step := sendClusterInfoUpdateStep s ign packet
  governLink { s with connections := s.connections.mapIdx step } (step j c)

/-- The slot `DetermineBestCluster` looks for: slot `i` holds `p`, a candidate
with nonzero sender and a score above 0 that no candidate beats and no earlier
candidate equals. -/
def IsBestSlot (rating : joinMeBufferPacket → Nat) (slots : List joinMeBufferPacket)
    (i : Nat) (p : joinMeBufferPacket) : Prop :=
  slots[i]? = some p ∧ p.payload.sender ≠ 0 ∧ 0 < rating p
    ∧ (∀ q ∈ slots, q.payload.sender ≠ 0 → rating q ≤ rating p)
    ∧ (∀ j q, j < i → slots[j]? = some q → q.payload.sender ≠ 0 → rating q < rating p)

/-- Some candidate with nonzero sender has a score above 0. -/
def HasCandidate (rating : joinMeBufferPacket → Nat) (slots : List joinMeBufferPacket) : Prop :=
  ∃ p ∈ slots, p.payload.sender ≠ 0 ∧ 0 < rating p

/-- The chosen candidate after the connect call of
`DetermineBestClusterAvailable`: on success the time of the attempt is noted
and the attempts counter is bumped while it is at most 20. -/
def noteConnectAttempt (now : Nat) (connectSucceeds : Bool) (best : joinMeBufferPacket) :
    joinMeBufferPacket :=
  if connectSucceeds then
    { best with
      lastConnectAttemptDs := now
      attemptsToConnect :=
        if best.attemptsToConnect ≤ 20 then best.attemptsToConnect + 1
        else best.attemptsToConnect }
  else best

/-- Slot `i` holds `b`, the first slot with the property `P`. -/
def IsFirstSlot (P : joinMeBufferPacket → Prop) (slots : List joinMeBufferPacket)
    (i : Nat) (b : joinMeBufferPacket) : Prop :=
  slots[i]? = some b ∧ P b ∧ ∀ j c, j < i → slots[j]? = some c → ¬ P c

/-- Slot `i` holds `b`, the first among the slots with the property `P` whose
`key` is lowest, and that key is below `UINT32_MAX`. -/
def IsLowestSlot (P : joinMeBufferPacket → Prop) (key : joinMeBufferPacket → Nat)
    (slots : List joinMeBufferPacket) (i : Nat) (b : joinMeBufferPacket) : Prop :=
  slots[i]? = some b ∧ P b ∧ key b < UINT32_MAX
    ∧ (∀ c ∈ slots, P c → key b ≤ key c)
    ∧ (∀ j c, j < i → slots[j]? = some c → P c → key b < key c)

/-- The link of `HandshakeDoneHandler` after the winner branch has filled in
the partner's data from ACK1. -/
def wonLink (c : MeshConnection) : MeshConnection :=
  { c with
    hopsToSink :=
      if c.clusterAck1Packet.hopsToSink < 0 then -1 else toI16 (c.clusterAck1Packet.hopsToSink + 1)
    connectedClusterId := c.clusterIDBackup
    partnerId := c.clusterAck1Packet.sender
    connectedClusterSize := 1 }

/-- The link of `HandshakeDoneHandler` after the loser branch has filled in
the bigger cluster's data from ACK2 and dropped the queued update. -/
def lostLink (c : MeshConnection) : MeshConnection :=
  { c with
    connectedClusterId := c.clusterAck2Packet.clusterId
    connectedClusterSize := toI16 (c.clusterAck2Packet.clusterSize - 1)
    currentClusterInfoUpdatePacket := {}
    hopsToSink :=
      if c.clusterAck2Packet.hopsToSink < 0 then -1 else toI16 (c.clusterAck2Packet.hopsToSink + 1) }

/-- The node of `HandshakeDoneHandler` with the candidate slots of the new
partner cleared. -/
def forgetPartner (s : Node) (c : MeshConnection) : Node :=
  { s with joinMePackets := s.joinMePackets.map (fun packet =>
      if packet.payload.sender = c.partnerId then clearedJoinMeBufferPacket else packet) }

/-- Marks a link as HANDSHAKE_DONE at the time `t`. -/
def markHandshakeDone (t : Nat) (d : MeshConnection) : MeshConnection :=
  { d with
    connectionState := ConnectionState.HANDSHAKE_DONE
    connectionHandshakedTimestampDs := t }

/-- The node of `HandshakeDoneHandler` after the link at index `i` has been
marked HANDSHAKE_DONE. -/
def markedNode (s1 : Node) (i : Nat) : Node :=
  { s1 with connections := s1.connections.modify (markHandshakeDone s1.appTimerDs) i }

/-- The part of `HandshakeDoneHandler` that follows the commit step. -/
def finishHandshake (s1 : Node) (i : Nat) : Node :=
  HandOverMasterBitIfNecessary
    (KeepHighDiscoveryActive (SendClusterInfoUpdate (markedNode s1 i) (some i) none))

/-- The node of `MeshConnectionDisconnectedHandler` after the connection
loss counter has been incremented. -/
def lossCounted (s : Node) : Node :=
  { s with connectionLossCounter := (s.connectionLossCounter + 1) % 4294967296 }

/-- The line `if (clusterSize == 1) clusterId = GenerateClusterID();` of
`MeshConnectionDisconnectedHandler`. -/
def reclusterIfAlone (s2 : Node) : Node :=
  if s2.clusterSize = 1 then { s2 with clusterId := GenerateClusterID s2 } else s2

/-- The part of `MeshConnectionDisconnectedHandler` that follows the update
of the cluster size. -/
def afterDisconnect (s1 : Node) : Node :=
  let s4 := HandOverMasterBitIfNecessary (reclusterIfAlone (KeepHighDiscoveryActive s1))
  { s4 with noNodesFoundCounter := 0, disconnectTimestampDs := s4.appTimerDs }

/-- The node of `MeshConnectionDisconnectedHandler` after the case analysis on
the state of the lost link and on its master bit, before
`KeepHighDiscoveryActive` is called. -/
def disconnectCore (s : Node) (appDisconnectReason : AppDisconnectReason)
    (connectionStateBeforeDisconnection : ConnectionState) (hadConnectionMasterBit : Bool)
    (connectedClusterSize : Int) : Node :=
  if ConnectionState.HANDSHAKE_DONE.rank ≤ connectionStateBeforeDisconnection.rank then
    if hadConnectionMasterBit = false then
      let sa : Node :=
        if appDisconnectReason ≠ AppDisconnectReason.I_AM_SMALLER then
          ForceDisconnectOtherMeshConnections (lossCounted s)
        else lossCounted s
      SendClusterInfoUpdate { sa with clusterSize := 1, clusterId := GenerateClusterID sa } none none
    else
      SendClusterInfoUpdate
        { lossCounted s with clusterSize := toI16 ((lossCounted s).clusterSize - connectedClusterSize) }
        none (some { clusterSizeChange := toI16 (-connectedClusterSize) })
  else lossCounted s

/-- The node is owner of its cluster: it holds the master bit of every
handshake-done link. -/
def IsOwner (s : Node) : Prop :=
  ∀ d ∈ s.connections, d.IsHandshakeDone = true → d.connectionMasterBit = true

/-- The fields that neither the propagator nor the governor nor a forced
disconnect touch: identity of the node, loss counter, boot number and the
inputs of the discovery state machine. -/
def sameCore (a b : Node) : Prop :=
  a.nodeId = b.nodeId ∧ a.connectionLossCounter = b.connectionLossCounter
    ∧ a.randomBootNumber = b.randomBootNumber
    ∧ a.currentDiscoveryState = b.currentDiscoveryState
    ∧ a.nextDiscoveryState = b.nextDiscoveryState
    ∧ a.currentStateTimeoutDs = b.currentStateTimeoutDs
    ∧ a.stateMachineDisabled = b.stateMachineDisabled
    ∧ a.deviceType = b.deviceType
    ∧ a.highToLowDiscoveryTimeSec = b.highToLowDiscoveryTimeSec

/-- The values each field of the JOIN_ME payload can take on the air: the
ranges of the field widths of the wire format. -/
def FitsWire (p : advPacketPayloadJoinMeV0) : Prop :=
  p.sender < 65536 ∧ p.clusterId < 4294967296
    ∧ -32768 ≤ p.clusterSize ∧ p.clusterSize ≤ 32767
    ∧ p.freeMeshInConnections < 256 ∧ p.freeMeshOutConnections < 256
    ∧ p.batteryRuntime < 256
    ∧ -128 ≤ p.txPower ∧ p.txPower ≤ 127
    ∧ -32768 ≤ p.hopsToSink ∧ p.hopsToSink ≤ 32767
    ∧ p.meshWriteHandle < 65536 ∧ p.ackField < 4294967296

/-- The connected cluster sizes of the links of the node, with 0 at the place
of every link that is not handshake-done. -/
def handshakedSizes (s : Node) : List Int :=
  s.connections.map (fun c => if c.IsHandshakeDone = true then c.connectedClusterSize else 0)

/-- The handover condition of `HandOverMasterBitIfNecessary` for one link. -/
def wantsHandover (s : Node) (c : MeshConnection) : Prop :=
  c.IsHandshakeDone = true ∧ s.clusterSize - c.connectedClusterSize < c.connectedClusterSize

/-- Last three lines of the loop body of `CalculateCrc16`, applied to the register
after the input byte has been xored in. -/
def crc16Tail (c2 : Nat) : Nat :=
  let c3 := (c2 ^^^ (((c2 &&& 255) % 256) >>> 4)) % 65536
  let c4 := (c3 ^^^ ((c3 <<< 8) <<< 4)) % 65536
  (c4 ^^^ (((c4 &&& 255) <<< 4) <<< 1)) % 65536

/-- The values of a buffer slot that the scorers read lie in the ranges of their
wire types: one byte for each free-link count, a signed byte for the RSSI and a
signed 16-bit cluster size. -/
def SlotInRange (b : joinMeBufferPacket) : Prop :=
  b.payload.freeMeshInConnections < 256 ∧ b.payload.freeMeshOutConnections < 256
    ∧ -128 ≤ b.rssi ∧ b.rssi ≤ 127 ∧ b.payload.clusterSize ≤ 32767

/-! ## Lemmas on 16-bit truncation -/

theorem toI16_of_range (v : Int) (h1 : -32768 ≤ v) (h2 : v ≤ 32767) : toI16 v = v := by
  unfold toI16
  omega

theorem toI16_range (v : Int) : -32768 ≤ toI16 v ∧ toI16 v ≤ 32767 := by
  unfold toI16
  omega

theorem toI16_add_toI16 (a b : Int) : toI16 (toI16 a + b) = toI16 (a + b) := by
  unfold toI16
  omega

theorem hops_succ_of_range (hops : Int) (h : hops < 32767) :
    (if hops < 0 then (-1 : Int) else toI16 (hops + 1)) = if hops < 0 then -1 else hops + 1 := by
  by_cases h0 : hops < 0
  · rw [if_pos h0, if_pos h0]
  · rw [if_neg h0, if_neg h0, toI16_of_range _ (by omega) (by omega)]

/-! ## Lemmas on the master-bit governor and the propagator -/

theorem HandOverMasterBitIfNecessary_eq (s : Node) :
    HandOverMasterBitIfNecessary s = { s with connections := s.connections.map (governLink s) } := by
  unfold HandOverMasterBitIfNecessary governLink
  cases h : HasAllMasterBits s <;> simp

theorem HandOverMasterBitIfNecessary_getElem? (s : Node) (j : Nat) :
    (HandOverMasterBitIfNecessary s).connections[j]? = (s.connections[j]?).map (governLink s) := by
  rw [HandOverMasterBitIfNecessary_eq]; simp

theorem HandOverMasterBitIfNecessary_clusterSize (s : Node) :
    (HandOverMasterBitIfNecessary s).clusterSize = s.clusterSize := by
  rw [HandOverMasterBitIfNecessary_eq]

theorem HandOverMasterBitIfNecessary_clusterId (s : Node) :
    (HandOverMasterBitIfNecessary s).clusterId = s.clusterId := by
  rw [HandOverMasterBitIfNecessary_eq]

theorem SendClusterInfoUpdate_getElem? (s : Node) (ign : Option Nat)
    (packet : Option connPacketClusterInfoUpdate) (j : Nat) :
    (SendClusterInfoUpdate s ign packet).connections[j]?
      = (s.connections[j]?).map (fun c =>
          governLink { s with connections := s.connections.mapIdx (sendClusterInfoUpdateStep s ign packet) }
            (sendClusterInfoUpdateStep s ign packet j c)) := by
  unfold SendClusterInfoUpdate
  rw [HandOverMasterBitIfNecessary_getElem?]
  simp only [List.getElem?_mapIdx, Option.map_map]
  rfl

theorem SendClusterInfoUpdate_clusterSize (s : Node) (ign : Option Nat)
    (packet : Option connPacketClusterInfoUpdate) :
    (SendClusterInfoUpdate s ign packet).clusterSize = s.clusterSize := by
  unfold SendClusterInfoUpdate
  rw [HandOverMasterBitIfNecessary_clusterSize]

theorem SendClusterInfoUpdate_clusterId (s : Node) (ign : Option Nat)
    (packet : Option connPacketClusterInfoUpdate) :
    (SendClusterInfoUpdate s ign packet).clusterId = s.clusterId := by
  unfold SendClusterInfoUpdate
  rw [HandOverMasterBitIfNecessary_clusterId]

theorem ChangeState_clusterSize (s : Node) (n : DiscoveryState) :
    (ChangeState s n).clusterSize = s.clusterSize := by
  unfold ChangeState
  split
  · rfl
  · cases n <;> rfl

theorem ChangeState_connections (s : Node) (n : DiscoveryState) :
    (ChangeState s n).connections = s.connections := by
  unfold ChangeState
  split
  · rfl
  · cases n <;> rfl

theorem ChangeState_clusterId (s : Node) (n : DiscoveryState) :
    (ChangeState s n).clusterId = s.clusterId := by
  unfold ChangeState
  split
  · rfl
  · cases n <;> rfl

theorem KeepHighDiscoveryActive_clusterSize (s : Node) :
    (KeepHighDiscoveryActive s).clusterSize = s.clusterSize := by
  unfold KeepHighDiscoveryActive
  split
  · rfl
  · split
    · rfl
    · exact ChangeState_clusterSize s _

theorem KeepHighDiscoveryActive_connections (s : Node) :
    (KeepHighDiscoveryActive s).connections = s.connections := by
  unfold KeepHighDiscoveryActive
  split
  · rfl
  · split
    · rfl
    · exact ChangeState_connections s _

theorem KeepHighDiscoveryActive_clusterId (s : Node) :
    (KeepHighDiscoveryActive s).clusterId = s.clusterId := by
  unfold KeepHighDiscoveryActive
  split
  · rfl
  · split
    · rfl
    · exact ChangeState_clusterId s _

/-! ### Fields that the governor and the propagator leave alone -/

theorem governLink_nextExpected (s : Node) (c : MeshConnection) :
    (governLink s c).nextExpectedClusterUpdateCounter = c.nextExpectedClusterUpdateCounter := by
  unfold governLink MeshConnection.HandoverMasterBit; split <;> rfl

theorem governLink_connectedClusterSize (s : Node) (c : MeshConnection) :
    (governLink s c).connectedClusterSize = c.connectedClusterSize := by
  unfold governLink MeshConnection.HandoverMasterBit; split <;> rfl

theorem governLink_hopsToSink (s : Node) (c : MeshConnection) :
    (governLink s c).hopsToSink = c.hopsToSink := by
  unfold governLink MeshConnection.HandoverMasterBit; split <;> rfl

theorem governLink_connectionState (s : Node) (c : MeshConnection) :
    (governLink s c).connectionState = c.connectionState := by
  unfold governLink MeshConnection.HandoverMasterBit; split <;> rfl

theorem governLink_sizeChange (s : Node) (c : MeshConnection) :
    (governLink s c).currentClusterInfoUpdatePacket.clusterSizeChange
      = c.currentClusterInfoUpdatePacket.clusterSizeChange := by
  unfold governLink MeshConnection.HandoverMasterBit; split <;> rfl

theorem governLink_masterBit (s : Node) (c : MeshConnection) :
    (governLink s c).connectionMasterBit
      = (c.connectionMasterBit && !(HasAllMasterBits s && (c.IsHandshakeDone
          && decide (s.clusterSize - c.connectedClusterSize < c.connectedClusterSize)))) := by
  unfold governLink MeshConnection.HandoverMasterBit
  split
  · next h => simp [h]
  · next h => simp [h]

theorem step_nextExpected (s : Node) (ign : Option Nat) (packet : Option connPacketClusterInfoUpdate)
    (j : Nat) (c : MeshConnection) :
    (sendClusterInfoUpdateStep s ign packet j c).nextExpectedClusterUpdateCounter
      = c.nextExpectedClusterUpdateCounter := by
  unfold sendClusterInfoUpdateStep
  split
  · split
    · rfl
    · split <;> rfl
  · rfl

theorem step_connectedClusterSize (s : Node) (ign : Option Nat)
    (packet : Option connPacketClusterInfoUpdate) (j : Nat) (c : MeshConnection) :
    (sendClusterInfoUpdateStep s ign packet j c).connectedClusterSize = c.connectedClusterSize := by
  unfold sendClusterInfoUpdateStep
  split
  · split
    · rfl
    · split <;> rfl
  · rfl

theorem step_hopsToSink (s : Node) (ign : Option Nat) (packet : Option connPacketClusterInfoUpdate)
    (j : Nat) (c : MeshConnection) :
    (sendClusterInfoUpdateStep s ign packet j c).hopsToSink = c.hopsToSink := by
  unfold sendClusterInfoUpdateStep
  split
  · split
    · rfl
    · split <;> rfl
  · rfl

theorem step_connectionState (s : Node) (ign : Option Nat) (packet : Option connPacketClusterInfoUpdate)
    (j : Nat) (c : MeshConnection) :
    (sendClusterInfoUpdateStep s ign packet j c).connectionState = c.connectionState := by
  unfold sendClusterInfoUpdateStep
  split
  · split
    · rfl
    · split <;> rfl
  · rfl

theorem step_masterBit (s : Node) (ign : Option Nat) (packet : Option connPacketClusterInfoUpdate)
    (j : Nat) (c : MeshConnection) :
    (sendClusterInfoUpdateStep s ign packet j c).connectionMasterBit = c.connectionMasterBit := by
  unfold sendClusterInfoUpdateStep
  split
  · split
    · rfl
    · split <;> rfl
  · rfl

theorem step_sizeChange (s : Node) (ign : Option Nat) (packet : Option connPacketClusterInfoUpdate)
    (j : Nat) (c : MeshConnection) :
    (sendClusterInfoUpdateStep s ign packet j c).currentClusterInfoUpdatePacket.clusterSizeChange
      = if c.isConnected = true ∧ ign ≠ some j then
          c.currentClusterInfoUpdatePacket.clusterSizeChange
            + (match packet with | none => 0 | some q => q.clusterSizeChange)
        else c.currentClusterInfoUpdatePacket.clusterSizeChange := by
  unfold sendClusterInfoUpdateStep
  by_cases hc : c.isConnected = true
  · by_cases hi : ign = some j
    · simp [hc, hi]
    · cases packet <;> simp [hc, hi]
  · simp [hc]

/-! ### Who holds all master bits -/

theorem HasAllMasterBits_eq (s : Node) :
    HasAllMasterBits s = (s.connections.map linkHoldsBit).all id := by
  unfold HasAllMasterBits
  induction s.connections with
  | nil => rfl
  | cons a l ih => simp only [List.all_cons, List.map_cons, ih]; rfl

theorem map_mapIdx_of_forall {α β : Type} (q : α → β) (l : List α) :
    ∀ f : Nat → α → α, (∀ i a, q (f i a) = q a) → (l.mapIdx f).map q = l.map q := by
  induction l with
  | nil => intro f _; simp
  | cons a l ih =>
    intro f hf
    rw [List.mapIdx_cons, List.map_cons, List.map_cons, hf 0 a]
    rw [ih (fun i => f (i + 1)) (fun i b => hf (i + 1) b)]

theorem governLink_holdsBit_of_not (s : Node) (h : HasAllMasterBits s = false) (c : MeshConnection) :
    governLink s c = c := by
  unfold governLink
  simp [h]

theorem HasAllMasterBits_of_handOver (s : Node)
    (h : HasAllMasterBits (HandOverMasterBitIfNecessary s) = true) : HasAllMasterBits s = true := by
  cases hs : HasAllMasterBits s with
  | true => rfl
  | false =>
    have : HandOverMasterBitIfNecessary s = s := by
      unfold HandOverMasterBitIfNecessary
      simp [hs]
    rw [this] at h
    rw [hs] at h
    exact h

theorem step_holdsBit (s : Node) (ign : Option Nat) (packet : Option connPacketClusterInfoUpdate)
    (j : Nat) (c : MeshConnection) :
    linkHoldsBit (sendClusterInfoUpdateStep s ign packet j c) = linkHoldsBit c := by
  unfold linkHoldsBit MeshConnection.IsHandshakeDone
  rw [step_connectionState, step_masterBit]

theorem HasAllMasterBits_mapIdx_step (s : Node) (ign : Option Nat)
    (packet : Option connPacketClusterInfoUpdate) :
    HasAllMasterBits
        { s with connections := s.connections.mapIdx (sendClusterInfoUpdateStep s ign packet) }
      = HasAllMasterBits s := by
  rw [HasAllMasterBits_eq, HasAllMasterBits_eq]
  show ((s.connections.mapIdx (sendClusterInfoUpdateStep s ign packet)).map linkHoldsBit).all id = _
  rw [map_mapIdx_of_forall linkHoldsBit s.connections _ (step_holdsBit s ign packet)]

/-! ### Inbound updates -/

theorem ReceiveClusterInfoUpdate_of_mismatch (s : Node) (connection : Nat) (c : MeshConnection)
    (packet : connPacketClusterInfoUpdate) (hlink : s.connections[connection]? = some c)
    (hcounter : c.nextExpectedClusterUpdateCounter ≠ packet.counter) :
    ReceiveClusterInfoUpdate s connection packet = s := by
  unfold ReceiveClusterInfoUpdate
  simp [hlink, hcounter]

theorem ReceiveClusterInfoUpdate_of_match (s : Node) (connection : Nat) (c : MeshConnection)
    (packet : connPacketClusterInfoUpdate) (hlink : s.connections[connection]? = some c)
    (hcounter : c.nextExpectedClusterUpdateCounter = packet.counter) :
    ReceiveClusterInfoUpdate s connection packet
      = KeepHighDiscoveryActive
          (SendClusterInfoUpdate
            (HandOverMasterBitIfNecessary (acceptedUpdateState s connection c packet))
            (some connection) (some { clusterSizeChange := packet.clusterSizeChange })) := by
  unfold ReceiveClusterInfoUpdate
  simp [hlink, hcounter]

theorem ReceiveClusterInfoUpdate_clusterSize (s : Node) (connection : Nat)
    (packet : connPacketClusterInfoUpdate) :
    (ReceiveClusterInfoUpdate s connection packet).clusterSize
      = if acceptsUpdate s connection packet = true ∧ packet.clusterSizeChange ≠ 0 then
          toI16 (s.clusterSize + packet.clusterSizeChange)
        else s.clusterSize := by
  unfold acceptsUpdate
  cases hlink : s.connections[connection]? with
  | none => simp [ReceiveClusterInfoUpdate, hlink]
  | some c =>
    by_cases hcounter : c.nextExpectedClusterUpdateCounter = packet.counter
    · rw [ReceiveClusterInfoUpdate_of_match s connection c packet hlink hcounter,
        KeepHighDiscoveryActive_clusterSize, SendClusterInfoUpdate_clusterSize,
        HandOverMasterBitIfNecessary_clusterSize]
      unfold acceptedUpdateState
      by_cases hz : packet.clusterSizeChange = 0 <;> simp [hcounter, hz]
    · rw [ReceiveClusterInfoUpdate_of_mismatch s connection c packet hlink hcounter]
      simp [hcounter]

theorem ReceiveClusterInfoUpdate_getElem? (s : Node) (connection : Nat) (c : MeshConnection)
    (packet : connPacketClusterInfoUpdate) (hlink : s.connections[connection]? = some c)
    (hcounter : c.nextExpectedClusterUpdateCounter = packet.counter) (j : Nat) :
    (ReceiveClusterInfoUpdate s connection packet).connections[j]?
      = ((acceptedUpdateState s connection c packet).connections[j]?).map
          (acceptedLinkMap (acceptedUpdateState s connection c packet) connection
            packet.clusterSizeChange j) := by
  rw [ReceiveClusterInfoUpdate_of_match s connection c packet hlink hcounter,
    KeepHighDiscoveryActive_connections, SendClusterInfoUpdate_getElem?,
    HandOverMasterBitIfNecessary_getElem?, Option.map_map]
  rfl

theorem applyUpdateToLink_nextExpected (c : MeshConnection) (p : connPacketClusterInfoUpdate) :
    (applyUpdateToLink c p).nextExpectedClusterUpdateCounter
      = (c.nextExpectedClusterUpdateCounter + 1) % 256 := by
  unfold applyUpdateToLink
  simp only
  split <;> split <;> rfl

theorem applyUpdateToLink_connectedClusterSize (c : MeshConnection) (p : connPacketClusterInfoUpdate) :
    (applyUpdateToLink c p).connectedClusterSize
      = if p.clusterSizeChange ≠ 0 then toI16 (c.connectedClusterSize + p.clusterSizeChange)
        else c.connectedClusterSize := by
  unfold applyUpdateToLink
  simp only
  by_cases hz : p.clusterSizeChange = 0
  · split <;> simp [hz]
  · split <;> simp [hz]

theorem applyUpdateToLink_hopsToSink (c : MeshConnection) (p : connPacketClusterInfoUpdate) :
    (applyUpdateToLink c p).hopsToSink
      = if 0 ≤ p.hopsToSink then toI16 (p.hopsToSink + 1) else -1 := by
  unfold applyUpdateToLink
  simp only
  have hiff : (-1 < p.hopsToSink) ↔ (0 ≤ p.hopsToSink) := by omega
  split <;> split <;> simp [hiff]

theorem applyUpdateToLink_connectionState (c : MeshConnection) (p : connPacketClusterInfoUpdate) :
    (applyUpdateToLink c p).connectionState = c.connectionState := by
  unfold applyUpdateToLink
  simp only
  split <;> split <;> rfl

theorem applyUpdateToLink_pending (c : MeshConnection) (p : connPacketClusterInfoUpdate) :
    (applyUpdateToLink c p).currentClusterInfoUpdatePacket = c.currentClusterInfoUpdatePacket := by
  unfold applyUpdateToLink
  simp only
  split <;> split <;> rfl

theorem applyUpdateToLink_masterBit (c : MeshConnection) (p : connPacketClusterInfoUpdate) :
    (applyUpdateToLink c p).connectionMasterBit
      = (p.connectionMasterBitHandover || c.connectionMasterBit) := by
  unfold applyUpdateToLink
  cases h : p.connectionMasterBitHandover <;> by_cases hz : p.clusterSizeChange = 0 <;> simp [hz]

theorem acceptedUpdateState_clusterSize (s : Node) (i : Nat) (c : MeshConnection)
    (p : connPacketClusterInfoUpdate) :
    (acceptedUpdateState s i c p).clusterSize
      = if p.clusterSizeChange ≠ 0 then toI16 (s.clusterSize + p.clusterSizeChange)
        else s.clusterSize := by
  unfold acceptedUpdateState
  by_cases hz : p.clusterSizeChange = 0 <;> simp [hz]

theorem applyUpdateToLink_connectedClusterSize_of_range (c : MeshConnection)
    (p : connPacketClusterInfoUpdate)
    (h : -32768 ≤ c.connectedClusterSize + p.clusterSizeChange
      ∧ c.connectedClusterSize + p.clusterSizeChange ≤ 32767) :
    (applyUpdateToLink c p).connectedClusterSize = c.connectedClusterSize + p.clusterSizeChange := by
  rw [applyUpdateToLink_connectedClusterSize]
  by_cases hz : p.clusterSizeChange = 0
  · rw [if_neg (fun hne => hne hz), hz]
    omega
  · rw [if_pos hz, toI16_of_range _ h.1 h.2]

theorem applyUpdateToLink_hopsToSink_of_range (c : MeshConnection)
    (p : connPacketClusterInfoUpdate) (h : p.hopsToSink < 32767) :
    (applyUpdateToLink c p).hopsToSink = if 0 ≤ p.hopsToSink then p.hopsToSink + 1 else -1 := by
  rw [applyUpdateToLink_hopsToSink]
  by_cases h0 : 0 ≤ p.hopsToSink
  · rw [if_pos h0, if_pos h0, toI16_of_range _ (by omega) (by omega)]
  · rw [if_neg h0, if_neg h0]

theorem acceptedUpdateState_clusterSize_of_range (s : Node) (i : Nat) (c : MeshConnection)
    (p : connPacketClusterInfoUpdate)
    (h : -32768 ≤ s.clusterSize + p.clusterSizeChange
      ∧ s.clusterSize + p.clusterSizeChange ≤ 32767) :
    (acceptedUpdateState s i c p).clusterSize = s.clusterSize + p.clusterSizeChange := by
  rw [acceptedUpdateState_clusterSize]
  by_cases hz : p.clusterSizeChange = 0
  · rw [if_neg (fun hne => hne hz), hz]
    omega
  · rw [if_pos hz, toI16_of_range _ h.1 h.2]

theorem acceptedLinkMap_nextExpected (s1 : Node) (i : Nat) (d : Int) (j : Nat) (x : MeshConnection) :
    (acceptedLinkMap s1 i d j x).nextExpectedClusterUpdateCounter
      = x.nextExpectedClusterUpdateCounter := by
  simp only [acceptedLinkMap, governLink_nextExpected, step_nextExpected]

theorem acceptedLinkMap_connectedClusterSize (s1 : Node) (i : Nat) (d : Int) (j : Nat)
    (x : MeshConnection) :
    (acceptedLinkMap s1 i d j x).connectedClusterSize = x.connectedClusterSize := by
  simp only [acceptedLinkMap, governLink_connectedClusterSize, step_connectedClusterSize]

theorem acceptedLinkMap_hopsToSink (s1 : Node) (i : Nat) (d : Int) (j : Nat) (x : MeshConnection) :
    (acceptedLinkMap s1 i d j x).hopsToSink = x.hopsToSink := by
  simp only [acceptedLinkMap, governLink_hopsToSink, step_hopsToSink]

theorem acceptedLinkMap_sizeChange (s1 : Node) (i : Nat) (d : Int) (j : Nat) (x : MeshConnection) :
    (acceptedLinkMap s1 i d j x).currentClusterInfoUpdatePacket.clusterSizeChange
      = if x.isConnected = true ∧ j ≠ i then x.currentClusterInfoUpdatePacket.clusterSizeChange + d
        else x.currentClusterInfoUpdatePacket.clusterSizeChange := by
  simp only [acceptedLinkMap, governLink_sizeChange, step_sizeChange]
  have hconn : (governLink s1 x).isConnected = x.isConnected := by
    unfold MeshConnection.isConnected
    rw [governLink_connectionState]
  rw [hconn]
  by_cases hc : x.isConnected = true
  · by_cases hj : j = i
    · simp [hc, hj]
    · have : ¬ (i = j) := fun h => hj h.symm
      simp [hc, hj, this]
  · simp [hc]

theorem acceptedLinkMap_masterBit (s1 : Node) (i : Nat) (d : Int) (j : Nat) (x : MeshConnection) :
    (acceptedLinkMap s1 i d j x).connectionMasterBit
      = (x.connectionMasterBit && !(HasAllMasterBits s1 && (x.IsHandshakeDone
          && decide (s1.clusterSize - x.connectedClusterSize < x.connectedClusterSize)))) := by
  unfold acceptedLinkMap
  simp only []
  rw [governLink_masterBit, HasAllMasterBits_mapIdx_step]
  simp only [governLink_masterBit, step_masterBit, step_connectedClusterSize,
    governLink_connectedClusterSize, MeshConnection.IsHandshakeDone, step_connectionState,
    governLink_connectionState, HandOverMasterBitIfNecessary_clusterSize]
  cases h2 : HasAllMasterBits (HandOverMasterBitIfNecessary s1) with
  | false => simp
  | true =>
    have h1 : HasAllMasterBits s1 = true := HasAllMasterBits_of_handOver s1 h2
    rw [h1]
    cases x.connectionMasterBit <;>
      cases decide (ConnectionState.HANDSHAKE_DONE.rank ≤ x.connectionState.rank) <;>
      cases decide (s1.clusterSize - x.connectedClusterSize < x.connectedClusterSize) <;> rfl

theorem HasAllMasterBits_acceptedUpdateState (s : Node) (i : Nat) (c : MeshConnection)
    (p : connPacketClusterInfoUpdate) (hbit : p.connectionMasterBitHandover = true) :
    HasAllMasterBits (acceptedUpdateState s i c p)
      = HasAllMasterBits
          { s with connections := s.connections.set i { c with connectionMasterBit := true } } := by
  rw [HasAllMasterBits_eq, HasAllMasterBits_eq]
  show ((s.connections.set i (applyUpdateToLink c p)).map linkHoldsBit).all id
      = ((s.connections.set i { c with connectionMasterBit := true }).map linkHoldsBit).all id
  rw [List.map_set, List.map_set]
  have hq : linkHoldsBit (applyUpdateToLink c p)
      = linkHoldsBit { c with connectionMasterBit := true } := by
    unfold linkHoldsBit MeshConnection.IsHandshakeDone
    rw [applyUpdateToLink_connectionState, applyUpdateToLink_masterBit, hbit]
    rfl
  rw [hq]

theorem acceptedUpdateState_getElem?_self (s : Node) (i : Nat) (c : MeshConnection)
    (p : connPacketClusterInfoUpdate) (hlink : s.connections[i]? = some c) :
    (acceptedUpdateState s i c p).connections[i]? = some (applyUpdateToLink c p) := by
  show (s.connections.set i (applyUpdateToLink c p))[i]? = _
  rw [List.getElem?_set_self', hlink]
  rfl

theorem acceptedUpdateState_getElem?_ne (s : Node) (i j : Nat) (c : MeshConnection)
    (p : connPacketClusterInfoUpdate) (hne : j ≠ i) :
    (acceptedUpdateState s i c p).connections[j]? = s.connections[j]? := by
  show (s.connections.set i (applyUpdateToLink c p))[j]? = _
  exact List.getElem?_set_ne (fun h => hne h.symm)

/-! ## The claims -/

/-- C1: an inbound cluster-info update whose counter differs from the
link's `nextExpectedClusterUpdateCounter` changes nothing: the whole node
state after `ReceiveClusterInfoUpdate`, and with it `clusterSize`, `clusterId`,
every field of every link and every pending update, is the state before. -/
theorem ReceiveClusterInfoUpdate_counter_mismatch_unchanged (s : Node) (connection : Nat)
    (c : MeshConnection) (packet : connPacketClusterInfoUpdate)
    (hlink : s.connections[connection]? = some c)
    (hcounter : packet.counter ≠ c.nextExpectedClusterUpdateCounter) :
    ReceiveClusterInfoUpdate s connection packet = s :=
  ReceiveClusterInfoUpdate_of_mismatch s connection c packet hlink (fun h => hcounter h.symm)

/-- C1 at a concrete input: a packet with counter `expected + 2` on
`sampleLink` leaves `sampleNode` as it is. -/
theorem ReceiveClusterInfoUpdate_counter_mismatch_unchanged_witness :
    (sampleNode.connections[0]? = some sampleLink
      ∧ gapPacket.counter = sampleLink.nextExpectedClusterUpdateCounter + 2)
    ∧ ReceiveClusterInfoUpdate sampleNode 0 gapPacket = sampleNode :=
  ⟨⟨rfl, rfl⟩,
    ReceiveClusterInfoUpdate_counter_mismatch_unchanged sampleNode 0 sampleLink gapPacket rfl
      (by decide)⟩

/-- C2 as stated fails: `handoverPacket` is accepted on the only link of
`sampleNode` and carries the handover flag, yet after the call the link's
`connectionMasterBit` is false, because the governor hands the bit straight
back (the link's side, 2 nodes, is larger than the rest, 1 node). And on
`wrapNode`, whose link expects counter 255, an accepted update leaves the
expected counter at 0, not 256. -/
theorem ReceiveClusterInfoUpdate_handover_not_kept :
    (sampleNode.connections[0]? = some sampleLink
      ∧ handoverPacket.counter = sampleLink.nextExpectedClusterUpdateCounter
      ∧ handoverPacket.connectionMasterBitHandover = true
      ∧ (ReceiveClusterInfoUpdate sampleNode 0 handoverPacket).connections.map
          (fun c => c.connectionMasterBit) = [false])
    ∧ (wrapNode.connections.map (fun c => c.nextExpectedClusterUpdateCounter) = [255]
      ∧ (ReceiveClusterInfoUpdate wrapNode 0
            { clusterSizeChange := 0, hopsToSink := -1, counter := 255 }).connections.map
          (fun c => c.nextExpectedClusterUpdateCounter) = [0]) := by
  decide

/-- C2, amended: an accepted update increments the link's expected counter
by one modulo 256, adds `size_change` to the node's `clusterSize` and to the
link's `connectedClusterSize`, sets the link's `hopsToSink` to `hops + 1` when
`hops >= 0` and to -1 otherwise, leaves the pending size change of the
receiving link untouched and adds `size_change` to the pending update of every
other connected link. With the handover flag set, the link's master bit is
true afterwards unless the governor hands it straight back, which happens
exactly when the node then holds all master bits, the link is handshake-done
and its updated `connectedClusterSize` exceeds the updated `clusterSize` minus
it. The sums are those of the signed 16-bit fields: the statement is for
updates whose sums with the cluster size, with the connected cluster size and
with the pending size change stay inside -32768..32767 and whose hops are
below 32767. -/
theorem ReceiveClusterInfoUpdate_accepted (s : Node) (connection : Nat) (c : MeshConnection)
    (packet : connPacketClusterInfoUpdate)
    (hlink : s.connections[connection]? = some c)
    (hcounter : packet.counter = c.nextExpectedClusterUpdateCounter)
    (hsize : -32768 ≤ s.clusterSize + packet.clusterSizeChange
      ∧ s.clusterSize + packet.clusterSizeChange ≤ 32767)
    (hlinksize : -32768 ≤ c.connectedClusterSize + packet.clusterSizeChange
      ∧ c.connectedClusterSize + packet.clusterSizeChange ≤ 32767)
    (hhops : packet.hopsToSink < 32767) :
    (ReceiveClusterInfoUpdate s connection packet).clusterSize
        = s.clusterSize + packet.clusterSizeChange
    ∧ (∃ ci, (ReceiveClusterInfoUpdate s connection packet).connections[connection]? = some ci
        ∧ ci.nextExpectedClusterUpdateCounter = (c.nextExpectedClusterUpdateCounter + 1) % 256
        ∧ ci.connectedClusterSize = c.connectedClusterSize + packet.clusterSizeChange
        ∧ ci.hopsToSink = (if 0 ≤ packet.hopsToSink then packet.hopsToSink + 1 else -1)
        ∧ ci.currentClusterInfoUpdatePacket.clusterSizeChange
            = c.currentClusterInfoUpdatePacket.clusterSizeChange
        ∧ (packet.connectionMasterBitHandover = true →
            (ci.connectionMasterBit = true ↔
              ¬ (HasAllMasterBits
                    { s with connections :=
                        s.connections.set connection { c with connectionMasterBit := true } } = true
                  ∧ c.IsHandshakeDone = true
                  ∧ (s.clusterSize + packet.clusterSizeChange)
                      - (c.connectedClusterSize + packet.clusterSizeChange)
                    < c.connectedClusterSize + packet.clusterSizeChange))))
    ∧ (∀ j cj, j ≠ connection → s.connections[j]? = some cj → cj.isConnected = true →
        (-32768 ≤ cj.currentClusterInfoUpdatePacket.clusterSizeChange + packet.clusterSizeChange
          ∧ cj.currentClusterInfoUpdatePacket.clusterSizeChange + packet.clusterSizeChange
              ≤ 32767) →
        ∃ tj, (ReceiveClusterInfoUpdate s connection packet).connections[j]? = some tj
          ∧ tj.currentClusterInfoUpdatePacket.clusterSizeChange
              = cj.currentClusterInfoUpdatePacket.clusterSizeChange + packet.clusterSizeChange) := by
  have hm : c.nextExpectedClusterUpdateCounter = packet.counter := hcounter.symm
  refine ⟨?_, ?_, ?_⟩
  · rw [ReceiveClusterInfoUpdate_clusterSize]
    have hacc : acceptsUpdate s connection packet = true := by simp [acceptsUpdate, hlink, hm]
    by_cases hz : packet.clusterSizeChange = 0
    · rw [if_neg (fun h => h.2 hz), hz]
      omega
    · rw [if_pos ⟨hacc, hz⟩, toI16_of_range _ hsize.1 hsize.2]
  · refine ⟨acceptedLinkMap (acceptedUpdateState s connection c packet) connection
      packet.clusterSizeChange connection (applyUpdateToLink c packet), ?_, ?_, ?_, ?_, ?_, ?_⟩
    · rw [ReceiveClusterInfoUpdate_getElem? s connection c packet hlink hm,
        acceptedUpdateState_getElem?_self s connection c packet hlink]
      rfl
    · rw [acceptedLinkMap_nextExpected, applyUpdateToLink_nextExpected]
    · rw [acceptedLinkMap_connectedClusterSize,
        applyUpdateToLink_connectedClusterSize_of_range c packet hlinksize]
    · rw [acceptedLinkMap_hopsToSink, applyUpdateToLink_hopsToSink_of_range c packet hhops]
    · rw [acceptedLinkMap_sizeChange, applyUpdateToLink_pending]
      simp
    · intro hbit
      rw [acceptedLinkMap_masterBit, applyUpdateToLink_masterBit,
        applyUpdateToLink_connectedClusterSize_of_range c packet hlinksize,
        acceptedUpdateState_clusterSize_of_range s connection c packet hsize,
        HasAllMasterBits_acceptedUpdateState s connection c packet hbit, hbit]
      have hd : (applyUpdateToLink c packet).IsHandshakeDone = c.IsHandshakeDone := by
        unfold MeshConnection.IsHandshakeDone
        rw [applyUpdateToLink_connectionState]
      rw [hd]
      generalize HasAllMasterBits _ = a
      generalize c.IsHandshakeDone = b
      cases a <;> cases b <;> simp
  · intro j cj hj hcj hconn _
    refine ⟨acceptedLinkMap (acceptedUpdateState s connection c packet) connection
      packet.clusterSizeChange j cj, ?_, ?_⟩
    · rw [ReceiveClusterInfoUpdate_getElem? s connection c packet hlink hm,
        acceptedUpdateState_getElem?_ne s connection j c packet hj, hcj]
      rfl
    · rw [acceptedLinkMap_sizeChange]
      simp [hconn, hj]

/-- C2 (amended) at a concrete input: `handoverPacket` on `sampleNode`. -/
theorem ReceiveClusterInfoUpdate_accepted_witness :
    (sampleNode.connections[0]? = some sampleLink
      ∧ handoverPacket.counter = sampleLink.nextExpectedClusterUpdateCounter)
    ∧ (ReceiveClusterInfoUpdate sampleNode 0 handoverPacket).clusterSize = 3 :=
  ⟨⟨rfl, rfl⟩,
    (ReceiveClusterInfoUpdate_accepted sampleNode 0 sampleLink handoverPacket rfl rfl
      (by decide) (by decide) (by decide)).1⟩

/-- C4: delivering an accepted cluster-info update a second time on the same
link changes no state: the state after the second delivery is the state after
the first. -/
theorem ReceiveClusterInfoUpdate_twice (s : Node) (connection : Nat) (c : MeshConnection)
    (packet : connPacketClusterInfoUpdate)
    (hlink : s.connections[connection]? = some c)
    (hcounter : packet.counter = c.nextExpectedClusterUpdateCounter) :
    ReceiveClusterInfoUpdate (ReceiveClusterInfoUpdate s connection packet) connection packet
      = ReceiveClusterInfoUpdate s connection packet := by
  have hm : c.nextExpectedClusterUpdateCounter = packet.counter := hcounter.symm
  have hget := ReceiveClusterInfoUpdate_getElem? s connection c packet hlink hm connection
  rw [acceptedUpdateState_getElem?_self s connection c packet hlink] at hget
  apply ReceiveClusterInfoUpdate_of_mismatch _ connection _ packet hget
  rw [acceptedLinkMap_nextExpected, applyUpdateToLink_nextExpected, hcounter]
  omega

/-- C4 at a concrete input: `handoverPacket` delivered twice to `sampleNode`. -/
theorem ReceiveClusterInfoUpdate_twice_witness :
    (sampleNode.connections[0]? = some sampleLink
      ∧ handoverPacket.counter = sampleLink.nextExpectedClusterUpdateCounter)
    ∧ ReceiveClusterInfoUpdate (ReceiveClusterInfoUpdate sampleNode 0 handoverPacket) 0
          handoverPacket
        = ReceiveClusterInfoUpdate sampleNode 0 handoverPacket :=
  ⟨⟨rfl, rfl⟩, ReceiveClusterInfoUpdate_twice sampleNode 0 sampleLink handoverPacket rfl rfl⟩

theorem ReceiveClusterInfoUpdate_clusterSize_toI16 (s : Node) (connection : Nat)
    (packet : connPacketClusterInfoUpdate)
    (hmin : -32768 ≤ s.clusterSize) (hmax : s.clusterSize ≤ 32767) :
    (ReceiveClusterInfoUpdate s connection packet).clusterSize
      = toI16 (s.clusterSize
          + (if acceptsUpdate s connection packet = true then packet.clusterSizeChange else 0)) := by
  rw [ReceiveClusterInfoUpdate_clusterSize]
  by_cases hacc : acceptsUpdate s connection packet = true
  · by_cases hz : packet.clusterSizeChange = 0
    · rw [if_neg (fun h => h.2 hz), if_pos hacc, hz, Int.add_zero, toI16_of_range _ hmin hmax]
    · rw [if_pos ⟨hacc, hz⟩, if_pos hacc]
  · rw [if_neg (fun h => hacc h.1), if_neg hacc, Int.add_zero, toI16_of_range _ hmin hmax]

theorem deliverUpdates_clusterSize_toI16 (updates : List (Nat × connPacketClusterInfoUpdate)) :
    ∀ s : Node, -32768 ≤ s.clusterSize → s.clusterSize ≤ 32767 →
      (deliverUpdates s updates).clusterSize
        = toI16 (s.clusterSize + acceptedSizeChange s updates) := by
  induction updates with
  | nil =>
    intro s hmin hmax
    simp only [deliverUpdates, acceptedSizeChange, Int.add_zero]
    exact (toI16_of_range _ hmin hmax).symm
  | cons u rest ih =>
    intro s hmin hmax
    obtain ⟨connection, packet⟩ := u
    have hstep := ReceiveClusterInfoUpdate_clusterSize_toI16 s connection packet hmin hmax
    have hr := toI16_range (s.clusterSize
      + (if acceptsUpdate s connection packet = true then packet.clusterSizeChange else 0))
    rw [← hstep] at hr
    have hrest := ih (ReceiveClusterInfoUpdate s connection packet) hr.1 hr.2
    simp only [deliverUpdates, acceptedSizeChange]
    rw [hrest, hstep, toI16_add_toI16, Int.add_assoc]

/-- C5: for every finite sequence of cluster-info updates delivered on any
links of a node, the final `clusterSize` minus the initial one is the sum of
the size changes of exactly the accepted updates. The cluster size is a signed
16-bit value: the statement is for sequences whose accepted size changes,
added to the initial cluster size, give a value inside -32768..32767. -/
theorem deliverUpdates_clusterSize (updates : List (Nat × connPacketClusterInfoUpdate))
    (s : Node) (hmin : -32768 ≤ s.clusterSize) (hmax : s.clusterSize ≤ 32767)
    (hsum : -32768 ≤ s.clusterSize + acceptedSizeChange s updates
      ∧ s.clusterSize + acceptedSizeChange s updates ≤ 32767) :
    (deliverUpdates s updates).clusterSize - s.clusterSize = acceptedSizeChange s updates := by
  rw [deliverUpdates_clusterSize_toI16 updates s hmin hmax, toI16_of_range _ hsum.1 hsum.2]
  omega

/-- C5 at a concrete input: `handoverPacket`, with size change 1, is delivered
twice on the link of `sampleNode`; the first delivery is accepted, the second
is rejected, and the cluster size has grown by 1. -/
theorem deliverUpdates_clusterSize_witness :
    (-32768 ≤ sampleNode.clusterSize ∧ sampleNode.clusterSize ≤ 32767)
    ∧ acceptedSizeChange sampleNode [(0, handoverPacket), (0, handoverPacket)] = 1
    ∧ (deliverUpdates sampleNode [(0, handoverPacket), (0, handoverPacket)]).clusterSize
        - sampleNode.clusterSize
      = acceptedSizeChange sampleNode [(0, handoverPacket), (0, handoverPacket)] :=
  ⟨by decide, by decide,
    deliverUpdates_clusterSize [(0, handoverPacket), (0, handoverPacket)] sampleNode
      (by decide) (by decide) (by decide)⟩

theorem acceptedCounters_chain_head (connection : Nat) (packets : List connPacketClusterInfoUpdate) :
    ∀ s : Node,
      List.Chain' (fun a b => b = (a + 1) % 256) (acceptedCounters s connection packets)
      ∧ ∀ c, s.connections[connection]? = some c →
          ∀ y ∈ (acceptedCounters s connection packets).head?,
            y = c.nextExpectedClusterUpdateCounter := by
  induction packets with
  | nil => intro s; simp [acceptedCounters]
  | cons p rest ih =>
    intro s
    cases hlink : s.connections[connection]? with
    | none =>
      have hrec : ReceiveClusterInfoUpdate s connection p = s := by
        simp [ReceiveClusterInfoUpdate, hlink]
      have hacc : acceptsUpdate s connection p = false := by simp [acceptsUpdate, hlink]
      simp only [acceptedCounters, hacc, hrec]
      have h := ih s
      rw [hlink] at h
      exact ⟨h.1, by intro c hc; cases hc⟩
    | some c =>
      by_cases hm : c.nextExpectedClusterUpdateCounter = p.counter
      · have hacc : acceptsUpdate s connection p = true := by simp [acceptsUpdate, hlink, hm]
        have hget := ReceiveClusterInfoUpdate_getElem? s connection c p hlink hm connection
        rw [acceptedUpdateState_getElem?_self s connection c p hlink] at hget
        have h := ih (ReceiveClusterInfoUpdate s connection p)
        simp only [acceptedCounters, hacc, if_true]
        refine ⟨List.Chain'.cons' h.1 ?_, ?_⟩
        · intro y hy
          have := h.2 _ hget y hy
          rw [this, acceptedLinkMap_nextExpected, applyUpdateToLink_nextExpected, hm]
        · intro c2 hc2 y hy
          cases hc2
          simp only [List.head?_cons, Option.mem_def, Option.some.injEq] at hy
          rw [← hy, hm]
      · have hacc : acceptsUpdate s connection p = false := by simp [acceptsUpdate, hlink, hm]
        have hrec := ReceiveClusterInfoUpdate_of_mismatch s connection c p hlink hm
        simp only [acceptedCounters, hacc, hrec]
        have h := ih s
        rw [hlink] at h
        exact ⟨h.1, by intro c2 hc2; cases hc2; exact h.2 c rfl⟩

/-- C6 as stated fails: on the link of `wrapNode`, which expects counter 255,
the updates with the counters 255 and 0 are both accepted, in this order, so
the accepted counters are not strictly increasing. -/
theorem acceptedCounters_not_increasing :
    acceptedCounters wrapNode 0
        [{ clusterSizeChange := 0, hopsToSink := -1, counter := 255 },
         { clusterSizeChange := 0, hopsToSink := -1, counter := 0 }] = [255, 0]
    ∧ ¬ List.Chain' (fun a b => a < b)
        (acceptedCounters wrapNode 0
          [{ clusterSizeChange := 0, hopsToSink := -1, counter := 255 },
           { clusterSizeChange := 0, hopsToSink := -1, counter := 0 }]) := by
  have h : acceptedCounters wrapNode 0
      [{ clusterSizeChange := 0, hopsToSink := -1, counter := 255 },
       { clusterSizeChange := 0, hopsToSink := -1, counter := 0 }] = [255, 0] := by decide
  refine ⟨h, ?_⟩
  rw [h]
  intro hc
  exact absurd (List.chain'_pair.mp hc) (by decide)

/-- C6, amended: on any single link, for every sequence of inbound
cluster-info updates, the counters of the accepted updates are consecutive
modulo 256: each accepted counter is the previous accepted counter plus one,
reduced modulo 256 (so the sequence increases strictly until the counter wraps
from 255 to 0). -/
theorem acceptedCounters_consecutive (s : Node) (connection : Nat)
    (packets : List connPacketClusterInfoUpdate) :
    List.Chain' (fun a b => b = (a + 1) % 256) (acceptedCounters s connection packets) :=
  (acceptedCounters_chain_head connection packets s).1

/-- C7: the as-master score is 0 for every candidate that is too old, is of
the node's own cluster, has no free inbound slot, acknowledges another
cluster, is of a bigger cluster, is already linked to the node, has a signal
below the threshold, or when the node is a leaf. -/
theorem CalculateClusterScoreAsMaster_rejected (k : Constants) (s : Node)
    (packet : joinMeBufferPacket)
    (h : k.MAX_JOIN_ME_PACKET_AGE_DS < u32sub s.appTimerDs packet.receivedTimeDs
      ∨ packet.payload.clusterId = s.clusterId
      ∨ packet.payload.freeMeshInConnections = 0
      ∨ (packet.payload.ackField ≠ 0 ∧ packet.payload.ackField ≠ s.clusterId)
      ∨ s.clusterSize < packet.payload.clusterSize
      ∨ GetMeshConnectionToPartner s packet.payload.sender = true
      ∨ packet.rssi < k.STABLE_CONNECTION_RSSI_THRESHOLD
      ∨ s.deviceType = DeviceType.LEAF) :
    CalculateClusterScoreAsMaster k s packet = 0 := by
  unfold CalculateClusterScoreAsMaster
  rcases h with h | h | h | h | h | h | h | h <;> (split_ifs <;> rfl)

/-- C7 at a concrete input: a candidate without a free inbound slot. -/
theorem CalculateClusterScoreAsMaster_rejected_witness :
    ({ candidateEntry 0 0 0 with
        payload := { (candidateEntry 0 0 0).payload with freeMeshInConnections := 0 } }
      : joinMeBufferPacket).payload.freeMeshInConnections = 0
    ∧ CalculateClusterScoreAsMaster sampleConstants (singleNodeAt 5)
        { candidateEntry 0 0 0 with
          payload := { (candidateEntry 0 0 0).payload with freeMeshInConnections := 0 } } = 0 :=
  ⟨rfl, CalculateClusterScoreAsMaster_rejected sampleConstants (singleNodeAt 5) _
    (Or.inr (Or.inr (Or.inl rfl)))⟩

theorem u32sub_eq_sub (a b : Nat) (hb : b ≤ a) (ha : a < 4294967296) : u32sub a b = a - b := by
  unfold u32sub
  omega

theorem ModifyScoreBasedOnPreferredPartners_preferred (s : Node) (score partner : Nat)
    (h : IsPreferredConnection s partner = true) :
    ModifyScoreBasedOnPreferredPartners s score partner = score := by
  unfold ModifyScoreBasedOnPreferredPartners
  simp [h]

theorem IsPreferredConnection_of_listed (s : Node) (partner : Nat)
    (h : s.preferredPartnerIds = [] ∨ partner ∈ s.preferredPartnerIds) :
    IsPreferredConnection s partner = true := by
  unfold IsPreferredConnection
  rcases h with h | h
  · simp [h]
  · split
    · rfl
    · simp only [List.any_eq_true, decide_eq_true_eq]
      exact ⟨partner, h, rfl⟩

theorem recentlyAttempted_imp (s : Node) (packet : joinMeBufferPacket)
    (h : recentlyAttempted s packet = true) :
    packet.lastConnectAttemptDs ≠ 0
    ∧ connectAttemptsBeforeBlacklisting < packet.attemptsToConnect
    ∧ s.appTimerDs < (packet.lastConnectAttemptDs + SEC_TO_DS 1 * packet.attemptsToConnect)
        % 4294967296 := by
  unfold recentlyAttempted at h
  simpa [Bool.and_eq_true, and_assoc] using h

theorem recentlyAttempted_of (s : Node) (packet : joinMeBufferPacket)
    (hlast : packet.lastConnectAttemptDs ≠ 0)
    (hattempts : connectAttemptsBeforeBlacklisting < packet.attemptsToConnect)
    (hnow : s.appTimerDs < (packet.lastConnectAttemptDs + SEC_TO_DS 1 * packet.attemptsToConnect)
        % 4294967296) :
    recentlyAttempted s packet = true := by
  unfold recentlyAttempted
  simp [hlast, hattempts, hnow]

theorem CalculateClusterScoreAsMaster_of_recentlyAttempted (k : Constants) (s : Node)
    (packet : joinMeBufferPacket) (h : recentlyAttempted s packet = true) :
    CalculateClusterScoreAsMaster k s packet = 0 := by
  unfold CalculateClusterScoreAsMaster
  split_ifs <;> rfl

theorem score_arith (freeIn freeOut : Nat) (rssi : Int) (hfree : freeIn ≠ 0)
    (hin : freeIn < 256) (hout : freeOut < 256) (hlo : -128 ≤ rssi) (hhi : rssi ≤ 127) :
    (((freeIn * 10000 + freeOut * 100 + rssiScore rssi) % 4294967296 : Nat) : Int)
        = (freeIn : Int) * 10000 + (freeOut : Int) * 100 + (100 + rssi)
    ∧ 0 < (freeIn * 10000 + freeOut * 100 + rssiScore rssi) % 4294967296 := by
  have ht : ((rssiScore rssi : Nat) : Int) = (100 + rssi) % 4294967296 := by
    unfold rssiScore
    exact Int.toNat_of_nonneg (Int.emod_nonneg _ (by decide))
  generalize rssiScore rssi = t at ht
  have hcases : (t : Int) = 100 + rssi ∨ (t : Int) = 100 + rssi + 4294967296 := by omega
  clear ht
  rcases hcases with h | h
  · have hsmall : freeIn * 10000 + freeOut * 100 + t < 4294967296 := by omega
    rw [Nat.mod_eq_of_lt hsmall]
    constructor
    · push_cast; omega
    · omega
  · have hbig : 4294967296 ≤ freeIn * 10000 + freeOut * 100 + t := by omega
    have hsmall : freeIn * 10000 + freeOut * 100 + t - 4294967296 < 4294967296 := by omega
    rw [Nat.mod_eq_sub_mod hbig, Nat.mod_eq_of_lt hsmall]
    constructor
    · rw [Nat.cast_sub hbig]; push_cast; omega
    · omega

/-- C8: when none of the as-master rejection rules applies and the candidate
is a preferred partner (or no preferred-partner list is configured), the
as-master score is exactly `free_in * 10000 + free_out * 100 + (100 + rssi)`,
and it is greater than 0. The rssi is a signed byte and the free-slot counts
are unsigned bytes. -/
theorem CalculateClusterScoreAsMaster_exact (k : Constants) (s : Node) (packet : joinMeBufferPacket)
    (hage : ¬ k.MAX_JOIN_ME_PACKET_AGE_DS < u32sub s.appTimerDs packet.receivedTimeDs)
    (hcluster : packet.payload.clusterId ≠ s.clusterId)
    (hfree : packet.payload.freeMeshInConnections ≠ 0)
    (hack : ¬ (packet.payload.ackField ≠ 0 ∧ packet.payload.ackField ≠ s.clusterId))
    (hsize : ¬ s.clusterSize < packet.payload.clusterSize)
    (hrecent : ¬ (connectAttemptsBeforeBlacklisting < packet.attemptsToConnect
      ∧ s.appTimerDs < packet.lastConnectAttemptDs + SEC_TO_DS 1 * packet.attemptsToConnect))
    (hlink : GetMeshConnectionToPartner s packet.payload.sender = false)
    (hrssi : ¬ packet.rssi < k.STABLE_CONNECTION_RSSI_THRESHOLD)
    (hleaf : s.deviceType ≠ DeviceType.LEAF)
    (hpreferred : s.preferredPartnerIds = [] ∨ packet.payload.sender ∈ s.preferredPartnerIds)
    (hrssiByte : -128 ≤ packet.rssi ∧ packet.rssi ≤ 127)
    (hinByte : packet.payload.freeMeshInConnections < 256)
    (houtByte : packet.payload.freeMeshOutConnections < 256) :
    ((CalculateClusterScoreAsMaster k s packet : Nat) : Int)
        = (packet.payload.freeMeshInConnections : Int) * 10000
          + (packet.payload.freeMeshOutConnections : Int) * 100 + (100 + packet.rssi)
    ∧ 0 < CalculateClusterScoreAsMaster k s packet := by
  have hrec : recentlyAttempted s packet = false := by
    cases hr : recentlyAttempted s packet with
    | false => rfl
    | true =>
      obtain ⟨_, h2, h3⟩ := recentlyAttempted_imp s packet hr
      exfalso
      apply hrecent
      refine ⟨h2, lt_of_lt_of_le h3 (Nat.mod_le _ _)⟩
  have hpref := IsPreferredConnection_of_listed s packet.payload.sender hpreferred
  have hscore : CalculateClusterScoreAsMaster k s packet
      = (packet.payload.freeMeshInConnections * 10000
          + packet.payload.freeMeshOutConnections * 100 + rssiScore packet.rssi) % 4294967296 := by
    unfold CalculateClusterScoreAsMaster
    rw [if_neg hage, if_neg hcluster, if_neg hfree, if_neg hack, if_neg hsize,
      if_neg (by simp [hrec]), if_neg (by simp [hlink]), if_neg hrssi, if_neg hleaf,
      ModifyScoreBasedOnPreferredPartners_preferred s _ _ hpref]
  rw [hscore]
  exact score_arith _ _ _ hfree hinByte houtByte hrssiByte.1 hrssiByte.2

/-- C8 at a concrete input: a fresh candidate with two free inbound and three
free outbound slots at -60 dBm scores 20340. -/
theorem CalculateClusterScoreAsMaster_exact_witness :
    ((CalculateClusterScoreAsMaster sampleConstants (singleNodeAt 5) (candidateEntry 0 0 0) : Nat)
        : Int) = (2 : Int) * 10000 + (3 : Int) * 100 + (100 + (-60))
    ∧ 0 < CalculateClusterScoreAsMaster sampleConstants (singleNodeAt 5) (candidateEntry 0 0 0) :=
  CalculateClusterScoreAsMaster_exact sampleConstants (singleNodeAt 5) (candidateEntry 0 0 0)
    (by decide) (by decide) (by decide) (by decide) (by decide) (by decide) (by decide)
    (by decide) (by decide) (Or.inl rfl) (by decide) (by decide) (by decide)

/-- C9 as stated fails for `last_attempt = 0`: a candidate with 6 attempts
and `last_attempt + attempts * 1 s = 60 > now = 5` still scores 20340. -/
theorem CalculateClusterScoreAsMaster_blacklist_needs_attempt_time :
    connectAttemptsBeforeBlacklisting < (candidateEntry 0 0 6).attemptsToConnect
    ∧ (singleNodeAt 5).appTimerDs
        < (candidateEntry 0 0 6).lastConnectAttemptDs
          + SEC_TO_DS 1 * (candidateEntry 0 0 6).attemptsToConnect
    ∧ CalculateClusterScoreAsMaster sampleConstants (singleNodeAt 5) (candidateEntry 0 0 6)
        = 20340 := by
  decide

/-- C9, amended: the as-master score is 0 for every candidate that was
recently attempted, i.e. whenever `last_attempt` is nonzero,
`attempts > K_blacklist` and `last_attempt + attempts * 1 s`, as an unsigned
32-bit sum, is greater than `now`. -/
theorem CalculateClusterScoreAsMaster_blacklisted (k : Constants) (s : Node)
    (packet : joinMeBufferPacket)
    (hlast : packet.lastConnectAttemptDs ≠ 0)
    (hattempts : connectAttemptsBeforeBlacklisting < packet.attemptsToConnect)
    (hnow : s.appTimerDs < (packet.lastConnectAttemptDs + SEC_TO_DS 1 * packet.attemptsToConnect)
        % 4294967296) :
    CalculateClusterScoreAsMaster k s packet = 0 :=
  CalculateClusterScoreAsMaster_of_recentlyAttempted k s packet
    (recentlyAttempted_of s packet hlast hattempts hnow)

/-- C9 (amended) at a concrete input: 6 attempts, the last one at 100, and
`now = 120 < 160`. -/
theorem CalculateClusterScoreAsMaster_blacklisted_witness :
    ((candidateEntry 110 100 6).lastConnectAttemptDs ≠ 0
      ∧ connectAttemptsBeforeBlacklisting < (candidateEntry 110 100 6).attemptsToConnect
      ∧ (singleNodeAt 120).appTimerDs < 160)
    ∧ CalculateClusterScoreAsMaster sampleConstants (singleNodeAt 120) (candidateEntry 110 100 6)
        = 0 :=
  ⟨⟨by decide, by decide, by decide⟩,
    CalculateClusterScoreAsMaster_blacklisted sampleConstants (singleNodeAt 120)
      (candidateEntry 110 100 6) (by decide) (by decide) (by decide)⟩

/-- C10 as stated fails: with `attempts = K_blacklist = 5`, the last attempt
at 100 and `now = 120 < 100 + 5 * 1 s`, the as-master score is 20340, not 0. -/
theorem CalculateClusterScoreAsMaster_at_threshold_not_suppressed :
    (candidateEntry 110 100 5).attemptsToConnect = connectAttemptsBeforeBlacklisting
    ∧ (singleNodeAt 120).appTimerDs
        < (candidateEntry 110 100 5).lastConnectAttemptDs
          + SEC_TO_DS 1 * (candidateEntry 110 100 5).attemptsToConnect
    ∧ CalculateClusterScoreAsMaster sampleConstants (singleNodeAt 120) (candidateEntry 110 100 5)
        = 20340 := by
  decide

/-- C10, amended: suppression starts one attempt later. For a candidate whose
attempts counter equals `K_blacklist + 1` and whose `last_attempt` is nonzero,
the as-master score is 0 at every time `now` below `last_attempt + attempts * 1 s`
(unsigned 32-bit sum); for a candidate whose attempts counter equals
`K_blacklist` the blacklist rule never applies. -/
theorem CalculateClusterScoreAsMaster_suppressed_after_threshold (k : Constants) (s : Node)
    (packet : joinMeBufferPacket) :
    (packet.attemptsToConnect = connectAttemptsBeforeBlacklisting + 1 →
      packet.lastConnectAttemptDs ≠ 0 →
      s.appTimerDs < (packet.lastConnectAttemptDs + SEC_TO_DS 1 * packet.attemptsToConnect)
        % 4294967296 →
      CalculateClusterScoreAsMaster k s packet = 0)
    ∧ (packet.attemptsToConnect = connectAttemptsBeforeBlacklisting →
        recentlyAttempted s packet = false) := by
  constructor
  · intro hattempts hlast hnow
    exact CalculateClusterScoreAsMaster_of_recentlyAttempted k s packet
      (recentlyAttempted_of s packet hlast (by rw [hattempts]; exact Nat.lt_succ_self _) hnow)
  · intro hattempts
    unfold recentlyAttempted
    simp [hattempts]

/-- C10 (amended) at a concrete input: 6 attempts, the last one at 100, and
`now = 120`. -/
theorem CalculateClusterScoreAsMaster_suppressed_after_threshold_witness :
    (candidateEntry 110 100 6).attemptsToConnect = connectAttemptsBeforeBlacklisting + 1
    ∧ CalculateClusterScoreAsMaster sampleConstants (singleNodeAt 120) (candidateEntry 110 100 6)
        = 0 :=
  ⟨rfl,
    (CalculateClusterScoreAsMaster_suppressed_after_threshold sampleConstants (singleNodeAt 120)
      (candidateEntry 110 100 6)).1 rfl (by decide) (by decide)⟩

/-! ### Cluster size after each handler -/

theorem commitHandshake_clusterSize (s : Node) (i : Nat) (c : MeshConnection) (w : Bool) :
    (commitHandshake s i c w).clusterSize
      = if w = true then toI16 (s.clusterSize + 1) else c.clusterAck2Packet.clusterSize := by
  unfold commitHandshake
  cases w
  · simp
  · simp only [if_true]
    rw [SendClusterInfoUpdate_clusterSize]

theorem HandshakeDoneHandler_clusterSize (s : Node) (i : Nat) (c : MeshConnection) (w : Bool)
    (hlink : s.connections[i]? = some c) :
    (HandshakeDoneHandler s i w).clusterSize
      = if w = true then toI16 (s.clusterSize + 1) else c.clusterAck2Packet.clusterSize := by
  unfold HandshakeDoneHandler
  simp only [hlink]
  rw [HandOverMasterBitIfNecessary_clusterSize, KeepHighDiscoveryActive_clusterSize,
    SendClusterInfoUpdate_clusterSize]
  exact commitHandshake_clusterSize _ i c w

theorem HandshakeDoneHandler_no_link (s : Node) (i : Nat) (w : Bool)
    (hlink : s.connections[i]? = none) : HandshakeDoneHandler s i w = s := by
  unfold HandshakeDoneHandler
  simp only [hlink]

theorem MeshConnectionDisconnectedHandler_clusterSize (s : Node) (reason : AppDisconnectReason)
    (stateBefore : ConnectionState) (had : Bool) (partnerSize : Int) (partnerClusterId : Nat) :
    (MeshConnectionDisconnectedHandler s reason stateBefore had partnerSize partnerClusterId).clusterSize
      = if ConnectionState.HANDSHAKE_DONE.rank ≤ stateBefore.rank then
          (if had = false then 1 else toI16 (s.clusterSize - partnerSize))
        else s.clusterSize := by
  unfold MeshConnectionDisconnectedHandler
  simp only []
  have hkeep : ∀ t : Node,
      (HandOverMasterBitIfNecessary
        (if (KeepHighDiscoveryActive t).clusterSize = 1 then
          { KeepHighDiscoveryActive t with clusterId := GenerateClusterID (KeepHighDiscoveryActive t) }
        else KeepHighDiscoveryActive t)).clusterSize = t.clusterSize := by
    intro t
    rw [HandOverMasterBitIfNecessary_clusterSize]
    split
    · exact KeepHighDiscoveryActive_clusterSize t
    · exact KeepHighDiscoveryActive_clusterSize t
  show (HandOverMasterBitIfNecessary _).clusterSize = _
  rw [hkeep]
  by_cases hdone : ConnectionState.HANDSHAKE_DONE.rank ≤ stateBefore.rank
  · rw [if_pos hdone, if_pos hdone]
    cases had
    · simp only [if_true]
      rw [SendClusterInfoUpdate_clusterSize]
    · simp only [Bool.true_eq_false, if_false]
      rw [SendClusterInfoUpdate_clusterSize]
  · rw [if_neg hdone, if_neg hdone]

theorem waitAsSlave_clusterSize (k : Constants) (s : Node) (best : joinMeBufferPacket) (r : Nat) :
    (waitAsSlave k s best r).clusterSize = s.clusterSize
    ∨ (waitAsSlave k s best r).clusterSize = 1 := by
  unfold waitAsSlave
  simp only []
  split
  · split
    · split
      · right; rfl
      · left; rfl
    · left; rfl
  · left; rfl

theorem DetermineBestClusterAvailable_clusterSize (k : Constants) (s : Node) (ok : Bool) (r : Nat) :
    (DetermineBestClusterAvailable k s ok r).node.clusterSize = s.clusterSize
    ∨ (DetermineBestClusterAvailable k s ok r).node.clusterSize = 1 := by
  unfold DetermineBestClusterAvailable
  simp only []
  split
  · left; rfl
  · split
    · exact waitAsSlave_clusterSize k _ _ r
    · left; rfl

/-- C3 as stated fails, the handlers do not guard the cluster size: from
`clusterSize = 2`, an accepted update with `size_change = -5` leaves
`clusterSize = -3`, a disconnect of a link whose master bit was held and whose
partner side had 2 nodes leaves `clusterSize = 0`, and a handshake lost with
`ack2.clusterSize = 0` leaves `clusterSize = 0`. -/
theorem clusterSize_not_guarded :
    (1 ≤ sampleNode.clusterSize
      ∧ acceptsUpdate sampleNode 0 shrinkPacket = true
      ∧ (ReceiveClusterInfoUpdate sampleNode 0 shrinkPacket).clusterSize = -3)
    ∧ (1 ≤ bereftNode.clusterSize
      ∧ (MeshConnectionDisconnectedHandler bereftNode AppDisconnectReason.UNKNOWN
          ConnectionState.HANDSHAKE_DONE true 2 99).clusterSize = 0)
    ∧ (1 ≤ loserNode.clusterSize
      ∧ (HandshakeDoneHandler loserNode 0 false).clusterSize = 0) := by
  decide

/-- C3, amended: no handler checks the cluster size; `clusterSize >= 1` is
kept by `DetermineBestClusterAvailable` for every input, by
`HandshakeDoneHandler` completed as winner, by `HandshakeDoneHandler` completed
as loser exactly when `ack2.clusterSize >= 1`, by `ReceiveClusterInfoUpdate`
exactly when the update is rejected or `clusterSize + size_change >= 1`, and by
`MeshConnectionDisconnectedHandler` exactly when the handshake had not been
done, or the master bit was not held (then `clusterSize` becomes 1), or the
partner size is below `clusterSize`. The cluster size is a signed 16-bit
value: the winner case is for a cluster size below 32767, the update case for
`clusterSize + size_change` inside -32768..32767 and the disconnect case for
`clusterSize - partner size` inside -32768..32767. -/
theorem clusterSize_ge_one_preserved (s : Node) (h : 1 ≤ s.clusterSize) :
    (∀ (k : Constants) (connectSucceeds : Bool) (randomInteger : Nat),
        1 ≤ (DetermineBestClusterAvailable k s connectSucceeds randomInteger).node.clusterSize)
    ∧ (∀ connection : Nat, s.clusterSize < 32767 →
        1 ≤ (HandshakeDoneHandler s connection true).clusterSize)
    ∧ (∀ (connection : Nat) (c : MeshConnection), s.connections[connection]? = some c →
        (1 ≤ (HandshakeDoneHandler s connection false).clusterSize
          ↔ 1 ≤ c.clusterAck2Packet.clusterSize))
    ∧ (∀ (connection : Nat) (packet : connPacketClusterInfoUpdate),
        (-32768 ≤ s.clusterSize + packet.clusterSizeChange
          ∧ s.clusterSize + packet.clusterSizeChange ≤ 32767) →
        (1 ≤ (ReceiveClusterInfoUpdate s connection packet).clusterSize
          ↔ (acceptsUpdate s connection packet = false
              ∨ 1 ≤ s.clusterSize + packet.clusterSizeChange)))
    ∧ (∀ (reason : AppDisconnectReason) (stateBefore : ConnectionState)
        (hadConnectionMasterBit : Bool) (partnerSize : Int) (partnerClusterId : Nat),
        (-32768 ≤ s.clusterSize - partnerSize ∧ s.clusterSize - partnerSize ≤ 32767) →
        (1 ≤ (MeshConnectionDisconnectedHandler s reason stateBefore hadConnectionMasterBit
                partnerSize partnerClusterId).clusterSize
          ↔ (stateBefore.rank < ConnectionState.HANDSHAKE_DONE.rank
              ∨ hadConnectionMasterBit = false ∨ partnerSize < s.clusterSize))) := by
  refine ⟨?_, ?_, ?_, ?_, ?_⟩
  · intro k ok r
    rcases DetermineBestClusterAvailable_clusterSize k s ok r with h1 | h1
    · rw [h1]; exact h
    · rw [h1]
  · intro i hmax
    cases hlink : s.connections[i]? with
    | none => rw [HandshakeDoneHandler_no_link s i true hlink]; exact h
    | some c =>
      rw [HandshakeDoneHandler_clusterSize s i c true hlink]
      simp only [if_true]
      rw [toI16_of_range _ (by omega) (by omega)]
      omega
  · intro i c hlink
    rw [HandshakeDoneHandler_clusterSize s i c false hlink]
    simp
  · intro i p hrange
    rw [ReceiveClusterInfoUpdate_clusterSize]
    cases hacc : acceptsUpdate s i p
    · simp [h]
    · by_cases hz : p.clusterSizeChange = 0
      · simp [hz, h]
      · rw [if_pos ⟨rfl, hz⟩, toI16_of_range _ hrange.1 hrange.2]
        simp
  · intro reason stateBefore had partnerSize partnerClusterId hrange
    rw [MeshConnectionDisconnectedHandler_clusterSize]
    by_cases hdone : ConnectionState.HANDSHAKE_DONE.rank ≤ stateBefore.rank
    · rw [if_pos hdone]
      cases had
      · simp
      · simp only [Bool.true_eq_false, if_false, false_or]
        rw [toI16_of_range _ hrange.1 hrange.2]
        constructor
        · intro h1; right; omega
        · intro h1
          rcases h1 with h1 | h1
          · omega
          · omega
    · rw [if_neg hdone]
      constructor
      · intro _; left; omega
      · intro _; exact h

/-- C3 (amended) at a concrete input: `sampleNode`, whose cluster size is 2. -/
theorem clusterSize_ge_one_preserved_witness :
    1 ≤ sampleNode.clusterSize ∧ sampleNode.clusterSize < 32767
    ∧ 1 ≤ (HandshakeDoneHandler sampleNode 0 true).clusterSize :=
  ⟨by decide, by decide,
    (clusterSize_ge_one_preserved sampleNode (by decide)).2.1 0 (by decide)⟩

/-! ## The claims on the scorer and the decision engine -/

theorem IsPreferredConnection_iff (s : Node) (partner : Nat) :
    IsPreferredConnection s partner = true
      ↔ (s.preferredPartnerIds = [] ∨ partner ∈ s.preferredPartnerIds) := by
  constructor
  · intro h
    unfold IsPreferredConnection at h
    by_cases hlen : s.preferredPartnerIds.length = 0
    · left; exact List.length_eq_zero.mp hlen
    · right
      rw [if_neg hlen] at h
      simp only [List.any_eq_true, decide_eq_true_eq] at h
      obtain ⟨q, hq, rfl⟩ := h
      exact hq
  · exact IsPreferredConnection_of_listed s partner

/-- C12 as stated fails for the score 0: for a candidate that is not on the
configured list `[4]`, PENALTY mode returns 0, not `max(1, 0 / 10) = 1`. -/
theorem ModifyScoreBasedOnPreferredPartners_zero_score :
    pickyNode.preferredPartnerIds = [4]
    ∧ pickyNode.preferredConnectionMode = PreferredConnectionMode.PENALTY
    ∧ ModifyScoreBasedOnPreferredPartners pickyNode 0 9 = 0
    ∧ max 1 (0 / 10) = 1 := by
  decide

/-- C12, amended: for every score greater than 0 and every candidate that is
not on a configured (non-empty) preferred-partners list,
`ModifyScoreBasedOnPreferredPartners` returns `max(1, score / 10)` in PENALTY
mode and 0 in IGNORED mode; a score of 0 is returned as 0 in either mode; for
a candidate that is on the list, or when the list is empty, the score is
returned unchanged. -/
theorem ModifyScoreBasedOnPreferredPartners_rules (s : Node) (score partner : Nat) :
    (s.preferredPartnerIds ≠ [] → partner ∉ s.preferredPartnerIds →
      (0 < score → s.preferredConnectionMode = PreferredConnectionMode.PENALTY →
          ModifyScoreBasedOnPreferredPartners s score partner = max 1 (score / 10))
      ∧ (0 < score → s.preferredConnectionMode = PreferredConnectionMode.IGNORED →
          ModifyScoreBasedOnPreferredPartners s score partner = 0)
      ∧ (score = 0 → ModifyScoreBasedOnPreferredPartners s score partner = 0))
    ∧ ((s.preferredPartnerIds = [] ∨ partner ∈ s.preferredPartnerIds) →
        ModifyScoreBasedOnPreferredPartners s score partner = score) := by
  constructor
  · intro hne hnot
    have hpref : IsPreferredConnection s partner = false := by
      cases hp : IsPreferredConnection s partner with
      | false => rfl
      | true =>
        rcases (IsPreferredConnection_iff s partner).mp hp with h | h
        · exact absurd h hne
        · exact absurd h hnot
    refine ⟨?_, ?_, ?_⟩
    · intro hpos hmode
      unfold ModifyScoreBasedOnPreferredPartners
      rw [if_pos ⟨hpos, hpref⟩, hmode]
      simp only []
      by_cases hsmall : score / 10 < 1
      · rw [if_pos hsmall]; omega
      · rw [if_neg hsmall]; omega
    · intro hpos hmode
      unfold ModifyScoreBasedOnPreferredPartners
      rw [if_pos ⟨hpos, hpref⟩, hmode]
    · intro hzero
      unfold ModifyScoreBasedOnPreferredPartners
      rw [if_neg (by omega)]
      exact hzero
  · intro h
    exact ModifyScoreBasedOnPreferredPartners_preferred s score partner
      (IsPreferredConnection_of_listed s partner h)

/-- C12 (amended) at a concrete input: the score 25 of a candidate that is
not on the list `[4]` becomes 2 in PENALTY mode. -/
theorem ModifyScoreBasedOnPreferredPartners_rules_witness :
    (pickyNode.preferredPartnerIds ≠ [] ∧ 9 ∉ pickyNode.preferredPartnerIds)
    ∧ ModifyScoreBasedOnPreferredPartners pickyNode 25 9 = max 1 (25 / 10) :=
  ⟨⟨by decide, by decide⟩,
    ((ModifyScoreBasedOnPreferredPartners_rules pickyNode 25 9).1 (by decide) (by decide)).1
      (by decide) rfl⟩

theorem determineBestClusterLoop_spec (rating : joinMeBufferPacket → Nat)
    (l : List joinMeBufferPacket) :
    ∀ (i0 b : Nat) (bc : Option Nat),
      (determineBestClusterLoop rating l i0 b bc = bc
        ∧ ∀ p ∈ l, p.payload.sender ≠ 0 → rating p ≤ b)
      ∨ (∃ j p, l[j]? = some p
          ∧ determineBestClusterLoop rating l i0 b bc = some (i0 + j)
          ∧ p.payload.sender ≠ 0 ∧ b < rating p
          ∧ (∀ q ∈ l, q.payload.sender ≠ 0 → rating q ≤ rating p)
          ∧ (∀ j2 q, j2 < j → l[j2]? = some q → q.payload.sender ≠ 0 → rating q < rating p)) := by
  induction l with
  | nil =>
    intro i0 b bc
    left
    exact ⟨rfl, by intro p hp; cases hp⟩
  | cons a rest ih =>
    intro i0 b bc
    by_cases hz : a.payload.sender = 0
    · have hstep : determineBestClusterLoop rating (a :: rest) i0 b bc
          = determineBestClusterLoop rating rest (i0 + 1) b bc := by
        simp [determineBestClusterLoop, hz]
      rcases ih (i0 + 1) b bc with ⟨hr, hall⟩ | ⟨j, p, hj, hr, hp, hb, hmax, hfirst⟩
      · left
        refine ⟨hstep.trans hr, ?_⟩
        intro q hq hq0
        rcases List.mem_cons.mp hq with rfl | hq
        · exact absurd hz hq0
        · exact hall q hq hq0
      · right
        refine ⟨j + 1, p, by simpa using hj, ?_, hp, hb, ?_, ?_⟩
        · rw [hstep, hr]; congr 1; omega
        · intro q hq hq0
          rcases List.mem_cons.mp hq with rfl | hq
          · exact absurd hz hq0
          · exact hmax q hq hq0
        · intro j2 q hj2 hq hq0
          cases j2 with
          | zero =>
            simp only [List.getElem?_cons_zero, Option.some.injEq] at hq
            subst hq
            exact absurd hz hq0
          | succ j3 =>
            simp only [List.getElem?_cons_succ] at hq
            exact hfirst j3 q (by omega) hq hq0
    · by_cases hbetter : b < rating a
      · have hstep : determineBestClusterLoop rating (a :: rest) i0 b bc
            = determineBestClusterLoop rating rest (i0 + 1) (rating a) (some i0) := by
          simp [determineBestClusterLoop, hz, hbetter]
        rcases ih (i0 + 1) (rating a) (some i0) with
          ⟨hr, hall⟩ | ⟨j, p, hj, hr, hp, hb, hmax, hfirst⟩
        · right
          refine ⟨0, a, by simp, ?_, hz, hbetter, ?_, ?_⟩
          · rw [hstep, hr]; rfl
          · intro q hq hq0
            rcases List.mem_cons.mp hq with rfl | hq
            · exact le_refl _
            · exact hall q hq hq0
          · intro j2 q hj2; omega
        · right
          refine ⟨j + 1, p, by simpa using hj, ?_, hp, by omega, ?_, ?_⟩
          · rw [hstep, hr]; congr 1; omega
          · intro q hq hq0
            rcases List.mem_cons.mp hq with rfl | hq
            · omega
            · exact hmax q hq hq0
          · intro j2 q hj2 hq hq0
            cases j2 with
            | zero =>
              simp only [List.getElem?_cons_zero, Option.some.injEq] at hq
              subst hq
              exact hb
            | succ j3 =>
              simp only [List.getElem?_cons_succ] at hq
              exact hfirst j3 q (by omega) hq hq0
      · have hstep : determineBestClusterLoop rating (a :: rest) i0 b bc
            = determineBestClusterLoop rating rest (i0 + 1) b bc := by
          simp [determineBestClusterLoop, hz, hbetter]
        rcases ih (i0 + 1) b bc with ⟨hr, hall⟩ | ⟨j, p, hj, hr, hp, hb, hmax, hfirst⟩
        · left
          refine ⟨hstep.trans hr, ?_⟩
          intro q hq hq0
          rcases List.mem_cons.mp hq with rfl | hq
          · omega
          · exact hall q hq hq0
        · right
          refine ⟨j + 1, p, by simpa using hj, ?_, hp, hb, ?_, ?_⟩
          · rw [hstep, hr]; congr 1; omega
          · intro q hq hq0
            rcases List.mem_cons.mp hq with rfl | hq
            · omega
            · exact hmax q hq hq0
          · intro j2 q hj2 hq hq0
            cases j2 with
            | zero =>
              simp only [List.getElem?_cons_zero, Option.some.injEq] at hq
              subst hq
              omega
            | succ j3 =>
              simp only [List.getElem?_cons_succ] at hq
              exact hfirst j3 q (by omega) hq hq0

theorem DetermineBestCluster_spec (s : Node) (rating : joinMeBufferPacket → Nat) :
    (DetermineBestCluster s rating = none ∧ ¬ HasCandidate rating s.joinMePackets)
    ∨ (∃ i p, DetermineBestCluster s rating = some i ∧ IsBestSlot rating s.joinMePackets i p) := by
  unfold DetermineBestCluster
  rcases determineBestClusterLoop_spec rating s.joinMePackets 0 0 none with
    ⟨hr, hall⟩ | ⟨j, p, hj, hr, hp, hb, hmax, hfirst⟩
  · left
    refine ⟨hr, ?_⟩
    rintro ⟨p, hp, hp0, hpos⟩
    have := hall p hp hp0
    omega
  · right
    refine ⟨j, p, ?_, hj, hp, hb, hmax, hfirst⟩
    rw [hr]; congr 1; omega

theorem HasCandidate_of_IsBestSlot (rating : joinMeBufferPacket → Nat)
    (slots : List joinMeBufferPacket) (i : Nat) (p : joinMeBufferPacket)
    (h : IsBestSlot rating slots i p) : HasCandidate rating slots :=
  ⟨p, List.getElem?_mem h.1, h.2.1, h.2.2.1⟩

theorem DetermineBestClusterAvailable_master (k : Constants) (s : Node) (ok : Bool) (r i : Nat)
    (best : joinMeBufferPacket) (hfree : 0 < s.freeMeshOutConnections)
    (hbest : DetermineBestClusterAsMaster k s = some i) (hslot : s.joinMePackets[i]? = some best) :
    DetermineBestClusterAvailable k s ok r
      = { decision :=
            { result := DecisionResult.CONNECT_AS_MASTER, preferredPartner := best.payload.sender }
          node :=
            { s with
              currentAckId := 0
              joinMePackets := s.joinMePackets.set i (noteConnectAttempt s.appTimerDs ok best) }
          connectCall :=
            some { partnerId := best.payload.sender
                   addr := best.addr
                   writeCharacteristicHandle := best.payload.meshWriteHandle
                   leafInterval := decide (best.payload.deviceType = DeviceType.LEAF) } } := by
  unfold DetermineBestClusterAvailable noteConnectAttempt
  simp only [hbest, hslot, hfree, if_true, Option.map_some']

theorem DetermineBestClusterAsSlave_ack (k : Constants) (s : Node) (ack : Nat) :
    DetermineBestClusterAsSlave k { s with currentAckId := ack } = DetermineBestClusterAsSlave k s :=
  rfl

theorem DetermineBestClusterAvailable_slave (k : Constants) (s : Node) (ok : Bool) (r i : Nat)
    (best : joinMeBufferPacket)
    (hno : s.freeMeshOutConnections = 0 ∨ DetermineBestClusterAsMaster k s = none)
    (hbest : DetermineBestClusterAsSlave k s = some i) (hslot : s.joinMePackets[i]? = some best) :
    DetermineBestClusterAvailable k s ok r
      = { decision :=
            { result := DecisionResult.CONNECT_AS_SLAVE, preferredPartner := best.payload.sender }
          node := waitAsSlave k { s with currentAckId := 0 } best r
          connectCall := none } := by
  unfold DetermineBestClusterAvailable
  rcases hno with hno | hno
  · have hfree : ¬ 0 < s.freeMeshOutConnections := by omega
    simp only [hfree, if_false, DetermineBestClusterAsSlave_ack, hbest, hslot]
  · simp only [hno, ite_self, DetermineBestClusterAsSlave_ack, hbest, hslot]

theorem DetermineBestClusterAvailable_none (k : Constants) (s : Node) (ok : Bool) (r : Nat)
    (hno : s.freeMeshOutConnections = 0 ∨ DetermineBestClusterAsMaster k s = none)
    (hbest : DetermineBestClusterAsSlave k s = none) :
    DetermineBestClusterAvailable k s ok r
      = { decision := { result := DecisionResult.NO_NODES_FOUND }
          node := { s with currentAckId := 0 }
          connectCall := none } := by
  unfold DetermineBestClusterAvailable
  rcases hno with hno | hno
  · have hfree : ¬ 0 < s.freeMeshOutConnections := by omega
    simp only [hfree, if_false, DetermineBestClusterAsSlave_ack, hbest]
  · simp only [hno, ite_self, DetermineBestClusterAsSlave_ack, hbest]

theorem waitAsSlave_currentAckId (k : Constants) (s : Node) (best : joinMeBufferPacket) (r : Nat) :
    (waitAsSlave k s best r).currentAckId = best.payload.clusterId := by
  unfold waitAsSlave ForceDisconnectOtherMeshConnections
  simp only []
  split
  · split
    · split <;> rfl
    · rfl
  · rfl

theorem waitAsSlave_joinMePackets (k : Constants) (s : Node) (best : joinMeBufferPacket) (r : Nat) :
    (waitAsSlave k s best r).joinMePackets = s.joinMePackets := by
  unfold waitAsSlave ForceDisconnectOtherMeshConnections
  simp only []
  split
  · split
    · split <;> rfl
    · rfl
  · rfl

theorem DetermineBestClusterAvailable_cases (k : Constants) (s : Node)
    (connectSucceeds : Bool) (randomInteger : Nat) :
    ((0 < s.freeMeshOutConnections
        ∧ HasCandidate (CalculateClusterScoreAsMaster k s) s.joinMePackets) →
      ∃ i best, IsBestSlot (CalculateClusterScoreAsMaster k s) s.joinMePackets i best
        ∧ (DetermineBestClusterAvailable k s connectSucceeds randomInteger).decision.result
            = DecisionResult.CONNECT_AS_MASTER
        ∧ (DetermineBestClusterAvailable k s connectSucceeds randomInteger).decision.preferredPartner
            = best.payload.sender
        ∧ (DetermineBestClusterAvailable k s connectSucceeds randomInteger).connectCall
            = some { partnerId := best.payload.sender
                     addr := best.addr
                     writeCharacteristicHandle := best.payload.meshWriteHandle
                     leafInterval := decide (best.payload.deviceType = DeviceType.LEAF) })
    ∧ (¬ (0 < s.freeMeshOutConnections
          ∧ HasCandidate (CalculateClusterScoreAsMaster k s) s.joinMePackets) →
        HasCandidate (CalculateClusterScoreAsSlave k s) s.joinMePackets →
        ∃ i best, IsBestSlot (CalculateClusterScoreAsSlave k s) s.joinMePackets i best
          ∧ (DetermineBestClusterAvailable k s connectSucceeds randomInteger).decision.result
              = DecisionResult.CONNECT_AS_SLAVE
          ∧ (DetermineBestClusterAvailable k s connectSucceeds randomInteger).node.currentAckId
              = best.payload.clusterId
          ∧ (DetermineBestClusterAvailable k s connectSucceeds randomInteger).connectCall = none)
    ∧ (¬ (0 < s.freeMeshOutConnections
          ∧ HasCandidate (CalculateClusterScoreAsMaster k s) s.joinMePackets) →
        ¬ HasCandidate (CalculateClusterScoreAsSlave k s) s.joinMePackets →
        (DetermineBestClusterAvailable k s connectSucceeds randomInteger).decision.result
            = DecisionResult.NO_NODES_FOUND
          ∧ (DetermineBestClusterAvailable k s connectSucceeds randomInteger).node.currentAckId = 0
          ∧ (DetermineBestClusterAvailable k s connectSucceeds randomInteger).connectCall = none) := by
  have hmaster := DetermineBestCluster_spec s (CalculateClusterScoreAsMaster k s)
  have hslave := DetermineBestCluster_spec s (CalculateClusterScoreAsSlave k s)
  have hnoMaster : ¬ (0 < s.freeMeshOutConnections
      ∧ HasCandidate (CalculateClusterScoreAsMaster k s) s.joinMePackets) →
      s.freeMeshOutConnections = 0 ∨ DetermineBestClusterAsMaster k s = none := by
    intro hnot
    by_cases hfree : 0 < s.freeMeshOutConnections
    · right
      rcases hmaster with ⟨hr, _⟩ | ⟨i, p, _, hbest⟩
      · exact hr
      · exact absurd ⟨hfree, HasCandidate_of_IsBestSlot _ _ i p hbest⟩ hnot
    · left; omega
  refine ⟨?_, ?_, ?_⟩
  · rintro ⟨hfree, hcand⟩
    rcases hmaster with ⟨_, hnone⟩ | ⟨i, p, hr, hbest⟩
    · exact absurd hcand hnone
    · refine ⟨i, p, hbest, ?_, ?_, ?_⟩ <;>
        rw [DetermineBestClusterAvailable_master k s connectSucceeds randomInteger i p hfree hr hbest.1]
  · intro hnot hcand
    rcases hslave with ⟨_, hnone⟩ | ⟨i, p, hr, hbest⟩
    · exact absurd hcand hnone
    · refine ⟨i, p, hbest, ?_, ?_, ?_⟩
      · rw [DetermineBestClusterAvailable_slave k s connectSucceeds randomInteger i p
          (hnoMaster hnot) hr hbest.1]
      · rw [DetermineBestClusterAvailable_slave k s connectSucceeds randomInteger i p
          (hnoMaster hnot) hr hbest.1]
        exact waitAsSlave_currentAckId k _ p randomInteger
      · rw [DetermineBestClusterAvailable_slave k s connectSucceeds randomInteger i p
          (hnoMaster hnot) hr hbest.1]
  · intro hnot hnocand
    rcases hslave with ⟨hr, _⟩ | ⟨i, p, _, hbest⟩
    · rw [DetermineBestClusterAvailable_none k s connectSucceeds randomInteger (hnoMaster hnot) hr]
      exact ⟨rfl, rfl, rfl⟩
    · exact absurd (HasCandidate_of_IsBestSlot _ _ i p hbest) hnocand

/-- C13: `DetermineBestClusterAvailable` returns CONNECT_AS_MASTER and calls
Connect-As-Master for the sender of the highest as-master-scored candidate (the
first of them if several score the same) exactly when the node has a free
outbound mesh slot and some buffered candidate with nonzero sender has an
as-master score above 0; otherwise it returns CONNECT_AS_SLAVE, issues no
connect and sets the ack field to the cluster id of the highest
as-slave-scored candidate exactly when some buffered candidate with nonzero
sender has an as-slave score above 0; otherwise it returns NO_NODES_FOUND,
issues no connect and leaves the ack field 0. -/
theorem DetermineBestClusterAvailable_decision (k : Constants) (s : Node)
    (connectSucceeds : Bool) (randomInteger : Nat) :
    ((0 < s.freeMeshOutConnections
        ∧ HasCandidate (CalculateClusterScoreAsMaster k s) s.joinMePackets) →
      ∃ i best, IsBestSlot (CalculateClusterScoreAsMaster k s) s.joinMePackets i best
        ∧ (DetermineBestClusterAvailable k s connectSucceeds randomInteger).decision.result
            = DecisionResult.CONNECT_AS_MASTER
        ∧ (DetermineBestClusterAvailable k s connectSucceeds randomInteger).decision.preferredPartner
            = best.payload.sender
        ∧ (DetermineBestClusterAvailable k s connectSucceeds randomInteger).connectCall
            = some { partnerId := best.payload.sender
                     addr := best.addr
                     writeCharacteristicHandle := best.payload.meshWriteHandle
                     leafInterval := decide (best.payload.deviceType = DeviceType.LEAF) })
    ∧ (¬ (0 < s.freeMeshOutConnections
          ∧ HasCandidate (CalculateClusterScoreAsMaster k s) s.joinMePackets) →
        HasCandidate (CalculateClusterScoreAsSlave k s) s.joinMePackets →
        ∃ i best, IsBestSlot (CalculateClusterScoreAsSlave k s) s.joinMePackets i best
          ∧ (DetermineBestClusterAvailable k s connectSucceeds randomInteger).decision.result
              = DecisionResult.CONNECT_AS_SLAVE
          ∧ (DetermineBestClusterAvailable k s connectSucceeds randomInteger).node.currentAckId
              = best.payload.clusterId
          ∧ (DetermineBestClusterAvailable k s connectSucceeds randomInteger).connectCall = none)
    ∧ (¬ (0 < s.freeMeshOutConnections
          ∧ HasCandidate (CalculateClusterScoreAsMaster k s) s.joinMePackets) →
        ¬ HasCandidate (CalculateClusterScoreAsSlave k s) s.joinMePackets →
        (DetermineBestClusterAvailable k s connectSucceeds randomInteger).decision.result
            = DecisionResult.NO_NODES_FOUND
          ∧ (DetermineBestClusterAvailable k s connectSucceeds randomInteger).node.currentAckId = 0
          ∧ (DetermineBestClusterAvailable k s connectSucceeds randomInteger).connectCall = none)
    ∧ ((DetermineBestClusterAvailable k s connectSucceeds randomInteger).decision.result
          = DecisionResult.CONNECT_AS_MASTER
        ↔ (0 < s.freeMeshOutConnections
            ∧ HasCandidate (CalculateClusterScoreAsMaster k s) s.joinMePackets))
    ∧ ((DetermineBestClusterAvailable k s connectSucceeds randomInteger).connectCall ≠ none
        ↔ (0 < s.freeMeshOutConnections
            ∧ HasCandidate (CalculateClusterScoreAsMaster k s) s.joinMePackets))
    ∧ ((DetermineBestClusterAvailable k s connectSucceeds randomInteger).decision.result
          = DecisionResult.CONNECT_AS_SLAVE
        ↔ (¬ (0 < s.freeMeshOutConnections
              ∧ HasCandidate (CalculateClusterScoreAsMaster k s) s.joinMePackets)
            ∧ HasCandidate (CalculateClusterScoreAsSlave k s) s.joinMePackets)) := by
  obtain ⟨h1, h2, h3⟩ := DetermineBestClusterAvailable_cases k s connectSucceeds randomInteger
  refine ⟨h1, h2, h3, ?_, ?_, ?_⟩
  · constructor
    · intro hres
      by_contra hnot
      by_cases hcand : HasCandidate (CalculateClusterScoreAsSlave k s) s.joinMePackets
      · obtain ⟨_, _, _, hr, _⟩ := h2 hnot hcand
        rw [hr] at hres; cases hres
      · obtain ⟨hr, _⟩ := h3 hnot hcand
        rw [hr] at hres; cases hres
    · intro hcond
      obtain ⟨_, _, _, hr, _⟩ := h1 hcond
      exact hr
  · constructor
    · intro hcall
      by_contra hnot
      by_cases hcand : HasCandidate (CalculateClusterScoreAsSlave k s) s.joinMePackets
      · obtain ⟨_, _, _, _, _, hc⟩ := h2 hnot hcand
        exact hcall hc
      · obtain ⟨_, _, hc⟩ := h3 hnot hcand
        exact hcall hc
    · intro hcond
      obtain ⟨_, _, _, _, _, hc⟩ := h1 hcond
      rw [hc]; simp
  · constructor
    · intro hres
      have hnot : ¬ (0 < s.freeMeshOutConnections
          ∧ HasCandidate (CalculateClusterScoreAsMaster k s) s.joinMePackets) := by
        intro hcond
        obtain ⟨_, _, _, hr, _⟩ := h1 hcond
        rw [hr] at hres; cases hres
      refine ⟨hnot, ?_⟩
      by_contra hcand
      obtain ⟨hr, _⟩ := h3 hnot hcand
      rw [hr] at hres; cases hres
    · rintro ⟨hnot, hcand⟩
      obtain ⟨_, _, _, hr, _⟩ := h2 hnot hcand
      exact hr

/-- C13 at a concrete input: `busyNode` has free outbound slots and one
candidate with a positive as-master score, so it connects as master to the
candidate's sender, node 9. -/
theorem DetermineBestClusterAvailable_decision_witness :
    ∃ i best, IsBestSlot (CalculateClusterScoreAsMaster sampleConstants busyNode)
        busyNode.joinMePackets i best
      ∧ (DetermineBestClusterAvailable sampleConstants busyNode true 0).decision.result
          = DecisionResult.CONNECT_AS_MASTER
      ∧ (DetermineBestClusterAvailable sampleConstants busyNode true 0).decision.preferredPartner
          = best.payload.sender
      ∧ (DetermineBestClusterAvailable sampleConstants busyNode true 0).connectCall
          = some { partnerId := best.payload.sender
                   addr := best.addr
                   writeCharacteristicHandle := best.payload.meshWriteHandle
                   leafInterval := decide (best.payload.deviceType = DeviceType.LEAF) } :=
  (DetermineBestClusterAvailable_decision sampleConstants busyNode true 0).1
    ⟨by decide, candidateEntry 350 100 20, by decide, by decide, by decide⟩

theorem set_of_getElem? {α : Type} (l : List α) :
    ∀ (i : Nat) (a : α), l[i]? = some a → l.set i a = l := by
  induction l with
  | nil => intro i a h; rfl
  | cons b rest ih =>
    intro i a h
    cases i with
    | zero =>
      simp only [List.getElem?_cons_zero, Option.some.injEq] at h
      rw [List.set_cons_zero, h]
    | succ j =>
      simp only [List.getElem?_cons_succ] at h
      rw [List.set_cons_succ, ih j a h]

theorem noteConnectAttempt_attempts_le (now : Nat) (ok : Bool) (best : joinMeBufferPacket)
    (h : best.attemptsToConnect ≤ 21) : (noteConnectAttempt now ok best).attemptsToConnect ≤ 21 := by
  unfold noteConnectAttempt
  cases ok
  · exact h
  · simp only [if_true]
    split <;> omega

theorem DetermineBestClusterAvailable_joinMePackets (k : Constants) (s : Node) (ok : Bool)
    (r : Nat) :
    (∃ i best, IsBestSlot (CalculateClusterScoreAsMaster k s) s.joinMePackets i best
        ∧ 0 < s.freeMeshOutConnections
        ∧ (DetermineBestClusterAvailable k s ok r).node.joinMePackets
            = s.joinMePackets.set i (noteConnectAttempt s.appTimerDs ok best))
    ∨ (¬ (0 < s.freeMeshOutConnections
          ∧ HasCandidate (CalculateClusterScoreAsMaster k s) s.joinMePackets)
        ∧ (DetermineBestClusterAvailable k s ok r).node.joinMePackets = s.joinMePackets) := by
  by_cases hfree : 0 < s.freeMeshOutConnections
  · rcases DetermineBestCluster_spec s (CalculateClusterScoreAsMaster k s) with
      ⟨hr, hnone⟩ | ⟨i, p, hr, hbest⟩
    · right
      refine ⟨fun h => hnone h.2, ?_⟩
      rcases DetermineBestCluster_spec s (CalculateClusterScoreAsSlave k s) with
        ⟨hr2, _⟩ | ⟨j, q, hr2, hbest2⟩
      · rw [DetermineBestClusterAvailable_none k s ok r (Or.inr hr) hr2]
      · rw [DetermineBestClusterAvailable_slave k s ok r j q (Or.inr hr) hr2 hbest2.1]
        exact waitAsSlave_joinMePackets k _ q r
    · left
      refine ⟨i, p, hbest, hfree, ?_⟩
      rw [DetermineBestClusterAvailable_master k s ok r i p hfree hr hbest.1]
  · right
    refine ⟨fun h => hfree h.1, ?_⟩
    have hzero : s.freeMeshOutConnections = 0 := by omega
    rcases DetermineBestCluster_spec s (CalculateClusterScoreAsSlave k s) with
      ⟨hr2, _⟩ | ⟨j, q, hr2, hbest2⟩
    · rw [DetermineBestClusterAvailable_none k s ok r (Or.inl hzero) hr2]
    · rw [DetermineBestClusterAvailable_slave k s ok r j q (Or.inl hzero) hr2 hbest2.1]
      exact waitAsSlave_joinMePackets k _ q r

theorem DetermineBestClusterAvailable_attempts_le (k : Constants) (s : Node) (ok : Bool) (r : Nat)
    (hbound : ∀ p ∈ s.joinMePackets, p.attemptsToConnect ≤ 21) :
    ∀ p ∈ (DetermineBestClusterAvailable k s ok r).node.joinMePackets,
      p.attemptsToConnect ≤ 21 := by
  rcases DetermineBestClusterAvailable_joinMePackets k s ok r with
    ⟨i, best, hbest, _, hset⟩ | ⟨_, hsame⟩
  · rw [hset]
    intro p hp
    rcases List.mem_or_eq_of_mem_set hp with hp | rfl
    · exact hbound p hp
    · exact noteConnectAttempt_attempts_le _ _ _ (hbound best (List.getElem?_mem hbest.1))
  · rw [hsame]; exact hbound

/-- C15 as stated fails: a successful connect attempt to the candidate of
`busyNode`, which has 20 attempts, raises its attempts counter to 21. -/
theorem DetermineBestClusterAvailable_attempts_reach_21 :
    busyNode.joinMePackets.map (fun p => p.attemptsToConnect) = [20]
    ∧ (DetermineBestClusterAvailable sampleConstants busyNode true 0).decision.result
        = DecisionResult.CONNECT_AS_MASTER
    ∧ (DetermineBestClusterAvailable sampleConstants busyNode true 0).node.joinMePackets.map
        (fun p => (p.lastConnectAttemptDs, p.attemptsToConnect)) = [(400, 21)] := by
  decide

/-- C15, amended: when the Connect-As-Master call of
`DetermineBestClusterAvailable` succeeds, the chosen candidate's last_attempt
is set to the current time and its attempts counter is incremented as long as
it is at most 20, so the counter is capped at 21: a buffer whose counters are
at most 21 keeps that bound under every call and under every number of
successive successful connect attempts. When the call fails, no slot of the
buffer changes. -/
theorem DetermineBestClusterAvailable_attempts (k : Constants) (s : Node) (randomInteger : Nat) :
    ((0 < s.freeMeshOutConnections
        ∧ HasCandidate (CalculateClusterScoreAsMaster k s) s.joinMePackets) →
      ∃ i best updated, IsBestSlot (CalculateClusterScoreAsMaster k s) s.joinMePackets i best
        ∧ (DetermineBestClusterAvailable k s true randomInteger).node.joinMePackets
            = s.joinMePackets.set i updated
        ∧ updated.lastConnectAttemptDs = s.appTimerDs
        ∧ updated.attemptsToConnect
            = (if best.attemptsToConnect ≤ 20 then best.attemptsToConnect + 1
               else best.attemptsToConnect)
        ∧ updated.payload = best.payload)
    ∧ (DetermineBestClusterAvailable k s false randomInteger).node.joinMePackets = s.joinMePackets
    ∧ ((∀ p ∈ s.joinMePackets, p.attemptsToConnect ≤ 21) →
        (∀ (connectSucceeds : Bool),
          ∀ p ∈ (DetermineBestClusterAvailable k s connectSucceeds randomInteger).node.joinMePackets,
            p.attemptsToConnect ≤ 21)
        ∧ (∀ times : List Nat, ∀ p ∈ (connectRepeatedly k s times).joinMePackets,
            p.attemptsToConnect ≤ 21)) := by
  refine ⟨?_, ?_, ?_⟩
  · intro hcond
    rcases DetermineBestClusterAvailable_joinMePackets k s true randomInteger with
      ⟨i, best, hbest, _, hset⟩ | ⟨hnot, _⟩
    · exact ⟨i, best, noteConnectAttempt s.appTimerDs true best, hbest, hset, rfl, rfl, rfl⟩
    · exact absurd hcond hnot
  · rcases DetermineBestClusterAvailable_joinMePackets k s false randomInteger with
      ⟨i, best, hbest, _, hset⟩ | ⟨_, hsame⟩
    · rw [hset]
      have : noteConnectAttempt s.appTimerDs false best = best := rfl
      rw [this]
      exact set_of_getElem? _ _ _ hbest.1
    · exact hsame
  · intro hbound
    refine ⟨fun ok => DetermineBestClusterAvailable_attempts_le k s ok randomInteger hbound, ?_⟩
    intro times
    induction times generalizing s with
    | nil => exact hbound
    | cons now rest ih =>
      exact ih _ (DetermineBestClusterAvailable_attempts_le k { s with appTimerDs := now } true 0
        hbound)

/-- C15 (amended) at a concrete input: the counters of `busyNode` are at
most 21 and stay so. -/
theorem DetermineBestClusterAvailable_attempts_witness :
    (∀ p ∈ busyNode.joinMePackets, p.attemptsToConnect ≤ 21)
    ∧ (∀ p ∈ (DetermineBestClusterAvailable sampleConstants busyNode true 0).node.joinMePackets,
        p.attemptsToConnect ≤ 21) :=
  ⟨by decide,
    ((DetermineBestClusterAvailable_attempts sampleConstants busyNode 0).2.2 (by decide)).1 true⟩

/-! ## The claim on the candidate buffer -/

theorem firstSlotLoop_spec (test : joinMeBufferPacket → Bool) (l : List joinMeBufferPacket) :
    ∀ i0 : Nat,
      (firstSlotLoop test l i0 = none ∧ ∀ b ∈ l, test b = false)
      ∨ (∃ j b, l[j]? = some b ∧ firstSlotLoop test l i0 = some (i0 + j) ∧ test b = true
          ∧ ∀ j2 c, j2 < j → l[j2]? = some c → test c = false) := by
  induction l with
  | nil =>
    intro i0
    left
    exact ⟨rfl, by intro b hb; cases hb⟩
  | cons a rest ih =>
    intro i0
    by_cases ha : test a = true
    · right
      refine ⟨0, a, by simp, by simp [firstSlotLoop, ha], ha, ?_⟩
      intro j2 c hj2; omega
    · have hfalse : test a = false := by simpa using ha
      have hstep : firstSlotLoop test (a :: rest) i0 = firstSlotLoop test rest (i0 + 1) := by
        simp [firstSlotLoop, hfalse]
      rcases ih (i0 + 1) with ⟨hr, hall⟩ | ⟨j, b, hj, hr, hb, hfirst⟩
      · left
        refine ⟨hstep.trans hr, ?_⟩
        intro b hb
        rcases List.mem_cons.mp hb with rfl | hb
        · exact hfalse
        · exact hall b hb
      · right
        refine ⟨j + 1, b, by simpa using hj, ?_, hb, ?_⟩
        · rw [hstep, hr]; congr 1; omega
        · intro j2 c hj2 hc
          cases j2 with
          | zero =>
            simp only [List.getElem?_cons_zero, Option.some.injEq] at hc
            subst hc
            exact hfalse
          | succ j3 =>
            simp only [List.getElem?_cons_succ] at hc
            exact hfirst j3 c (by omega) hc

theorem lowestSlotLoop_spec (cond : joinMeBufferPacket → Bool) (key : joinMeBufferPacket → Nat)
    (l : List joinMeBufferPacket) :
    ∀ (i0 lowest : Nat) (target : Option Nat),
      (lowestSlotLoop cond key l i0 lowest target = target
        ∧ ∀ b ∈ l, cond b = true → lowest ≤ key b)
      ∨ (∃ j b, l[j]? = some b
          ∧ lowestSlotLoop cond key l i0 lowest target = some (i0 + j)
          ∧ cond b = true ∧ key b < lowest
          ∧ (∀ c ∈ l, cond c = true → key b ≤ key c)
          ∧ (∀ j2 c, j2 < j → l[j2]? = some c → cond c = true → key b < key c)) := by
  induction l with
  | nil =>
    intro i0 lowest target
    left
    exact ⟨rfl, by intro b hb; cases hb⟩
  | cons a rest ih =>
    intro i0 lowest target
    by_cases hpick : cond a = true ∧ key a < lowest
    · have hstep : lowestSlotLoop cond key (a :: rest) i0 lowest target
          = lowestSlotLoop cond key rest (i0 + 1) (key a) (some i0) := by
        simp [lowestSlotLoop, hpick.1, hpick.2]
      rcases ih (i0 + 1) (key a) (some i0) with
        ⟨hr, hall⟩ | ⟨j, b, hj, hr, hb, hlow, hmin, hfirst⟩
      · right
        refine ⟨0, a, by simp, ?_, hpick.1, hpick.2, ?_, ?_⟩
        · rw [hstep, hr]; rfl
        · intro c hc hcc
          rcases List.mem_cons.mp hc with rfl | hc
          · exact le_refl _
          · exact hall c hc hcc
        · intro j2 c hj2; omega
      · right
        refine ⟨j + 1, b, by simpa using hj, ?_, hb, by omega, ?_, ?_⟩
        · rw [hstep, hr]; congr 1; omega
        · intro c hc hcc
          rcases List.mem_cons.mp hc with rfl | hc
          · omega
          · exact hmin c hc hcc
        · intro j2 c hj2 hc hcc
          cases j2 with
          | zero =>
            simp only [List.getElem?_cons_zero, Option.some.injEq] at hc
            subst hc
            exact hlow
          | succ j3 =>
            simp only [List.getElem?_cons_succ] at hc
            exact hfirst j3 c (by omega) hc hcc
    · have hstep : lowestSlotLoop cond key (a :: rest) i0 lowest target
          = lowestSlotLoop cond key rest (i0 + 1) lowest target := by
        simp only [lowestSlotLoop, if_neg hpick]
      have ha : cond a = true → lowest ≤ key a := by
        intro hc
        by_contra hlt
        exact hpick ⟨hc, by omega⟩
      rcases ih (i0 + 1) lowest target with
        ⟨hr, hall⟩ | ⟨j, b, hj, hr, hb, hlow, hmin, hfirst⟩
      · left
        refine ⟨hstep.trans hr, ?_⟩
        intro c hc hcc
        rcases List.mem_cons.mp hc with rfl | hc
        · exact ha hcc
        · exact hall c hc hcc
      · right
        refine ⟨j + 1, b, by simpa using hj, ?_, hb, hlow, ?_, ?_⟩
        · rw [hstep, hr]; congr 1; omega
        · intro c hc hcc
          rcases List.mem_cons.mp hc with rfl | hc
          · have := ha hcc; omega
          · exact hmin c hc hcc
        · intro j2 c hj2 hc hcc
          cases j2 with
          | zero =>
            simp only [List.getElem?_cons_zero, Option.some.injEq] at hc
            subst hc
            have := ha hcc; omega
          | succ j3 =>
            simp only [List.getElem?_cons_succ] at hc
            exact hfirst j3 c (by omega) hc hcc

theorem firstSlot_cases (P : joinMeBufferPacket → Prop) [DecidablePred P]
    (slots : List joinMeBufferPacket) :
    (firstSlotLoop (fun slot => decide (P slot)) slots 0 = none ∧ ∀ b ∈ slots, ¬ P b)
    ∨ (∃ i b, firstSlotLoop (fun slot => decide (P slot)) slots 0 = some i
        ∧ IsFirstSlot P slots i b) := by
  rcases firstSlotLoop_spec (fun slot => decide (P slot)) slots 0 with
    ⟨hr, hall⟩ | ⟨j, b, hj, hr, hb, hfirst⟩
  · left
    exact ⟨hr, fun b hb => by simpa using hall b hb⟩
  · right
    refine ⟨j, b, by rw [hr]; congr 1; omega, hj, by simpa using hb, ?_⟩
    intro j2 c hj2 hc
    simpa using hfirst j2 c hj2 hc

theorem lowestSlot_cases (P : joinMeBufferPacket → Prop) [DecidablePred P]
    (key : joinMeBufferPacket → Nat) (slots : List joinMeBufferPacket) :
    (lowestSlotLoop (fun slot => decide (P slot)) key slots 0 UINT32_MAX none = none
        ∧ ∀ b ∈ slots, P b → UINT32_MAX ≤ key b)
    ∨ (∃ i b, lowestSlotLoop (fun slot => decide (P slot)) key slots 0 UINT32_MAX none = some i
        ∧ IsLowestSlot P key slots i b) := by
  rcases lowestSlotLoop_spec (fun slot => decide (P slot)) key slots 0 UINT32_MAX none with
    ⟨hr, hall⟩ | ⟨j, b, hj, hr, hb, hlow, hmin, hfirst⟩
  · left
    exact ⟨hr, fun b hb hp => hall b hb (by simpa using hp)⟩
  · right
    refine ⟨j, b, by rw [hr]; congr 1; omega, hj, by simpa using hb, hlow, ?_, ?_⟩
    · intro c hc hp
      exact hmin c hc (by simpa using hp)
    · intro j2 c hj2 hc hp
      exact hfirst j2 c hj2 hc (by simpa using hp)

theorem findTargetBuffer_of_sender (k : Constants) (s : Node) (packet : advPacketPayloadJoinMeV0)
    (i : Nat)
    (h1 : firstSlotLoop (fun slot => decide (packet.sender = slot.payload.sender))
      s.joinMePackets 0 = some i) :
    (findTargetBuffer k s packet).1 = some i := by
  unfold findTargetBuffer
  rw [h1]

theorem findTargetBuffer_of_empty (k : Constants) (s : Node) (packet : advPacketPayloadJoinMeV0)
    (i : Nat)
    (h1 : firstSlotLoop (fun slot => decide (packet.sender = slot.payload.sender))
      s.joinMePackets 0 = none)
    (h2 : firstSlotLoop (fun slot => decide (slot.payload.sender = 0)) s.joinMePackets 0 = some i) :
    (findTargetBuffer k s packet).1 = some i := by
  unfold findTargetBuffer
  rw [h1, h2]

theorem findTargetBuffer_of_own_cluster (k : Constants) (s : Node)
    (packet : advPacketPayloadJoinMeV0) (i : Nat)
    (h1 : firstSlotLoop (fun slot => decide (packet.sender = slot.payload.sender))
      s.joinMePackets 0 = none)
    (h2 : firstSlotLoop (fun slot => decide (slot.payload.sender = 0)) s.joinMePackets 0 = none)
    (h3 : lowestSlotLoop (fun slot => decide (slot.payload.clusterId = s.clusterId))
      (fun slot => slot.receivedTimeDs) s.joinMePackets 0 UINT32_MAX none = some i) :
    (findTargetBuffer k s packet).1 = some i := by
  unfold findTargetBuffer
  rw [h1, h2, h3]

theorem findTargetBuffer_of_score (k : Constants) (s : Node) (packet : advPacketPayloadJoinMeV0)
    (h1 : firstSlotLoop (fun slot => decide (packet.sender = slot.payload.sender))
      s.joinMePackets 0 = none)
    (h2 : firstSlotLoop (fun slot => decide (slot.payload.sender = 0)) s.joinMePackets 0 = none)
    (h3 : lowestSlotLoop (fun slot => decide (slot.payload.clusterId = s.clusterId))
      (fun slot => slot.receivedTimeDs) s.joinMePackets 0 UINT32_MAX none = none) :
    (findTargetBuffer k s packet).1
      = lowestSlotLoop (fun _ => true) (replacementScore k s packet) s.joinMePackets 0
          UINT32_MAX none := by
  unfold findTargetBuffer
  rw [h1, h2, h3]

/-- C16 fails on the code at the start value of the minimum search: in the
full buffer of `fullBufferNode` no slot has the observed sender 9, no slot is
empty, and slot 1 is the only slot of the node's own cluster, so rule 3 of the
claim selects slot 1. Its time stamp is `UINT32_MAX`, the start value of the
search for the oldest time stamp, which the strict comparison never goes
below: the code passes slot 1 over and returns slot 0, a slot of another
cluster. -/
theorem findTargetBuffer_skips_latest_stamp :
    fullBufferNode.joinMePackets.map (fun b => b.payload.sender) = [5, 6]
    ∧ observedPayload.sender = 9
    ∧ fullBufferNode.joinMePackets.map
        (fun b => decide (b.payload.clusterId = fullBufferNode.clusterId)) = [false, true]
    ∧ fullBufferNode.joinMePackets.map (fun b => b.receivedTimeDs) = [0, UINT32_MAX]
    ∧ (findTargetBuffer sampleConstants fullBufferNode observedPayload).1 = some 0 := by
  decide

/-- What the code of `findTargetBuffer` does, for every buffer state and every
JOIN_ME observation: it returns the slot chosen by the first applicable rule in
this order: (1) the first slot whose sender equals the observed sender; (2) the
first empty slot (sender 0); (3) among the slots whose cluster id equals the
node's cluster id, the first one with the oldest received time stamp, provided
that time stamp is below `UINT32_MAX`; (4) the first slot with the lowest
score, provided that score is below `UINT32_MAX`, where every slot is scored
with the as-master function if the observed cluster size is at least the
node's cluster size and with the as-slave function otherwise; and no slot if
none of the rules applies. -/
theorem findTargetBuffer_rules (k : Constants) (s : Node) (packet : advPacketPayloadJoinMeV0) :
    ((∃ b ∈ s.joinMePackets, packet.sender = b.payload.sender) →
      ∃ i b, (findTargetBuffer k s packet).1 = some i
        ∧ IsFirstSlot (fun c => packet.sender = c.payload.sender) s.joinMePackets i b)
    ∧ ((∀ b ∈ s.joinMePackets, packet.sender ≠ b.payload.sender) →
        (∃ b ∈ s.joinMePackets, b.payload.sender = 0) →
        ∃ i b, (findTargetBuffer k s packet).1 = some i
          ∧ IsFirstSlot (fun c => c.payload.sender = 0) s.joinMePackets i b)
    ∧ ((∀ b ∈ s.joinMePackets, packet.sender ≠ b.payload.sender) →
        (∀ b ∈ s.joinMePackets, b.payload.sender ≠ 0) →
        (∃ b ∈ s.joinMePackets, b.payload.clusterId = s.clusterId
          ∧ b.receivedTimeDs < UINT32_MAX) →
        ∃ i b, (findTargetBuffer k s packet).1 = some i
          ∧ IsLowestSlot (fun c => c.payload.clusterId = s.clusterId)
              (fun c => c.receivedTimeDs) s.joinMePackets i b)
    ∧ ((∀ b ∈ s.joinMePackets, packet.sender ≠ b.payload.sender) →
        (∀ b ∈ s.joinMePackets, b.payload.sender ≠ 0) →
        (∀ b ∈ s.joinMePackets, b.payload.clusterId = s.clusterId →
          UINT32_MAX ≤ b.receivedTimeDs) →
        (∃ b ∈ s.joinMePackets, replacementScore k s packet b < UINT32_MAX) →
        ∃ i b, (findTargetBuffer k s packet).1 = some i
          ∧ IsLowestSlot (fun _ => True) (replacementScore k s packet) s.joinMePackets i b)
    ∧ ((∀ b ∈ s.joinMePackets, packet.sender ≠ b.payload.sender) →
        (∀ b ∈ s.joinMePackets, b.payload.sender ≠ 0) →
        (∀ b ∈ s.joinMePackets, b.payload.clusterId = s.clusterId →
          UINT32_MAX ≤ b.receivedTimeDs) →
        (∀ b ∈ s.joinMePackets, UINT32_MAX ≤ replacementScore k s packet b) →
        (findTargetBuffer k s packet).1 = none) := by
  have c1 := firstSlot_cases (fun c => packet.sender = c.payload.sender) s.joinMePackets
  have c2 := firstSlot_cases (fun c => c.payload.sender = 0) s.joinMePackets
  have c3 := lowestSlot_cases (fun c => c.payload.clusterId = s.clusterId)
    (fun c => c.receivedTimeDs) s.joinMePackets
  have c4 := lowestSlot_cases (fun _ => True) (replacementScore k s packet) s.joinMePackets
  have n1 : (∀ b ∈ s.joinMePackets, packet.sender ≠ b.payload.sender) →
      firstSlotLoop (fun slot => decide (packet.sender = slot.payload.sender))
        s.joinMePackets 0 = none := by
    intro hno
    rcases c1 with ⟨hr, _⟩ | ⟨i, b, _, hb⟩
    · exact hr
    · exact absurd hb.2.1 (hno b (List.getElem?_mem hb.1))
  have n2 : (∀ b ∈ s.joinMePackets, b.payload.sender ≠ 0) →
      firstSlotLoop (fun slot => decide (slot.payload.sender = 0)) s.joinMePackets 0 = none := by
    intro hno
    rcases c2 with ⟨hr, _⟩ | ⟨i, b, _, hb⟩
    · exact hr
    · exact absurd hb.2.1 (hno b (List.getElem?_mem hb.1))
  have n3 : (∀ b ∈ s.joinMePackets, b.payload.clusterId = s.clusterId →
      UINT32_MAX ≤ b.receivedTimeDs) →
      lowestSlotLoop (fun slot => decide (slot.payload.clusterId = s.clusterId))
        (fun slot => slot.receivedTimeDs) s.joinMePackets 0 UINT32_MAX none = none := by
    intro hno
    rcases c3 with ⟨hr, _⟩ | ⟨i, b, _, hb⟩
    · exact hr
    · have h1 : UINT32_MAX ≤ b.receivedTimeDs := hno b (List.getElem?_mem hb.1) hb.2.1
      have h2 : b.receivedTimeDs < UINT32_MAX := hb.2.2.1
      omega
  refine ⟨?_, ?_, ?_, ?_, ?_⟩
  · rintro ⟨b, hb, hsame⟩
    rcases c1 with ⟨_, hall⟩ | ⟨i, c, hr, hc⟩
    · exact absurd hsame (hall b hb)
    · exact ⟨i, c, findTargetBuffer_of_sender k s packet i hr, hc⟩
  · rintro hno ⟨b, hb, hzero⟩
    rcases c2 with ⟨_, hall⟩ | ⟨i, c, hr, hc⟩
    · exact absurd hzero (hall b hb)
    · exact ⟨i, c, findTargetBuffer_of_empty k s packet i (n1 hno) hr, hc⟩
  · rintro hno hfull ⟨b, hb, hown, hstamp⟩
    rcases c3 with ⟨_, hall⟩ | ⟨i, c, hr, hc⟩
    · have h1 : UINT32_MAX ≤ b.receivedTimeDs := hall b hb hown
      omega
    · exact ⟨i, c, findTargetBuffer_of_own_cluster k s packet i (n1 hno) (n2 hfull) hr, hc⟩
  · rintro hno hfull hstamps ⟨b, hb, hscore⟩
    rcases c4 with ⟨_, hall⟩ | ⟨i, c, hr, hc⟩
    · have h1 : UINT32_MAX ≤ replacementScore k s packet b := hall b hb trivial
      omega
    · refine ⟨i, c, ?_, hc⟩
      rw [findTargetBuffer_of_score k s packet (n1 hno) (n2 hfull) (n3 hstamps)]
      exact hr
  · intro hno hfull hstamps hscores
    rw [findTargetBuffer_of_score k s packet (n1 hno) (n2 hfull) (n3 hstamps)]
    rcases c4 with ⟨hr, _⟩ | ⟨i, c, _, hc⟩
    · exact hr
    · have h1 : UINT32_MAX ≤ replacementScore k s packet c := hscores c (List.getElem?_mem hc.1)
      have h2 : replacementScore k s packet c < UINT32_MAX := hc.2.2.1
      omega

/-- The rules of `findTargetBuffer` at a concrete input: the observed sender 6
is found in slot 1 of `fullBufferNode`. -/
theorem findTargetBuffer_rules_witness :
    ∃ i b, (findTargetBuffer sampleConstants fullBufferNode
        { observedPayload with sender := 6 }).1 = some i
      ∧ IsFirstSlot (fun c => ({ observedPayload with sender := 6 } : advPacketPayloadJoinMeV0).sender
          = c.payload.sender) fullBufferNode.joinMePackets i b :=
  (findTargetBuffer_rules sampleConstants fullBufferNode { observedPayload with sender := 6 }).1
    ⟨_, List.mem_cons_of_mem _ (List.mem_singleton.mpr rfl), by decide⟩

/-! ## The claims on the handshake and disconnect handlers -/

theorem governLink_partnerId (s : Node) (c : MeshConnection) :
    (governLink s c).partnerId = c.partnerId := by
  unfold governLink MeshConnection.HandoverMasterBit; split <;> rfl

theorem governLink_connectedClusterId (s : Node) (c : MeshConnection) :
    (governLink s c).connectedClusterId = c.connectedClusterId := by
  unfold governLink MeshConnection.HandoverMasterBit; split <;> rfl

theorem step_partnerId (s : Node) (ign : Option Nat) (packet : Option connPacketClusterInfoUpdate)
    (j : Nat) (c : MeshConnection) :
    (sendClusterInfoUpdateStep s ign packet j c).partnerId = c.partnerId := by
  unfold sendClusterInfoUpdateStep
  split
  · split
    · rfl
    · split <;> rfl
  · rfl

theorem step_connectedClusterId (s : Node) (ign : Option Nat)
    (packet : Option connPacketClusterInfoUpdate) (j : Nat) (c : MeshConnection) :
    (sendClusterInfoUpdateStep s ign packet j c).connectedClusterId = c.connectedClusterId := by
  unfold sendClusterInfoUpdateStep
  split
  · split
    · rfl
    · split <;> rfl
  · rfl

theorem sendLinkMap_partnerId (s : Node) (ign : Option Nat)
    (packet : Option connPacketClusterInfoUpdate) (j : Nat) (c : MeshConnection) :
    (sendLinkMap s ign packet j c).partnerId = c.partnerId := by
  simp only [sendLinkMap, governLink_partnerId, step_partnerId]

theorem sendLinkMap_connectedClusterId (s : Node) (ign : Option Nat)
    (packet : Option connPacketClusterInfoUpdate) (j : Nat) (c : MeshConnection) :
    (sendLinkMap s ign packet j c).connectedClusterId = c.connectedClusterId := by
  simp only [sendLinkMap, governLink_connectedClusterId, step_connectedClusterId]

theorem sendLinkMap_connectedClusterSize (s : Node) (ign : Option Nat)
    (packet : Option connPacketClusterInfoUpdate) (j : Nat) (c : MeshConnection) :
    (sendLinkMap s ign packet j c).connectedClusterSize = c.connectedClusterSize := by
  simp only [sendLinkMap, governLink_connectedClusterSize, step_connectedClusterSize]

theorem sendLinkMap_hopsToSink (s : Node) (ign : Option Nat)
    (packet : Option connPacketClusterInfoUpdate) (j : Nat) (c : MeshConnection) :
    (sendLinkMap s ign packet j c).hopsToSink = c.hopsToSink := by
  simp only [sendLinkMap, governLink_hopsToSink, step_hopsToSink]

theorem sendLinkMap_connectionState (s : Node) (ign : Option Nat)
    (packet : Option connPacketClusterInfoUpdate) (j : Nat) (c : MeshConnection) :
    (sendLinkMap s ign packet j c).connectionState = c.connectionState := by
  simp only [sendLinkMap, governLink_connectionState, step_connectionState]

theorem sendLinkMap_sizeChange (s : Node) (ign : Option Nat)
    (packet : Option connPacketClusterInfoUpdate) (j : Nat) (c : MeshConnection) :
    (sendLinkMap s ign packet j c).currentClusterInfoUpdatePacket.clusterSizeChange
      = if c.isConnected = true ∧ ign ≠ some j then
          c.currentClusterInfoUpdatePacket.clusterSizeChange
            + (match packet with | none => 0 | some q => q.clusterSizeChange)
        else c.currentClusterInfoUpdatePacket.clusterSizeChange := by
  simp only [sendLinkMap, governLink_sizeChange, step_sizeChange]

theorem SendClusterInfoUpdate_getElem?_map (s : Node) (ign : Option Nat)
    (packet : Option connPacketClusterInfoUpdate) (j : Nat) :
    (SendClusterInfoUpdate s ign packet).connections[j]?
      = (s.connections[j]?).map (sendLinkMap s ign packet j) :=
  SendClusterInfoUpdate_getElem? s ign packet j

theorem GenerateClusterID_congr (a b : Node) (h1 : a.nodeId = b.nodeId)
    (h2 : a.connectionLossCounter = b.connectionLossCounter)
    (h3 : a.randomBootNumber = b.randomBootNumber) :
    GenerateClusterID a = GenerateClusterID b := by
  unfold GenerateClusterID
  rw [h1, h2, h3]

theorem HandOverMasterBitIfNecessary_seed (s : Node) :
    (HandOverMasterBitIfNecessary s).nodeId = s.nodeId
    ∧ (HandOverMasterBitIfNecessary s).connectionLossCounter = s.connectionLossCounter
    ∧ (HandOverMasterBitIfNecessary s).randomBootNumber = s.randomBootNumber := by
  rw [HandOverMasterBitIfNecessary_eq]
  exact ⟨rfl, rfl, rfl⟩

theorem SendClusterInfoUpdate_seed (s : Node) (ign : Option Nat)
    (packet : Option connPacketClusterInfoUpdate) :
    (SendClusterInfoUpdate s ign packet).nodeId = s.nodeId
    ∧ (SendClusterInfoUpdate s ign packet).connectionLossCounter = s.connectionLossCounter
    ∧ (SendClusterInfoUpdate s ign packet).randomBootNumber = s.randomBootNumber := by
  unfold SendClusterInfoUpdate
  exact HandOverMasterBitIfNecessary_seed _

theorem ChangeState_seed (s : Node) (n : DiscoveryState) :
    (ChangeState s n).nodeId = s.nodeId
    ∧ (ChangeState s n).connectionLossCounter = s.connectionLossCounter
    ∧ (ChangeState s n).randomBootNumber = s.randomBootNumber := by
  unfold ChangeState
  split
  · exact ⟨rfl, rfl, rfl⟩
  · cases n <;> exact ⟨rfl, rfl, rfl⟩

theorem KeepHighDiscoveryActive_seed (s : Node) :
    (KeepHighDiscoveryActive s).nodeId = s.nodeId
    ∧ (KeepHighDiscoveryActive s).connectionLossCounter = s.connectionLossCounter
    ∧ (KeepHighDiscoveryActive s).randomBootNumber = s.randomBootNumber := by
  unfold KeepHighDiscoveryActive
  split
  · exact ⟨rfl, rfl, rfl⟩
  · split
    · exact ⟨rfl, rfl, rfl⟩
    · exact ChangeState_seed s _

theorem HandOverMasterBitIfNecessary_map_partnerId (s : Node) :
    (HandOverMasterBitIfNecessary s).connections.map (fun c => c.partnerId)
      = s.connections.map (fun c => c.partnerId) := by
  rw [HandOverMasterBitIfNecessary_eq]
  show (s.connections.map (governLink s)).map (fun c => c.partnerId) = _
  rw [List.map_map]
  apply List.map_congr_left
  intro c _
  exact governLink_partnerId s c

theorem SendClusterInfoUpdate_map_partnerId (s : Node) (ign : Option Nat)
    (packet : Option connPacketClusterInfoUpdate) :
    (SendClusterInfoUpdate s ign packet).connections.map (fun c => c.partnerId)
      = s.connections.map (fun c => c.partnerId) := by
  unfold SendClusterInfoUpdate
  rw [HandOverMasterBitIfNecessary_map_partnerId]
  exact map_mapIdx_of_forall (fun c => c.partnerId) s.connections _
    (fun i c => step_partnerId s ign packet i c)

theorem HandshakeDoneHandler_eq (s : Node) (i : Nat) (c : MeshConnection) (w : Bool)
    (hlink : s.connections[i]? = some c) :
    HandshakeDoneHandler s i w = finishHandshake (commitHandshake (forgetPartner s c) i c w) i := by
  unfold HandshakeDoneHandler
  simp only [hlink]
  rfl

theorem commitHandshake_winner (s : Node) (i : Nat) (c : MeshConnection) :
    commitHandshake s i c true
      = SendClusterInfoUpdate
          { s with clusterSize := toI16 (s.clusterSize + 1), connections := s.connections.set i (wonLink c) }
          (some i) (some { clusterSizeChange := 1, connectionMasterBitHandover := false }) := rfl

theorem commitHandshake_loser (s : Node) (i : Nat) (c : MeshConnection) :
    commitHandshake s i c false
      = { s with
          clusterId := c.clusterAck2Packet.clusterId
          clusterSize := c.clusterAck2Packet.clusterSize
          connections := s.connections.set i (lostLink c) } := rfl

theorem finishHandshake_getElem? (s1 : Node) (i j : Nat) :
    (finishHandshake s1 i).connections[j]?
      = (s1.connections[j]?).map (fun x =>
          governLink (KeepHighDiscoveryActive (SendClusterInfoUpdate (markedNode s1 i) (some i) none))
            (sendLinkMap (markedNode s1 i) (some i) none j
              (if i = j then markHandshakeDone s1.appTimerDs x else x))) := by
  unfold finishHandshake
  rw [HandOverMasterBitIfNecessary_getElem?, KeepHighDiscoveryActive_connections,
    SendClusterInfoUpdate_getElem?_map]
  show Option.map _ (Option.map _ (List.modify _ i s1.connections)[j]?) = _
  rw [List.getElem?_modify]
  cases s1.connections[j]? <;> rfl

theorem finishHandshake_clusterId (s1 : Node) (i : Nat) :
    (finishHandshake s1 i).clusterId = s1.clusterId := by
  unfold finishHandshake
  rw [HandOverMasterBitIfNecessary_clusterId, KeepHighDiscoveryActive_clusterId,
    SendClusterInfoUpdate_clusterId]
  rfl

theorem set_getElem?_self_of {α : Type} (l : List α) (i : Nat) (a b : α)
    (h : l[i]? = some a) : (l.set i b)[i]? = some b := by
  rw [List.getElem?_set_self', h]
  rfl

/-- C17: when the handshake of the link at index `i` completes with this node
as the winner, the node's cluster size grows by exactly 1 and its cluster id
stays; the link gets the ACK1 sender as partner id, connected cluster size 1,
hops to sink `ack1.hopsToSink + 1` (or -1 when that is negative) and the state
HANDSHAKE_DONE; the size change queued on the new link is what it was, and
the one queued on every other connected link has grown by 1. Cluster size,
hops and queued size change are signed 16-bit values: the statement is for a
cluster size and ACK1 hops below 32767 and queued size changes below 32767,
where adding 1 does not leave the range. -/
theorem HandshakeDoneHandler_winner (s : Node) (i : Nat) (c : MeshConnection)
    (hlink : s.connections[i]? = some c)
    (hmin : -32768 ≤ s.clusterSize) (hmax : s.clusterSize < 32767)
    (hhops : c.clusterAck1Packet.hopsToSink < 32767) :
    (HandshakeDoneHandler s i true).clusterSize = s.clusterSize + 1
    ∧ (HandshakeDoneHandler s i true).clusterId = s.clusterId
    ∧ (∃ d, (HandshakeDoneHandler s i true).connections[i]? = some d
        ∧ d.partnerId = c.clusterAck1Packet.sender
        ∧ d.connectedClusterSize = 1
        ∧ d.hopsToSink
            = (if c.clusterAck1Packet.hopsToSink < 0 then -1 else c.clusterAck1Packet.hopsToSink + 1)
        ∧ d.connectionState = ConnectionState.HANDSHAKE_DONE
        ∧ d.currentClusterInfoUpdatePacket.clusterSizeChange
            = c.currentClusterInfoUpdatePacket.clusterSizeChange)
    ∧ (∀ j cj, j ≠ i → s.connections[j]? = some cj → cj.isConnected = true →
        (-32768 ≤ cj.currentClusterInfoUpdatePacket.clusterSizeChange
          ∧ cj.currentClusterInfoUpdatePacket.clusterSizeChange < 32767) →
        ∃ d, (HandshakeDoneHandler s i true).connections[j]? = some d
          ∧ d.currentClusterInfoUpdatePacket.clusterSizeChange
              = cj.currentClusterInfoUpdatePacket.clusterSizeChange + 1) := by
  have hsize := HandshakeDoneHandler_clusterSize s i c true hlink
  rw [if_pos rfl, toI16_of_range _ (by omega) (by omega)] at hsize
  refine ⟨hsize, ?_, ?_, ?_⟩
  · rw [HandshakeDoneHandler_eq s i c true hlink, finishHandshake_clusterId,
      commitHandshake_winner, SendClusterInfoUpdate_clusterId]
    rfl
  · rw [HandshakeDoneHandler_eq s i c true hlink, finishHandshake_getElem?,
      commitHandshake_winner, SendClusterInfoUpdate_getElem?_map]
    have hset : ((forgetPartner s c).connections.set i (wonLink c))[i]? = some (wonLink c) :=
      set_getElem?_self_of _ i c _ hlink
    simp only [hset, Option.map_some', if_true]
    refine ⟨_, rfl, ?_, ?_, ?_, ?_, ?_⟩
    · rw [governLink_partnerId, sendLinkMap_partnerId]
      show (sendLinkMap _ _ _ _ _).partnerId = _
      rw [sendLinkMap_partnerId]
      rfl
    · rw [governLink_connectedClusterSize, sendLinkMap_connectedClusterSize]
      show (sendLinkMap _ _ _ _ _).connectedClusterSize = _
      rw [sendLinkMap_connectedClusterSize]
      rfl
    · rw [governLink_hopsToSink, sendLinkMap_hopsToSink]
      show (sendLinkMap _ _ _ _ _).hopsToSink = _
      rw [sendLinkMap_hopsToSink]
      exact hops_succ_of_range _ hhops
    · rw [governLink_connectionState, sendLinkMap_connectionState]
      rfl
    · rw [governLink_sizeChange, sendLinkMap_sizeChange]
      simp only [ne_eq, not_true_eq_false, and_false, if_false]
      show (sendLinkMap _ _ _ _ _).currentClusterInfoUpdatePacket.clusterSizeChange = _
      rw [sendLinkMap_sizeChange]
      simp only [ne_eq, not_true_eq_false, and_false, if_false]
      rfl
  · intro j cj hji hj hconn _
    rw [HandshakeDoneHandler_eq s i c true hlink, finishHandshake_getElem?,
      commitHandshake_winner, SendClusterInfoUpdate_getElem?_map]
    have hij : i ≠ j := fun h => hji h.symm
    have hset : ((forgetPartner s c).connections.set i (wonLink c))[j]? = some cj := by
      rw [List.getElem?_set_ne hij]
      exact hj
    simp only [hset, Option.map_some', if_neg hij]
    refine ⟨_, rfl, ?_⟩
    rw [governLink_sizeChange, sendLinkMap_sizeChange]
    have hne : (some i : Option Nat) ≠ some j := fun h => hij (Option.some.inj h)
    have hconn2 : (sendLinkMap
        { forgetPartner s c with
          clusterSize := toI16 ((forgetPartner s c).clusterSize + 1)
          connections := (forgetPartner s c).connections.set i (wonLink c) }
        (some i) (some { clusterSizeChange := 1, connectionMasterBitHandover := false }) j
        cj).isConnected = true := by
      unfold MeshConnection.isConnected
      rw [sendLinkMap_connectionState]
      exact hconn
    rw [if_pos ⟨hconn2, hne⟩, sendLinkMap_sizeChange, if_pos ⟨hconn, hne⟩]
    simp

/-- Witness for C17: the second link of `handshakingNode` completes its
handshake as the winner. -/
theorem HandshakeDoneHandler_winner_witness :
    handshakingNode.connections[1]? = some
        { partnerId := 0
          direction := ConnectionDirection.DIRECTION_IN
          connectionState := ConnectionState.HANDSHAKING
          currentClusterInfoUpdatePacket := { clusterSizeChange := 4, hopsToSink := -1 }
          clusterIDBackup := 31
          clusterAck1Packet := { sender := 3, hopsToSink := 2 }
          clusterAck2Packet := { clusterId := 99, clusterSize := 5, hopsToSink := -1 } }
    ∧ (HandshakeDoneHandler handshakingNode 1 true).clusterSize = 3
    ∧ (HandshakeDoneHandler handshakingNode 1 true).clusterId = 7 := by
  have h := HandshakeDoneHandler_winner handshakingNode 1 _ rfl (by decide) (by decide)
    (by decide)
  exact ⟨rfl, h.1, h.2.1⟩

theorem forgetPartner_set_cleared (s : Node) (i : Nat) (c : MeshConnection) :
    forgetPartner
        { s with connections := s.connections.set i c.ClearCurrentClusterInfoUpdatePacket }
        c.ClearCurrentClusterInfoUpdatePacket
      = { forgetPartner s c with
          connections := s.connections.set i c.ClearCurrentClusterInfoUpdatePacket } := rfl

/-- C18: when the handshake of the link at index `i` completes with this node
as the loser, the node takes cluster id and cluster size from ACK2 whatever
they were before; the link gets `ack2.clusterId` as connected cluster id,
`ack2.clusterSize - 1` as connected cluster size and `ack2.hopsToSink + 1`
(or -1 when that is negative) as hops to sink; the update queued on the link
is dropped, so that the handler's result does not depend on it and the size
change queued on the link afterwards is 0; the size change queued on every
other link is what it was. Connected cluster size and hops are signed 16-bit
values: the statement is for an ACK2 whose cluster size minus 1 is inside
-32768..32767 and whose hops are below 32767. -/
theorem HandshakeDoneHandler_loser (s : Node) (i : Nat) (c : MeshConnection)
    (hlink : s.connections[i]? = some c)
    (hsize16 : -32768 ≤ c.clusterAck2Packet.clusterSize - 1
      ∧ c.clusterAck2Packet.clusterSize - 1 ≤ 32767)
    (hhops : c.clusterAck2Packet.hopsToSink < 32767) :
    (HandshakeDoneHandler s i false).clusterId = c.clusterAck2Packet.clusterId
    ∧ (HandshakeDoneHandler s i false).clusterSize = c.clusterAck2Packet.clusterSize
    ∧ (∃ d, (HandshakeDoneHandler s i false).connections[i]? = some d
        ∧ d.connectedClusterId = c.clusterAck2Packet.clusterId
        ∧ d.connectedClusterSize = c.clusterAck2Packet.clusterSize - 1
        ∧ d.hopsToSink
            = (if c.clusterAck2Packet.hopsToSink < 0 then -1 else c.clusterAck2Packet.hopsToSink + 1)
        ∧ d.connectionState = ConnectionState.HANDSHAKE_DONE
        ∧ d.currentClusterInfoUpdatePacket.clusterSizeChange = 0)
    ∧ HandshakeDoneHandler
          { s with connections := s.connections.set i c.ClearCurrentClusterInfoUpdatePacket } i false
        = HandshakeDoneHandler s i false
    ∧ (∀ j cj, j ≠ i → s.connections[j]? = some cj →
        ∃ d, (HandshakeDoneHandler s i false).connections[j]? = some d
          ∧ d.currentClusterInfoUpdatePacket.clusterSizeChange
              = cj.currentClusterInfoUpdatePacket.clusterSizeChange) := by
  have hsize := HandshakeDoneHandler_clusterSize s i c false hlink
  rw [if_neg (by decide)] at hsize
  refine ⟨?_, hsize, ?_, ?_, ?_⟩
  · rw [HandshakeDoneHandler_eq s i c false hlink, finishHandshake_clusterId,
      commitHandshake_loser]
  · rw [HandshakeDoneHandler_eq s i c false hlink, finishHandshake_getElem?,
      commitHandshake_loser]
    have hset : ((forgetPartner s c).connections.set i (lostLink c))[i]? = some (lostLink c) :=
      set_getElem?_self_of _ i c _ hlink
    simp only [hset, Option.map_some', if_true]
    refine ⟨_, rfl, ?_, ?_, ?_, ?_, ?_⟩
    · rw [governLink_connectedClusterId, sendLinkMap_connectedClusterId]
      rfl
    · rw [governLink_connectedClusterSize, sendLinkMap_connectedClusterSize]
      show toI16 (c.clusterAck2Packet.clusterSize - 1) = _
      exact toI16_of_range _ hsize16.1 hsize16.2
    · rw [governLink_hopsToSink, sendLinkMap_hopsToSink]
      exact hops_succ_of_range _ hhops
    · rw [governLink_connectionState, sendLinkMap_connectionState]
      rfl
    · rw [governLink_sizeChange, sendLinkMap_sizeChange]
      simp only [ne_eq, not_true_eq_false, and_false, if_false]
      rfl
  · have hlink2 : (s.connections.set i c.ClearCurrentClusterInfoUpdatePacket)[i]?
        = some c.ClearCurrentClusterInfoUpdatePacket :=
      set_getElem?_self_of _ i c _ hlink
    rw [HandshakeDoneHandler_eq _ i _ false hlink2, HandshakeDoneHandler_eq s i c false hlink,
      commitHandshake_loser, commitHandshake_loser, forgetPartner_set_cleared]
    show finishHandshake
        { forgetPartner s c with
          clusterId := c.clusterAck2Packet.clusterId
          clusterSize := c.clusterAck2Packet.clusterSize
          connections := List.set (List.set s.connections i c.ClearCurrentClusterInfoUpdatePacket) i (lostLink c) } i = _
    rw [List.set_set]
    rfl
  · intro j cj hji hj
    rw [HandshakeDoneHandler_eq s i c false hlink, finishHandshake_getElem?,
      commitHandshake_loser]
    have hij : i ≠ j := fun h => hji h.symm
    have hset : ((forgetPartner s c).connections.set i (lostLink c))[j]? = some cj := by
      show (s.connections.set i (lostLink c))[j]? = some cj
      rw [List.getElem?_set_ne hij]
      exact hj
    simp only [hset, Option.map_some', if_neg hij]
    refine ⟨_, rfl, ?_⟩
    rw [governLink_sizeChange, sendLinkMap_sizeChange]
    simp

/-- Witness for C18: the second link of `handshakingNode` completes its
handshake as the loser; the node moves from cluster 7 of size 2 to cluster 99
of size 5. -/
theorem HandshakeDoneHandler_loser_witness :
    handshakingNode.connections[1]? = some
        { partnerId := 0
          direction := ConnectionDirection.DIRECTION_IN
          connectionState := ConnectionState.HANDSHAKING
          currentClusterInfoUpdatePacket := { clusterSizeChange := 4, hopsToSink := -1 }
          clusterIDBackup := 31
          clusterAck1Packet := { sender := 3, hopsToSink := 2 }
          clusterAck2Packet := { clusterId := 99, clusterSize := 5, hopsToSink := -1 } }
    ∧ (HandshakeDoneHandler handshakingNode 1 false).clusterId = 99
    ∧ (HandshakeDoneHandler handshakingNode 1 false).clusterSize = 5 := by
  have h := HandshakeDoneHandler_loser handshakingNode 1 _ rfl (by decide) (by decide)
  exact ⟨rfl, h.1, h.2.1⟩

theorem MeshConnectionDisconnectedHandler_kept_bit (s : Node) (reason : AppDisconnectReason)
    (stateBefore : ConnectionState) (partnerSize : Int) (partnerClusterId : Nat)
    (hdone : ConnectionState.HANDSHAKE_DONE.rank ≤ stateBefore.rank) :
    MeshConnectionDisconnectedHandler s reason stateBefore true partnerSize partnerClusterId
      = afterDisconnect
          (SendClusterInfoUpdate
            { lossCounted s with clusterSize := toI16 ((lossCounted s).clusterSize - partnerSize) }
            none (some { clusterSizeChange := toI16 (-partnerSize) })) := by
  unfold MeshConnectionDisconnectedHandler
  simp only [if_pos hdone, Bool.true_eq_false, if_false]
  rfl

theorem MeshConnectionDisconnectedHandler_lost_bit (s : Node) (reason : AppDisconnectReason)
    (stateBefore : ConnectionState) (partnerSize : Int) (partnerClusterId : Nat)
    (hdone : ConnectionState.HANDSHAKE_DONE.rank ≤ stateBefore.rank) :
    MeshConnectionDisconnectedHandler s reason stateBefore false partnerSize partnerClusterId
      = afterDisconnect
          (SendClusterInfoUpdate
            { (if reason ≠ AppDisconnectReason.I_AM_SMALLER then
                ForceDisconnectOtherMeshConnections (lossCounted s) else lossCounted s) with
              clusterSize := 1
              clusterId := GenerateClusterID
                (if reason ≠ AppDisconnectReason.I_AM_SMALLER then
                  ForceDisconnectOtherMeshConnections (lossCounted s) else lossCounted s) }
            none none) := by
  unfold MeshConnectionDisconnectedHandler
  simp only [if_pos hdone, if_true]
  rfl

theorem reclusterIfAlone_seed (s : Node) :
    (reclusterIfAlone s).nodeId = s.nodeId
    ∧ (reclusterIfAlone s).connectionLossCounter = s.connectionLossCounter
    ∧ (reclusterIfAlone s).randomBootNumber = s.randomBootNumber := by
  unfold reclusterIfAlone
  split <;> exact ⟨rfl, rfl, rfl⟩

theorem reclusterIfAlone_connections (s : Node) :
    (reclusterIfAlone s).connections = s.connections := by
  unfold reclusterIfAlone
  split <;> rfl

theorem afterDisconnect_clusterId (s1 : Node) :
    (afterDisconnect s1).clusterId
      = if s1.clusterSize = 1 then GenerateClusterID s1 else s1.clusterId := by
  show (HandOverMasterBitIfNecessary _).clusterId = _
  rw [HandOverMasterBitIfNecessary_clusterId]
  unfold reclusterIfAlone
  rw [KeepHighDiscoveryActive_clusterSize]
  have hseed := KeepHighDiscoveryActive_seed s1
  split
  · exact GenerateClusterID_congr _ _ hseed.1 hseed.2.1 hseed.2.2
  · exact KeepHighDiscoveryActive_clusterId s1

theorem afterDisconnect_getElem? (s1 : Node) (j : Nat) :
    (afterDisconnect s1).connections[j]?
      = (s1.connections[j]?).map (governLink (reclusterIfAlone (KeepHighDiscoveryActive s1))) := by
  show (HandOverMasterBitIfNecessary _).connections[j]? = _
  rw [HandOverMasterBitIfNecessary_getElem?, reclusterIfAlone_connections,
    KeepHighDiscoveryActive_connections]

theorem afterDisconnect_map_partnerId (s1 : Node) :
    (afterDisconnect s1).connections.map (fun c => c.partnerId)
      = s1.connections.map (fun c => c.partnerId) := by
  show (HandOverMasterBitIfNecessary _).connections.map _ = _
  rw [HandOverMasterBitIfNecessary_map_partnerId, reclusterIfAlone_connections,
    KeepHighDiscoveryActive_connections]

/-- Counterexample to C19: a node of a two-node cluster that held the master
bit of its only link loses that link; the partner's size 1 is subtracted, the
node is alone, and it takes a new cluster id, 65537 instead of 1. -/
theorem MeshConnectionDisconnectedHandler_regenerates_when_alone :
    ConnectionState.HANDSHAKE_DONE.rank ≤ ConnectionState.HANDSHAKE_DONE.rank
    ∧ pairNode.clusterId = 1
    ∧ (MeshConnectionDisconnectedHandler pairNode AppDisconnectReason.UNKNOWN
        ConnectionState.HANDSHAKE_DONE true 1 2).clusterSize = 1
    ∧ (MeshConnectionDisconnectedHandler pairNode AppDisconnectReason.UNKNOWN
        ConnectionState.HANDSHAKE_DONE true 1 2).clusterId = 65537 := by
  decide

/-- C19, amended: when a link that had reached HANDSHAKE_DONE and whose master
bit this node held is lost, the partner's size is subtracted from the cluster
size and added, negated, to the size change queued on every remaining
connected link; the cluster id is kept when the remaining size differs from
1, and when the node is left alone (size 1) it is replaced by the id
generated from the incremented connection loss counter. Sizes and size
changes are signed 16-bit values: the statement is for a partner size whose
negation, whose difference from the cluster size and whose difference from the
queued size change are inside -32768..32767. -/
theorem MeshConnectionDisconnectedHandler_kept_master_bit (s : Node)
    (reason : AppDisconnectReason) (stateBefore : ConnectionState) (partnerSize : Int)
    (partnerClusterId : Nat)
    (hdone : ConnectionState.HANDSHAKE_DONE.rank ≤ stateBefore.rank)
    (hrange : -32768 ≤ s.clusterSize - partnerSize ∧ s.clusterSize - partnerSize ≤ 32767)
    (hneg : -32768 ≤ -partnerSize ∧ -partnerSize ≤ 32767) :
    (MeshConnectionDisconnectedHandler s reason stateBefore true partnerSize
        partnerClusterId).clusterSize = s.clusterSize - partnerSize
    ∧ (∀ (j : Nat) (cj : MeshConnection), s.connections[j]? = some cj → cj.isConnected = true →
        (-32768 ≤ cj.currentClusterInfoUpdatePacket.clusterSizeChange + (-partnerSize)
          ∧ cj.currentClusterInfoUpdatePacket.clusterSizeChange + (-partnerSize) ≤ 32767) →
        ∃ d, (MeshConnectionDisconnectedHandler s reason stateBefore true partnerSize
                partnerClusterId).connections[j]? = some d
          ∧ d.currentClusterInfoUpdatePacket.clusterSizeChange
              = cj.currentClusterInfoUpdatePacket.clusterSizeChange + (-partnerSize))
    ∧ (s.clusterSize - partnerSize ≠ 1 →
        (MeshConnectionDisconnectedHandler s reason stateBefore true partnerSize
          partnerClusterId).clusterId = s.clusterId)
    ∧ (s.clusterSize - partnerSize = 1 →
        (MeshConnectionDisconnectedHandler s reason stateBefore true partnerSize
          partnerClusterId).clusterId = GenerateClusterID (lossCounted s)) := by
  have hsize := MeshConnectionDisconnectedHandler_clusterSize s reason stateBefore true
    partnerSize partnerClusterId
  rw [if_pos hdone, if_neg (by decide), toI16_of_range _ hrange.1 hrange.2] at hsize
  have hid : (MeshConnectionDisconnectedHandler s reason stateBefore true partnerSize
      partnerClusterId).clusterId
        = if s.clusterSize - partnerSize = 1 then GenerateClusterID (lossCounted s)
          else s.clusterId := by
    rw [MeshConnectionDisconnectedHandler_kept_bit s reason stateBefore partnerSize
      partnerClusterId hdone, afterDisconnect_clusterId, SendClusterInfoUpdate_clusterSize,
      SendClusterInfoUpdate_clusterId]
    have hseed := SendClusterInfoUpdate_seed
      { lossCounted s with clusterSize := toI16 ((lossCounted s).clusterSize - partnerSize) }
      none (some { clusterSizeChange := toI16 (-partnerSize) })
    rw [GenerateClusterID_congr _ (lossCounted s) hseed.1 hseed.2.1 hseed.2.2]
    show (if toI16 (s.clusterSize - partnerSize) = 1 then _ else _) = _
    rw [toI16_of_range _ hrange.1 hrange.2]
    rfl
  refine ⟨hsize, ?_, ?_, ?_⟩
  · intro j cj hj hconn _
    rw [MeshConnectionDisconnectedHandler_kept_bit s reason stateBefore partnerSize
      partnerClusterId hdone, afterDisconnect_getElem?, SendClusterInfoUpdate_getElem?_map]
    have hj2 : ({ lossCounted s with
        clusterSize := toI16 ((lossCounted s).clusterSize - partnerSize) } : Node).connections[j]?
          = some cj := hj
    simp only [hj2, Option.map_some']
    refine ⟨_, rfl, ?_⟩
    rw [governLink_sizeChange, sendLinkMap_sizeChange]
    have hne : (none : Option Nat) ≠ some j := by simp
    rw [if_pos ⟨hconn, hne⟩]
    show _ + toI16 (-partnerSize) = _
    rw [toI16_of_range _ hneg.1 hneg.2]
  · intro h
    rw [hid, if_neg h]
  · intro h
    rw [hid, if_pos h]

/-- Witness for C19: a node of a cluster of 4 with two remaining links loses a
link in the state HANDSHAKE_DONE behind which 1 node lived. -/
theorem MeshConnectionDisconnectedHandler_kept_master_bit_witness :
    ConnectionState.HANDSHAKE_DONE.rank ≤ ConnectionState.HANDSHAKE_DONE.rank
    ∧ (MeshConnectionDisconnectedHandler { threeLinkNode with clusterSize := 4 }
        AppDisconnectReason.UNKNOWN ConnectionState.HANDSHAKE_DONE true 1 2).clusterSize = 4 - 1 :=
  ⟨by decide,
    (MeshConnectionDisconnectedHandler_kept_master_bit { threeLinkNode with clusterSize := 4 }
      AppDisconnectReason.UNKNOWN ConnectionState.HANDSHAKE_DONE 1 2 (by decide) (by decide)
      (by decide)).1⟩

theorem ForceDisconnectOtherMeshConnections_seed (s : Node) :
    (ForceDisconnectOtherMeshConnections s).nodeId = s.nodeId
    ∧ (ForceDisconnectOtherMeshConnections s).connectionLossCounter = s.connectionLossCounter
    ∧ (ForceDisconnectOtherMeshConnections s).randomBootNumber = s.randomBootNumber :=
  ⟨rfl, rfl, rfl⟩

/-- C20: when a link that had reached HANDSHAKE_DONE and whose master bit the
partner held is lost, the node ends with cluster size 1 and with the cluster
id generated from the incremented connection loss counter, whatever its
cluster size and the disconnect reason were; for every reason other than
I_AM_SMALLER all its mesh links are torn down, and for I_AM_SMALLER its links
stay, to the same partners in the same order. -/
theorem MeshConnectionDisconnectedHandler_lost_master_bit (s : Node)
    (reason : AppDisconnectReason) (stateBefore : ConnectionState) (partnerSize : Int)
    (partnerClusterId : Nat)
    (hdone : ConnectionState.HANDSHAKE_DONE.rank ≤ stateBefore.rank) :
    (MeshConnectionDisconnectedHandler s reason stateBefore false partnerSize
        partnerClusterId).clusterSize = 1
    ∧ (MeshConnectionDisconnectedHandler s reason stateBefore false partnerSize
        partnerClusterId).clusterId = GenerateClusterID (lossCounted s)
    ∧ (reason ≠ AppDisconnectReason.I_AM_SMALLER →
        (MeshConnectionDisconnectedHandler s reason stateBefore false partnerSize
          partnerClusterId).connections = [])
    ∧ (reason = AppDisconnectReason.I_AM_SMALLER →
        (MeshConnectionDisconnectedHandler s reason stateBefore false partnerSize
          partnerClusterId).connections.map (fun c => c.partnerId)
          = s.connections.map (fun c => c.partnerId)) := by
  have hsize := MeshConnectionDisconnectedHandler_clusterSize s reason stateBefore false
    partnerSize partnerClusterId
  rw [if_pos hdone, if_pos rfl] at hsize
  have heq := MeshConnectionDisconnectedHandler_lost_bit s reason stateBefore partnerSize
    partnerClusterId hdone
  have hsa : ∀ sa : Node, sa.nodeId = (lossCounted s).nodeId →
      sa.connectionLossCounter = (lossCounted s).connectionLossCounter →
      sa.randomBootNumber = (lossCounted s).randomBootNumber →
      (afterDisconnect (SendClusterInfoUpdate
          { sa with clusterSize := 1, clusterId := GenerateClusterID sa } none none)).clusterId
        = GenerateClusterID (lossCounted s) := by
    intro sa h1 h2 h3
    rw [afterDisconnect_clusterId, SendClusterInfoUpdate_clusterSize]
    have hseed := SendClusterInfoUpdate_seed
      { sa with clusterSize := 1, clusterId := GenerateClusterID sa } none none
    rw [if_pos rfl]
    exact GenerateClusterID_congr _ _ (hseed.1.trans h1) (hseed.2.1.trans h2)
      (hseed.2.2.trans h3)
  have hconn : ∀ sa : Node,
      (afterDisconnect (SendClusterInfoUpdate
          { sa with clusterSize := 1, clusterId := GenerateClusterID sa } none none)).connections.map
            (fun c => c.partnerId)
        = sa.connections.map (fun c => c.partnerId) := by
    intro sa
    rw [afterDisconnect_map_partnerId, SendClusterInfoUpdate_map_partnerId]
  refine ⟨hsize, ?_, ?_, ?_⟩
  · rw [heq]
    by_cases hr : reason ≠ AppDisconnectReason.I_AM_SMALLER
    · rw [if_pos hr]
      exact hsa _ rfl rfl rfl
    · rw [if_neg hr]
      exact hsa _ rfl rfl rfl
  · intro hr
    rw [heq, if_pos hr]
    have h := hconn (ForceDisconnectOtherMeshConnections (lossCounted s))
    exact List.map_eq_nil_iff.mp h
  · intro hr
    have hr2 : ¬ reason ≠ AppDisconnectReason.I_AM_SMALLER := fun h => h hr
    rw [heq, if_neg hr2]
    exact hconn (lossCounted s)

/-- Witness for C20: `threeLinkNode` loses a handshake-done link whose master
bit the partner held, with the reason I_AM_SMALLER. -/
theorem MeshConnectionDisconnectedHandler_lost_master_bit_witness :
    ConnectionState.HANDSHAKE_DONE.rank ≤ ConnectionState.HANDSHAKE_DONE.rank
    ∧ (MeshConnectionDisconnectedHandler threeLinkNode AppDisconnectReason.I_AM_SMALLER
        ConnectionState.HANDSHAKE_DONE false 5 9).clusterSize = 1 :=
  ⟨by decide,
    (MeshConnectionDisconnectedHandler_lost_master_bit threeLinkNode
      AppDisconnectReason.I_AM_SMALLER ConnectionState.HANDSHAKE_DONE 5 9 (by decide)).1⟩

/-! ## The claims on the disconnect handler, the cluster id and the governor -/

theorem MeshConnectionDisconnectedHandler_eq (s : Node) (reason : AppDisconnectReason)
    (stateBefore : ConnectionState) (had : Bool) (partnerSize : Int) (partnerClusterId : Nat) :
    MeshConnectionDisconnectedHandler s reason stateBefore had partnerSize partnerClusterId
      = afterDisconnect (disconnectCore s reason stateBefore had partnerSize) := by
  unfold MeshConnectionDisconnectedHandler disconnectCore
  rfl

theorem sameCore_refl (a : Node) : sameCore a a :=
  ⟨rfl, rfl, rfl, rfl, rfl, rfl, rfl, rfl, rfl⟩

theorem sameCore_trans {a b c : Node} (h1 : sameCore a b) (h2 : sameCore b c) : sameCore a c := by
  obtain ⟨a1, a2, a3, a4, a5, a6, a7, a8, a9⟩ := h1
  obtain ⟨b1, b2, b3, b4, b5, b6, b7, b8, b9⟩ := h2
  exact ⟨a1.trans b1, a2.trans b2, a3.trans b3, a4.trans b4, a5.trans b5, a6.trans b6,
    a7.trans b7, a8.trans b8, a9.trans b9⟩

theorem HandOverMasterBitIfNecessary_sameCore (s : Node) :
    sameCore (HandOverMasterBitIfNecessary s) s := by
  rw [HandOverMasterBitIfNecessary_eq]
  exact sameCore_refl s

theorem SendClusterInfoUpdate_sameCore (s : Node) (ign : Option Nat)
    (packet : Option connPacketClusterInfoUpdate) :
    sameCore (SendClusterInfoUpdate s ign packet) s := by
  unfold SendClusterInfoUpdate
  exact sameCore_trans (HandOverMasterBitIfNecessary_sameCore _) (sameCore_refl s)

theorem disconnectCore_sameCore (s : Node) (reason : AppDisconnectReason)
    (stateBefore : ConnectionState) (had : Bool) (partnerSize : Int) :
    sameCore (disconnectCore s reason stateBefore had partnerSize) (lossCounted s) := by
  unfold disconnectCore
  split
  · split
    · refine sameCore_trans (SendClusterInfoUpdate_sameCore _ _ _) ?_
      split <;> exact sameCore_refl _
    · exact sameCore_trans (SendClusterInfoUpdate_sameCore _ _ _) (sameCore_refl _)
  · exact sameCore_refl _

theorem afterDisconnect_seed (s1 : Node) :
    (afterDisconnect s1).nodeId = s1.nodeId
    ∧ (afterDisconnect s1).connectionLossCounter = s1.connectionLossCounter
    ∧ (afterDisconnect s1).randomBootNumber = s1.randomBootNumber := by
  have h1 := HandOverMasterBitIfNecessary_seed (reclusterIfAlone (KeepHighDiscoveryActive s1))
  have h2 := reclusterIfAlone_seed (KeepHighDiscoveryActive s1)
  have h3 := KeepHighDiscoveryActive_seed s1
  exact ⟨h1.1.trans (h2.1.trans h3.1), h1.2.1.trans (h2.2.1.trans h3.2.1),
    h1.2.2.trans (h2.2.2.trans h3.2.2)⟩

theorem afterDisconnect_clusterSize (s1 : Node) :
    (afterDisconnect s1).clusterSize = s1.clusterSize := by
  show (HandOverMasterBitIfNecessary _).clusterSize = _
  rw [HandOverMasterBitIfNecessary_clusterSize]
  unfold reclusterIfAlone
  split <;> exact KeepHighDiscoveryActive_clusterSize s1

/-- C21: `MeshConnectionDisconnectedHandler` increments the connection loss
counter by exactly 1 on every call, in the unsigned 32-bit arithmetic of the
counter; and when the lost link had not reached HANDSHAKE_DONE it changes
neither the cluster size nor the number of links nor the size change queued
on any link. -/
theorem MeshConnectionDisconnectedHandler_loss_counter (s : Node)
    (reason : AppDisconnectReason) (stateBefore : ConnectionState) (had : Bool)
    (partnerSize : Int) (partnerClusterId : Nat) :
    (MeshConnectionDisconnectedHandler s reason stateBefore had partnerSize
        partnerClusterId).connectionLossCounter = (s.connectionLossCounter + 1) % 4294967296
    ∧ (s.connectionLossCounter + 1 < 4294967296 →
        (MeshConnectionDisconnectedHandler s reason stateBefore had partnerSize
          partnerClusterId).connectionLossCounter = s.connectionLossCounter + 1)
    ∧ (stateBefore.rank < ConnectionState.HANDSHAKE_DONE.rank →
        (MeshConnectionDisconnectedHandler s reason stateBefore had partnerSize
            partnerClusterId).clusterSize = s.clusterSize
        ∧ ∀ j : Nat,
            ((MeshConnectionDisconnectedHandler s reason stateBefore had partnerSize
                partnerClusterId).connections[j]?).map
                (fun c => c.currentClusterInfoUpdatePacket.clusterSizeChange)
              = (s.connections[j]?).map
                  (fun c => c.currentClusterInfoUpdatePacket.clusterSizeChange)) := by
  have hcount : (MeshConnectionDisconnectedHandler s reason stateBefore had partnerSize
      partnerClusterId).connectionLossCounter = (s.connectionLossCounter + 1) % 4294967296 := by
    rw [MeshConnectionDisconnectedHandler_eq, (afterDisconnect_seed _).2.1,
      (disconnectCore_sameCore s reason stateBefore had partnerSize).2.1]
    rfl
  refine ⟨hcount, ?_, ?_⟩
  · intro h
    rw [hcount, Nat.mod_eq_of_lt h]
  · intro hbefore
    have hnot : ¬ ConnectionState.HANDSHAKE_DONE.rank ≤ stateBefore.rank := by omega
    have hcore : disconnectCore s reason stateBefore had partnerSize = lossCounted s := by
      unfold disconnectCore
      rw [if_neg hnot]
    refine ⟨?_, ?_⟩
    · rw [MeshConnectionDisconnectedHandler_eq, afterDisconnect_clusterSize, hcore]
      rfl
    · intro j
      rw [MeshConnectionDisconnectedHandler_eq, afterDisconnect_getElem?, hcore]
      show Option.map _ (Option.map _ (s.connections[j]?)) = _
      cases s.connections[j]? with
      | none => rfl
      | some c =>
        exact congrArg some (governLink_sizeChange _ c)

/-- C21 at a concrete input: `threeLinkNode` loses a link that was still
handshaking. -/
theorem MeshConnectionDisconnectedHandler_loss_counter_witness :
    threeLinkNode.connectionLossCounter + 1 < 4294967296
    ∧ ConnectionState.HANDSHAKING.rank < ConnectionState.HANDSHAKE_DONE.rank
    ∧ (MeshConnectionDisconnectedHandler threeLinkNode AppDisconnectReason.UNKNOWN
        ConnectionState.HANDSHAKING false 1 2).connectionLossCounter = 1
    ∧ (MeshConnectionDisconnectedHandler threeLinkNode AppDisconnectReason.UNKNOWN
        ConnectionState.HANDSHAKING false 1 2).clusterSize = 3 :=
  ⟨by decide, by decide,
    (MeshConnectionDisconnectedHandler_loss_counter threeLinkNode AppDisconnectReason.UNKNOWN
      ConnectionState.HANDSHAKING false 1 2).2.1 (by decide),
    ((MeshConnectionDisconnectedHandler_loss_counter threeLinkNode AppDisconnectReason.UNKNOWN
      ConnectionState.HANDSHAKING false 1 2).2.2 (by decide)).1⟩

theorem ChangeState_currentDiscoveryState (s : Node) (n : DiscoveryState) :
    (ChangeState s n).currentDiscoveryState
      = if s.currentDiscoveryState = n ∨ s.stateMachineDisabled = true
            ∨ s.deviceType = DeviceType.ASSET then s.currentDiscoveryState
        else n := by
  unfold ChangeState
  split
  · rfl
  · cases n <;> rfl

theorem KeepHighDiscoveryActive_currentDiscoveryState (s : Node) :
    (KeepHighDiscoveryActive s).currentDiscoveryState
      = if s.currentDiscoveryState = DiscoveryState.OFF then DiscoveryState.OFF
        else if s.currentDiscoveryState = DiscoveryState.HIGH then DiscoveryState.HIGH
        else if s.stateMachineDisabled = true ∨ s.deviceType = DeviceType.ASSET then
          s.currentDiscoveryState
        else DiscoveryState.HIGH := by
  unfold KeepHighDiscoveryActive
  by_cases hoff : s.currentDiscoveryState = DiscoveryState.OFF
  · rw [if_pos hoff, if_pos hoff]
    exact hoff
  · rw [if_neg hoff, if_neg hoff]
    by_cases hhigh : s.currentDiscoveryState = DiscoveryState.HIGH
    · rw [if_pos hhigh, if_pos hhigh]
      exact hhigh
    · rw [if_neg hhigh, if_neg hhigh, ChangeState_currentDiscoveryState]
      by_cases hd : s.stateMachineDisabled = true ∨ s.deviceType = DeviceType.ASSET
      · rw [if_pos hd, if_pos (Or.inr hd)]
      · rw [if_neg hd, if_neg]
        intro h
        rcases h with h | h
        · exact hhigh h
        · exact hd h

theorem afterDisconnect_currentDiscoveryState (s1 : Node) :
    (afterDisconnect s1).currentDiscoveryState
      = (KeepHighDiscoveryActive s1).currentDiscoveryState := by
  show (HandOverMasterBitIfNecessary _).currentDiscoveryState = _
  rw [(HandOverMasterBitIfNecessary_sameCore _).2.2.2.1]
  unfold reclusterIfAlone
  split <;> rfl

/-- Counterexample to C22: a node whose discovery is OFF loses a
handshake-done link; after the handler its discovery state is still OFF. -/
theorem MeshConnectionDisconnectedHandler_stays_off :
    silentNode.currentDiscoveryState = DiscoveryState.OFF
    ∧ (MeshConnectionDisconnectedHandler silentNode AppDisconnectReason.UNKNOWN
        ConnectionState.HANDSHAKE_DONE true 1 2).currentDiscoveryState = DiscoveryState.OFF
    ∧ (MeshConnectionDisconnectedHandler silentNode AppDisconnectReason.UNKNOWN
        ConnectionState.HANDSHAKE_DONE true 1 2).currentDiscoveryState ≠ DiscoveryState.HIGH := by
  decide

/-- C22, amended: for every disconnect reason, every state of the lost link
and either value of the master bit, the discovery state after
`MeshConnectionDisconnectedHandler` is OFF if it was OFF, HIGH if it was HIGH,
unchanged if the state machine is disabled or the device is an asset, and HIGH
in every other case; so a node that was not OFF, whose state machine is
enabled and that is not an asset is in HIGH afterwards. -/
theorem MeshConnectionDisconnectedHandler_discovery (s : Node)
    (reason : AppDisconnectReason) (stateBefore : ConnectionState) (had : Bool)
    (partnerSize : Int) (partnerClusterId : Nat) :
    (MeshConnectionDisconnectedHandler s reason stateBefore had partnerSize
        partnerClusterId).currentDiscoveryState
      = (if s.currentDiscoveryState = DiscoveryState.OFF then DiscoveryState.OFF
         else if s.currentDiscoveryState = DiscoveryState.HIGH then DiscoveryState.HIGH
         else if s.stateMachineDisabled = true ∨ s.deviceType = DeviceType.ASSET then
           s.currentDiscoveryState
         else DiscoveryState.HIGH)
    ∧ (s.currentDiscoveryState ≠ DiscoveryState.OFF → s.stateMachineDisabled = false →
        s.deviceType ≠ DeviceType.ASSET →
        (MeshConnectionDisconnectedHandler s reason stateBefore had partnerSize
          partnerClusterId).currentDiscoveryState = DiscoveryState.HIGH) := by
  have hcore := disconnectCore_sameCore s reason stateBefore had partnerSize
  obtain ⟨_, _, _, h4, _, _, h7, h8, _⟩ := hcore
  have heq : (MeshConnectionDisconnectedHandler s reason stateBefore had partnerSize
        partnerClusterId).currentDiscoveryState
      = (if s.currentDiscoveryState = DiscoveryState.OFF then DiscoveryState.OFF
         else if s.currentDiscoveryState = DiscoveryState.HIGH then DiscoveryState.HIGH
         else if s.stateMachineDisabled = true ∨ s.deviceType = DeviceType.ASSET then
           s.currentDiscoveryState
         else DiscoveryState.HIGH) := by
    rw [MeshConnectionDisconnectedHandler_eq, afterDisconnect_currentDiscoveryState,
      KeepHighDiscoveryActive_currentDiscoveryState, h4, h7, h8]
    rfl
  refine ⟨heq, ?_⟩
  intro hoff hen hasset
  rw [heq, if_neg hoff]
  split
  · rfl
  · rw [if_neg]
    intro h
    rcases h with h | h
    · rw [hen] at h
      exact Bool.noConfusion h
    · exact hasset h

/-- C22 (amended) at a concrete input: `calmNode`, in LOW discovery, loses a
handshake-done link and is in HIGH afterwards. -/
theorem MeshConnectionDisconnectedHandler_discovery_witness :
    calmNode.currentDiscoveryState ≠ DiscoveryState.OFF
    ∧ calmNode.stateMachineDisabled = false
    ∧ calmNode.deviceType ≠ DeviceType.ASSET
    ∧ (MeshConnectionDisconnectedHandler calmNode AppDisconnectReason.UNKNOWN
        ConnectionState.HANDSHAKE_DONE true 1 2).currentDiscoveryState = DiscoveryState.HIGH :=
  ⟨by decide, rfl, by decide,
    (MeshConnectionDisconnectedHandler_discovery calmNode AppDisconnectReason.UNKNOWN
      ConnectionState.HANDSHAKE_DONE true 1 2).2 (by decide) rfl (by decide)⟩

/-- C23: `GenerateClusterID` returns a 32-bit value that, for every 16-bit
node id, is `nodeId | ((connectionLossCounter + randomBootNumber) << 16)` with
the sum and the shift taken modulo 2^32: its low 16 bits are the node id and
its high 16 bits are the low 16 bits of
`connectionLossCounter + randomBootNumber`. -/
theorem GenerateClusterID_bits (s : Node) (hid : s.nodeId < 65536) :
    GenerateClusterID s < 4294967296
    ∧ GenerateClusterID s
        = s.nodeId ||| (((s.connectionLossCounter + s.randomBootNumber) <<< 16) % 4294967296)
    ∧ GenerateClusterID s % 65536 = s.nodeId
    ∧ GenerateClusterID s / 65536 = (s.connectionLossCounter + s.randomBootNumber) % 65536 := by
  have hval : GenerateClusterID s
      = 2 ^ 16 * ((s.connectionLossCounter + s.randomBootNumber) % 65536) + s.nodeId := by
    unfold GenerateClusterID
    norm_num
    omega
  have hshift : ((s.connectionLossCounter + s.randomBootNumber) <<< 16) % 4294967296
      = 2 ^ 16 * ((s.connectionLossCounter + s.randomBootNumber) % 65536) := by
    rw [Nat.shiftLeft_eq]
    norm_num
    omega
  have hlt : s.nodeId < 2 ^ 16 := by
    norm_num
    exact hid
  refine ⟨?_, ?_, ?_, ?_⟩
  · unfold GenerateClusterID
    omega
  · rw [hshift, Nat.lor_comm, ← Nat.mul_add_lt_is_or hlt, hval]
  · unfold GenerateClusterID
    omega
  · unfold GenerateClusterID
    omega

/-- C23 at a concrete input: node 5 with loss counter 65535 and boot number
3 gets the cluster id 0x00020005. -/
theorem GenerateClusterID_bits_witness :
    (5 : Nat) < 65536
    ∧ GenerateClusterID { nodeId := 5, connectionLossCounter := 65535, randomBootNumber := 3 }
        % 65536 = 5
    ∧ GenerateClusterID { nodeId := 5, connectionLossCounter := 65535, randomBootNumber := 3 }
        / 65536 = (65535 + 3) % 65536 :=
  ⟨by decide,
    (GenerateClusterID_bits
      { nodeId := 5, connectionLossCounter := 65535, randomBootNumber := 3 } (by decide)).2.2.1,
    (GenerateClusterID_bits
      { nodeId := 5, connectionLossCounter := 65535, randomBootNumber := 3 } (by decide)).2.2.2⟩

theorem GenerateClusterID_lossCounted_ne (s : Node) :
    GenerateClusterID (lossCounted s) ≠ GenerateClusterID s := by
  unfold GenerateClusterID lossCounted
  show (s.nodeId + (((s.connectionLossCounter + 1) % 4294967296 + s.randomBootNumber)
      % 4294967296 * 65536) % 4294967296) % 4294967296
    ≠ (s.nodeId + ((s.connectionLossCounter + s.randomBootNumber) % 4294967296 * 65536)
      % 4294967296) % 4294967296
  omega

/-- C24: whenever `MeshConnectionDisconnectedHandler` returns with cluster
size 1, the cluster id is the one `GenerateClusterID` yields with the
incremented connection loss counter, and that id differs from the one
`GenerateClusterID` yields for the same node id and boot number with the
counter as it was before the handler ran. -/
theorem MeshConnectionDisconnectedHandler_fresh_cluster_id (s : Node)
    (reason : AppDisconnectReason) (stateBefore : ConnectionState) (had : Bool)
    (partnerSize : Int) (partnerClusterId : Nat)
    (halone : (MeshConnectionDisconnectedHandler s reason stateBefore had partnerSize
        partnerClusterId).clusterSize = 1) :
    (MeshConnectionDisconnectedHandler s reason stateBefore had partnerSize
        partnerClusterId).clusterId = GenerateClusterID (lossCounted s)
    ∧ (lossCounted s).connectionLossCounter = (s.connectionLossCounter + 1) % 4294967296
    ∧ (lossCounted s).nodeId = s.nodeId
    ∧ (lossCounted s).randomBootNumber = s.randomBootNumber
    ∧ GenerateClusterID (lossCounted s) ≠ GenerateClusterID s := by
  refine ⟨?_, rfl, rfl, rfl, GenerateClusterID_lossCounted_ne s⟩
  rw [MeshConnectionDisconnectedHandler_eq, afterDisconnect_clusterSize] at halone
  rw [MeshConnectionDisconnectedHandler_eq, afterDisconnect_clusterId, if_pos halone]
  have hcore := disconnectCore_sameCore s reason stateBefore had partnerSize
  exact GenerateClusterID_congr _ _ hcore.1 hcore.2.1 hcore.2.2.1

/-- C24 at a concrete input: `pairNode` loses its only link and is alone. -/
theorem MeshConnectionDisconnectedHandler_fresh_cluster_id_witness :
    (MeshConnectionDisconnectedHandler pairNode AppDisconnectReason.UNKNOWN
        ConnectionState.HANDSHAKE_DONE true 1 2).clusterSize = 1
    ∧ (MeshConnectionDisconnectedHandler pairNode AppDisconnectReason.UNKNOWN
        ConnectionState.HANDSHAKE_DONE true 1 2).clusterId = GenerateClusterID (lossCounted pairNode)
    ∧ GenerateClusterID (lossCounted pairNode) ≠ GenerateClusterID pairNode :=
  ⟨by decide,
    (MeshConnectionDisconnectedHandler_fresh_cluster_id pairNode AppDisconnectReason.UNKNOWN
      ConnectionState.HANDSHAKE_DONE true 1 2 (by decide)).1,
    (MeshConnectionDisconnectedHandler_fresh_cluster_id pairNode AppDisconnectReason.UNKNOWN
      ConnectionState.HANDSHAKE_DONE true 1 2 (by decide)).2.2.2.2⟩

theorem HasAllMasterBits_iff_IsOwner (s : Node) : HasAllMasterBits s = true ↔ IsOwner s := by
  unfold HasAllMasterBits IsOwner
  rw [List.all_eq_true]
  constructor
  · intro h d hd hdone
    have := h d hd
    rw [hdone] at this
    cases hb : d.connectionMasterBit
    · rw [hb] at this
      exact absurd this (by decide)
    · rfl
  · intro h d hd
    cases hdone : d.IsHandshakeDone
    · rfl
    · rw [h d hd hdone]
      rfl

/-- C25: `HandOverMasterBitIfNecessary` hands the master bit over on the link
at index `j` if and only if, at entry, the node holds the master bit of every
handshake-done link (it is owner), the link is handshake-done and its
connected cluster size is greater than the cluster size minus it; on every
other link, and on every link of a node that lacks the bit of some
handshake-done link, it changes nothing. -/
theorem HandOverMasterBitIfNecessary_handover (s : Node) (j : Nat) (c : MeshConnection)
    (hlink : s.connections[j]? = some c) :
    ((IsOwner s ∧ c.IsHandshakeDone = true
          ∧ s.clusterSize - c.connectedClusterSize < c.connectedClusterSize) →
        (HandOverMasterBitIfNecessary s).connections[j]? = some c.HandoverMasterBit)
    ∧ (¬ (IsOwner s ∧ c.IsHandshakeDone = true
          ∧ s.clusterSize - c.connectedClusterSize < c.connectedClusterSize) →
        (HandOverMasterBitIfNecessary s).connections[j]? = some c)
    ∧ (∀ d, (HandOverMasterBitIfNecessary s).connections[j]? = some d →
        ((c.connectionMasterBit = true ∧ d.connectionMasterBit = false)
          ↔ (IsOwner s ∧ c.IsHandshakeDone = true
              ∧ s.clusterSize - c.connectedClusterSize < c.connectedClusterSize)))
    ∧ ((∃ d ∈ s.connections, d.IsHandshakeDone = true ∧ d.connectionMasterBit = false) →
        HandOverMasterBitIfNecessary s = s) := by
  have hget : (HandOverMasterBitIfNecessary s).connections[j]? = some (governLink s c) := by
    rw [HandOverMasterBitIfNecessary_getElem?, hlink]
    rfl
  have hyes : (IsOwner s ∧ c.IsHandshakeDone = true
        ∧ s.clusterSize - c.connectedClusterSize < c.connectedClusterSize) →
      governLink s c = c.HandoverMasterBit := by
    intro h
    unfold governLink
    rw [(HasAllMasterBits_iff_IsOwner s).mpr h.1, h.2.1, decide_eq_true h.2.2]
    rfl
  have hno : ¬ (IsOwner s ∧ c.IsHandshakeDone = true
        ∧ s.clusterSize - c.connectedClusterSize < c.connectedClusterSize) →
      governLink s c = c := by
    intro h
    unfold governLink
    rw [if_neg]
    intro hc
    simp only [Bool.and_eq_true, decide_eq_true_eq] at hc
    exact h ⟨(HasAllMasterBits_iff_IsOwner s).mp hc.1, hc.2.1, hc.2.2⟩
  refine ⟨?_, ?_, ?_, ?_⟩
  · intro h
    rw [hget, hyes h]
  · intro h
    rw [hget, hno h]
  · intro d hd
    rw [hget] at hd
    have hdc : d = governLink s c := (Option.some.inj hd).symm
    constructor
    · intro hbits
      by_contra hcond
      rw [hdc, hno hcond, hbits.1] at hbits
      exact absurd hbits.2 (by decide)
    · intro hcond
      have hmem : c ∈ s.connections := List.getElem?_mem hlink
      refine ⟨hcond.1 c hmem hcond.2.1, ?_⟩
      rw [hdc, hyes hcond]
      rfl
  · intro hex
    obtain ⟨d, hd, hdone, hbit⟩ := hex
    have hnot : HasAllMasterBits s = false := by
      cases h : HasAllMasterBits s
      · rfl
      · have := (HasAllMasterBits_iff_IsOwner s).mp h d hd hdone
        rw [hbit] at this
        exact absurd this (by decide)
    unfold HandOverMasterBitIfNecessary
    rw [hnot]
    rfl

/-- C25 at a concrete input: the first link of `threeLinkNode`. -/
theorem HandOverMasterBitIfNecessary_handover_witness :
    threeLinkNode.connections[0]? = some sampleLink
    ∧ (∀ d, (HandOverMasterBitIfNecessary threeLinkNode).connections[0]? = some d →
        ((sampleLink.connectionMasterBit = true ∧ d.connectionMasterBit = false)
          ↔ (IsOwner threeLinkNode ∧ sampleLink.IsHandshakeDone = true
              ∧ threeLinkNode.clusterSize - sampleLink.connectedClusterSize
                  < sampleLink.connectedClusterSize))) :=
  ⟨rfl, (HandOverMasterBitIfNecessary_handover threeLinkNode 0 sampleLink rfl).2.2.1⟩

/-! ## The claims on the discovery state machine -/

theorem timerStateTimeout_high (s : Node) (p : Nat)
    (hhigh : s.currentDiscoveryState = DiscoveryState.HIGH)
    (hnext : s.nextDiscoveryState = DiscoveryState.LOW)
    (hen : s.stateMachineDisabled = false) (hdev : s.deviceType ≠ DeviceType.ASSET) :
    ((p : Int) < s.currentStateTimeoutDs →
      (timerStateTimeout s p).currentDiscoveryState = DiscoveryState.HIGH
      ∧ (timerStateTimeout s p).nextDiscoveryState = DiscoveryState.LOW
      ∧ (timerStateTimeout s p).currentStateTimeoutDs = s.currentStateTimeoutDs - p
      ∧ (timerStateTimeout s p).stateMachineDisabled = false
      ∧ (timerStateTimeout s p).deviceType = s.deviceType
      ∧ (timerStateTimeout s p).highToLowDiscoveryTimeSec = s.highToLowDiscoveryTimeSec)
    ∧ (s.currentStateTimeoutDs ≤ (p : Int) →
      (timerStateTimeout s p).currentDiscoveryState = DiscoveryState.LOW
      ∧ (timerStateTimeout s p).nextDiscoveryState = DiscoveryState.INVALID) := by
  constructor
  · intro hp
    unfold timerStateTimeout
    simp only []
    rw [if_neg]
    · exact ⟨hhigh, hnext, rfl, hen, rfl, rfl⟩
    · intro h
      have := h.2
      omega
  · intro hp
    unfold timerStateTimeout
    simp only []
    rw [if_pos]
    · rw [hnext]
      unfold ChangeState
      rw [if_neg]
      · exact ⟨rfl, rfl⟩
      · intro h
        rcases h with h | h | h
        · rw [hhigh] at h
          exact absurd h (by decide)
        · rw [hen] at h
          exact absurd h (by decide)
        · exact hdev h
    · refine ⟨?_, ?_⟩
      · rw [hnext]
        decide
      · show s.currentStateTimeoutDs - (p : Int) ≤ 0
        omega

theorem runTicks_append (s : Node) (a b : List Nat) :
    runTicks s (a ++ b) = runTicks (runTicks s a) b := by
  induction a generalizing s with
  | nil => rfl
  | cons p rest ih => exact ih _

theorem runTicks_high (ticks : List Nat) : ∀ (s : Node),
    s.currentDiscoveryState = DiscoveryState.HIGH →
    s.nextDiscoveryState = DiscoveryState.LOW →
    s.stateMachineDisabled = false → s.deviceType ≠ DeviceType.ASSET →
    ((ticks.sum : Nat) : Int) < s.currentStateTimeoutDs →
    (runTicks s ticks).currentDiscoveryState = DiscoveryState.HIGH
    ∧ (runTicks s ticks).nextDiscoveryState = DiscoveryState.LOW
    ∧ (runTicks s ticks).currentStateTimeoutDs = s.currentStateTimeoutDs - (ticks.sum : Nat)
    ∧ (runTicks s ticks).stateMachineDisabled = false
    ∧ (runTicks s ticks).deviceType = s.deviceType
    ∧ (runTicks s ticks).highToLowDiscoveryTimeSec = s.highToLowDiscoveryTimeSec := by
  induction ticks with
  | nil =>
    intro s hhigh hnext hen _ _
    refine ⟨hhigh, hnext, ?_, hen, rfl, rfl⟩
    show s.currentStateTimeoutDs = s.currentStateTimeoutDs - ((0 : Nat) : Int)
    omega
  | cons p rest ih =>
    intro s hhigh hnext hen hdev hsum
    rw [List.sum_cons, Nat.cast_add] at hsum
    have hp : (p : Int) < s.currentStateTimeoutDs := by omega
    obtain ⟨h1, h2, h3, h4, h5, h6⟩ := (timerStateTimeout_high s p hhigh hnext hen hdev).1 hp
    have hdev2 : (timerStateTimeout s p).deviceType ≠ DeviceType.ASSET := by
      rw [h5]
      exact hdev
    have hsum2 : ((rest.sum : Nat) : Int) < (timerStateTimeout s p).currentStateTimeoutDs := by
      rw [h3]
      omega
    obtain ⟨g1, g2, g3, g4, g5, g6⟩ := ih (timerStateTimeout s p) h1 h2 h4 hdev2 hsum2
    refine ⟨g1, g2, ?_, g4, g5.trans h5, g6.trans h6⟩
    show (runTicks (timerStateTimeout s p) rest).currentStateTimeoutDs = _
    rw [g3, h3, List.sum_cons, Nat.cast_add]
    omega

theorem runTicks_high_then_low (ticks : List Nat) (p : Nat) (s : Node)
    (hhigh : s.currentDiscoveryState = DiscoveryState.HIGH)
    (hnext : s.nextDiscoveryState = DiscoveryState.LOW)
    (hen : s.stateMachineDisabled = false) (hdev : s.deviceType ≠ DeviceType.ASSET)
    (hsum : ((ticks.sum : Nat) : Int) < s.currentStateTimeoutDs)
    (hreach : s.currentStateTimeoutDs ≤ ((ticks.sum + p : Nat) : Int)) :
    (runTicks s (ticks ++ [p])).currentDiscoveryState = DiscoveryState.LOW := by
  obtain ⟨g1, g2, g3, g4, g5, _⟩ := runTicks_high ticks s hhigh hnext hen hdev hsum
  rw [runTicks_append]
  have hdev2 : (runTicks s ticks).deviceType ≠ DeviceType.ASSET := by
    rw [g5]
    exact hdev
  refine ((timerStateTimeout_high (runTicks s ticks) p g1 g2 g4 hdev2).2 ?_).1
  rw [g3]
  rw [Nat.cast_add] at hreach
  omega

theorem timerStateTimeout_no_next (s : Node) (p : Nat)
    (hnext : s.nextDiscoveryState = DiscoveryState.INVALID) :
    (timerStateTimeout s p).currentDiscoveryState = s.currentDiscoveryState
    ∧ (timerStateTimeout s p).nextDiscoveryState = DiscoveryState.INVALID := by
  unfold timerStateTimeout
  simp only []
  rw [if_neg]
  · exact ⟨rfl, hnext⟩
  · intro h
    exact h.1 hnext

theorem runTicks_no_next (ticks : List Nat) : ∀ (s : Node),
    s.nextDiscoveryState = DiscoveryState.INVALID →
    (runTicks s ticks).currentDiscoveryState = s.currentDiscoveryState
    ∧ (runTicks s ticks).nextDiscoveryState = DiscoveryState.INVALID := by
  induction ticks with
  | nil =>
    intro s h
    exact ⟨rfl, h⟩
  | cons p rest ih =>
    intro s h
    obtain ⟨h1, h2⟩ := timerStateTimeout_no_next s p h
    obtain ⟨g1, g2⟩ := ih (timerStateTimeout s p) h2
    exact ⟨g1.trans h1, g2⟩

theorem ChangeState_high_entered (s0 : Node)
    (hnothigh : s0.currentDiscoveryState ≠ DiscoveryState.HIGH)
    (hen : s0.stateMachineDisabled = false) (hdev : s0.deviceType ≠ DeviceType.ASSET) :
    ChangeState s0 DiscoveryState.HIGH
      = { s0 with
          currentDiscoveryState := DiscoveryState.HIGH
          noNodesFoundCounter := 0
          currentStateTimeoutDs := (SEC_TO_DS s0.highToLowDiscoveryTimeSec : Int)
          nextDiscoveryState :=
            if s0.highToLowDiscoveryTimeSec = 0 then DiscoveryState.INVALID
            else DiscoveryState.LOW } := by
  unfold ChangeState
  rw [if_neg]
  intro h
  rcases h with h | h | h
  · exact hnothigh h
  · rw [hen] at h
    exact absurd h (by decide)
  · exact hdev h

theorem KeepHighDiscoveryActive_in_high (s : Node)
    (hhigh : s.currentDiscoveryState = DiscoveryState.HIGH) :
    KeepHighDiscoveryActive s
      = { s with currentStateTimeoutDs := (SEC_TO_DS s.highToLowDiscoveryTimeSec : Int) } := by
  unfold KeepHighDiscoveryActive
  rw [if_neg, if_pos hhigh]
  rw [hhigh]
  decide

/-- C28: a node that has entered HIGH with a configured high-to-low timeout
of `T > 0` seconds stays in HIGH over every run of timer ticks whose passed
times sum to less than `10 * T` deciseconds and is in LOW after the first tick
at which the sum reaches `10 * T`; a `KeepHighDiscoveryActive` call while it is
in HIGH restarts the full timeout; and with `T = 0` no run of ticks takes it
out of HIGH. -/
theorem discovery_high_timeout (s0 : Node)
    (hfits : s0.highToLowDiscoveryTimeSec * 10 < 2147483648)
    (hnothigh : s0.currentDiscoveryState ≠ DiscoveryState.HIGH)
    (hen : s0.stateMachineDisabled = false) (hdev : s0.deviceType ≠ DeviceType.ASSET) :
    (ChangeState s0 DiscoveryState.HIGH).currentDiscoveryState = DiscoveryState.HIGH
    ∧ (0 < s0.highToLowDiscoveryTimeSec →
        ∀ (ticks : List Nat) (p : Nat), ticks.sum < 10 * s0.highToLowDiscoveryTimeSec →
          (runTicks (ChangeState s0 DiscoveryState.HIGH) ticks).currentDiscoveryState
              = DiscoveryState.HIGH
          ∧ (10 * s0.highToLowDiscoveryTimeSec ≤ ticks.sum + p →
              (runTicks (ChangeState s0 DiscoveryState.HIGH) (ticks ++ [p])).currentDiscoveryState
                = DiscoveryState.LOW)
          ∧ (∀ (later : List Nat) (q : Nat), later.sum < 10 * s0.highToLowDiscoveryTimeSec →
              (runTicks (KeepHighDiscoveryActive (runTicks (ChangeState s0 DiscoveryState.HIGH) ticks))
                  later).currentDiscoveryState = DiscoveryState.HIGH
              ∧ (10 * s0.highToLowDiscoveryTimeSec ≤ later.sum + q →
                  (runTicks
                    (KeepHighDiscoveryActive (runTicks (ChangeState s0 DiscoveryState.HIGH) ticks))
                    (later ++ [q])).currentDiscoveryState = DiscoveryState.LOW)))
    ∧ (s0.highToLowDiscoveryTimeSec = 0 →
        ∀ ticks : List Nat,
          (runTicks (ChangeState s0 DiscoveryState.HIGH) ticks).currentDiscoveryState
            = DiscoveryState.HIGH) := by
  have hentered := ChangeState_high_entered s0 hnothigh hen hdev
  have hsec : (SEC_TO_DS s0.highToLowDiscoveryTimeSec : Int)
      = ((10 * s0.highToLowDiscoveryTimeSec : Nat) : Int) := by
    unfold SEC_TO_DS
    rw [Nat.mod_eq_of_lt (by omega), Nat.mul_comm]
  refine ⟨?_, ?_, ?_⟩
  · rw [hentered]
  · intro hpos ticks p hsum
    have hT : s0.highToLowDiscoveryTimeSec ≠ 0 := by omega
    have h1 : (ChangeState s0 DiscoveryState.HIGH).currentDiscoveryState = DiscoveryState.HIGH := by
      rw [hentered]
    have h2 : (ChangeState s0 DiscoveryState.HIGH).nextDiscoveryState = DiscoveryState.LOW := by
      rw [hentered]
      show (if s0.highToLowDiscoveryTimeSec = 0 then DiscoveryState.INVALID
        else DiscoveryState.LOW) = _
      rw [if_neg hT]
    have h3 : (ChangeState s0 DiscoveryState.HIGH).currentStateTimeoutDs
        = ((10 * s0.highToLowDiscoveryTimeSec : Nat) : Int) := by
      rw [hentered]
      exact hsec
    have h4 : (ChangeState s0 DiscoveryState.HIGH).stateMachineDisabled = false := by
      rw [hentered]
      exact hen
    have h5 : (ChangeState s0 DiscoveryState.HIGH).deviceType ≠ DeviceType.ASSET := by
      rw [hentered]
      exact hdev
    have h6 : (ChangeState s0 DiscoveryState.HIGH).highToLowDiscoveryTimeSec
        = s0.highToLowDiscoveryTimeSec := by
      rw [hentered]
    have hlt : ((ticks.sum : Nat) : Int)
        < (ChangeState s0 DiscoveryState.HIGH).currentStateTimeoutDs := by
      rw [h3]
      exact_mod_cast hsum
    obtain ⟨g1, g2, _, g4, g5, g6⟩ :=
      runTicks_high ticks (ChangeState s0 DiscoveryState.HIGH) h1 h2 h4 h5 hlt
    refine ⟨g1, ?_, ?_⟩
    · intro hreach
      refine runTicks_high_then_low ticks p _ h1 h2 h4 h5 hlt ?_
      rw [h3]
      exact_mod_cast hreach
    · intro later q hlater
      have hkeep := KeepHighDiscoveryActive_in_high
        (runTicks (ChangeState s0 DiscoveryState.HIGH) ticks) g1
      have k1 : (KeepHighDiscoveryActive
          (runTicks (ChangeState s0 DiscoveryState.HIGH) ticks)).currentDiscoveryState
            = DiscoveryState.HIGH := by
        rw [hkeep]
        exact g1
      have k2 : (KeepHighDiscoveryActive
          (runTicks (ChangeState s0 DiscoveryState.HIGH) ticks)).nextDiscoveryState
            = DiscoveryState.LOW := by
        rw [hkeep]
        exact g2
      have k3 : (KeepHighDiscoveryActive
          (runTicks (ChangeState s0 DiscoveryState.HIGH) ticks)).currentStateTimeoutDs
            = ((10 * s0.highToLowDiscoveryTimeSec : Nat) : Int) := by
        rw [hkeep]
        show (SEC_TO_DS (runTicks (ChangeState s0 DiscoveryState.HIGH)
          ticks).highToLowDiscoveryTimeSec : Int) = _
        rw [g6, h6]
        exact hsec
      have k4 : (KeepHighDiscoveryActive
          (runTicks (ChangeState s0 DiscoveryState.HIGH) ticks)).stateMachineDisabled = false := by
        rw [hkeep]
        exact g4
      have k5 : (KeepHighDiscoveryActive
          (runTicks (ChangeState s0 DiscoveryState.HIGH) ticks)).deviceType
            ≠ DeviceType.ASSET := by
        rw [hkeep]
        show (runTicks (ChangeState s0 DiscoveryState.HIGH) ticks).deviceType ≠ _
        rw [g5]
        exact h5
      have klt : ((later.sum : Nat) : Int)
          < (KeepHighDiscoveryActive
              (runTicks (ChangeState s0 DiscoveryState.HIGH) ticks)).currentStateTimeoutDs := by
        rw [k3]
        exact_mod_cast hlater
      refine ⟨(runTicks_high later _ k1 k2 k4 k5 klt).1, ?_⟩
      intro hreach
      refine runTicks_high_then_low later q _ k1 k2 k4 k5 klt ?_
      rw [k3]
      exact_mod_cast hreach
  · intro hzero ticks
    have hnext : (ChangeState s0 DiscoveryState.HIGH).nextDiscoveryState
        = DiscoveryState.INVALID := by
      rw [hentered]
      show (if s0.highToLowDiscoveryTimeSec = 0 then DiscoveryState.INVALID
        else DiscoveryState.LOW) = _
      rw [if_pos hzero]
    rw [(runTicks_no_next ticks _ hnext).1, hentered]

/-- C28 at a concrete input: `calmNode` enters HIGH with a timeout of 60 s;
after ticks of 200 ds and 399 ds it is still in HIGH, and one more
decisecond takes it to LOW. -/
theorem discovery_high_timeout_witness :
    calmNode.highToLowDiscoveryTimeSec * 10 < 2147483648
    ∧ calmNode.currentDiscoveryState ≠ DiscoveryState.HIGH
    ∧ calmNode.stateMachineDisabled = false
    ∧ calmNode.deviceType ≠ DeviceType.ASSET
    ∧ 0 < calmNode.highToLowDiscoveryTimeSec
    ∧ [200, 399].sum < 10 * calmNode.highToLowDiscoveryTimeSec
    ∧ (runTicks (ChangeState calmNode DiscoveryState.HIGH) [200, 399]).currentDiscoveryState
        = DiscoveryState.HIGH
    ∧ (runTicks (ChangeState calmNode DiscoveryState.HIGH) ([200, 399] ++ [1])).currentDiscoveryState
        = DiscoveryState.LOW :=
  ⟨by decide, by decide, rfl, by decide, by decide, by decide,
    ((discovery_high_timeout calmNode (by decide) (by decide) rfl (by decide)).2.1 (by decide)
      [200, 399] 1 (by decide)).1,
    ((discovery_high_timeout calmNode (by decide) (by decide) rfl (by decide)).2.1 (by decide)
      [200, 399] 1 (by decide)).2.1 (by decide)⟩

theorem ChangeState_nextDiscoveryState_ne_off (s : Node) (n : DiscoveryState)
    (h : s.nextDiscoveryState ≠ DiscoveryState.OFF) :
    (ChangeState s n).nextDiscoveryState ≠ DiscoveryState.OFF := by
  unfold ChangeState
  split
  · exact h
  · cases n
    · exact h
    · show (if s.highToLowDiscoveryTimeSec = 0 then DiscoveryState.INVALID
        else DiscoveryState.LOW) ≠ _
      split <;> decide
    · show DiscoveryState.INVALID ≠ _
      decide
    · show DiscoveryState.INVALID ≠ _
      decide

theorem ChangeState_ne_off (s : Node) (n : DiscoveryState)
    (hs : s.currentDiscoveryState ≠ DiscoveryState.OFF) (hn : n ≠ DiscoveryState.OFF) :
    (ChangeState s n).currentDiscoveryState ≠ DiscoveryState.OFF := by
  rw [ChangeState_currentDiscoveryState]
  split
  · exact hs
  · exact hn

theorem discoveryStep_nextDiscoveryState_ne_off (s : Node) (e : DiscoveryEvent)
    (h : s.nextDiscoveryState ≠ DiscoveryState.OFF) :
    (discoveryStep s e).nextDiscoveryState ≠ DiscoveryState.OFF := by
  cases e with
  | tick p =>
    show (timerStateTimeout s p).nextDiscoveryState ≠ _
    unfold timerStateTimeout
    simp only []
    split
    · exact ChangeState_nextDiscoveryState_ne_off _ _ h
    · exact h
  | keepHigh =>
    show (KeepHighDiscoveryActive s).nextDiscoveryState ≠ _
    unfold KeepHighDiscoveryActive
    split
    · exact h
    · split
      · exact h
      · exact ChangeState_nextDiscoveryState_ne_off _ _ h
  | start => exact ChangeState_nextDiscoveryState_ne_off _ _ h
  | setDiscovery ds =>
    show (setDiscoveryTrigger s ds).nextDiscoveryState ≠ _
    unfold setDiscoveryTrigger
    split <;> exact ChangeState_nextDiscoveryState_ne_off _ _ h

theorem discoveryStep_off_only_by_command (s : Node) (e : DiscoveryEvent)
    (hs : s.currentDiscoveryState ≠ DiscoveryState.OFF)
    (hn : s.nextDiscoveryState ≠ DiscoveryState.OFF)
    (hoff : (discoveryStep s e).currentDiscoveryState = DiscoveryState.OFF) :
    e = DiscoveryEvent.setDiscovery 0 := by
  cases e with
  | tick p =>
    exfalso
    revert hoff
    show (timerStateTimeout s p).currentDiscoveryState ≠ _
    unfold timerStateTimeout
    simp only []
    split
    · exact ChangeState_ne_off _ _ hs hn
    · exact hs
  | keepHigh =>
    exfalso
    revert hoff
    show (KeepHighDiscoveryActive s).currentDiscoveryState ≠ _
    rw [KeepHighDiscoveryActive_currentDiscoveryState, if_neg hs]
    split
    · decide
    · split
      · exact hs
      · decide
  | start =>
    exfalso
    exact ChangeState_ne_off s _ hs (by decide) hoff
  | setDiscovery ds =>
    by_cases hds : ds = 0
    · rw [hds]
    · exfalso
      revert hoff
      show (setDiscoveryTrigger s ds).currentDiscoveryState ≠ _
      unfold setDiscoveryTrigger
      rw [if_neg hds]
      exact ChangeState_ne_off s _ hs (by decide)

theorem discoveryStep_stays_off (s : Node) (e : DiscoveryEvent)
    (hoff : s.currentDiscoveryState = DiscoveryState.OFF)
    (hnext : s.nextDiscoveryState = DiscoveryState.INVALID)
    (he : e.leavesOff = true) :
    (discoveryStep s e).currentDiscoveryState = DiscoveryState.OFF
    ∧ (discoveryStep s e).nextDiscoveryState = DiscoveryState.INVALID := by
  cases e with
  | tick p =>
    obtain ⟨h1, h2⟩ := timerStateTimeout_no_next s p hnext
    exact ⟨h1.trans hoff, h2⟩
  | keepHigh =>
    show (KeepHighDiscoveryActive s).currentDiscoveryState = _
      ∧ (KeepHighDiscoveryActive s).nextDiscoveryState = _
    unfold KeepHighDiscoveryActive
    rw [if_pos hoff]
    exact ⟨hoff, hnext⟩
  | start => exact absurd he (by decide)
  | setDiscovery ds =>
    have hds : ds = 0 := of_decide_eq_true he
    show (setDiscoveryTrigger s ds).currentDiscoveryState = _
      ∧ (setDiscoveryTrigger s ds).nextDiscoveryState = _
    unfold setDiscoveryTrigger ChangeState
    rw [if_pos hds, if_pos (Or.inl hoff)]
    exact ⟨hoff, hnext⟩

theorem discoveryRun_stays_off (es : List DiscoveryEvent) : ∀ (s : Node),
    s.currentDiscoveryState = DiscoveryState.OFF →
    s.nextDiscoveryState = DiscoveryState.INVALID →
    (∀ e ∈ es, e.leavesOff = true) →
    (discoveryRun s es).currentDiscoveryState = DiscoveryState.OFF := by
  induction es with
  | nil =>
    intro s hoff _ _
    exact hoff
  | cons e rest ih =>
    intro s hoff hnext hes
    have he := hes e (List.mem_cons_self e rest)
    obtain ⟨h1, h2⟩ := discoveryStep_stays_off s e hoff hnext he
    exact ih (discoveryStep s e) h1 h2 (fun x hx => hes x (List.mem_cons_of_mem e hx))

/-- C29: the SET_DISCOVERY trigger requests OFF for the payload byte 0 and
HIGH for every other byte; a node that is not OFF gets to OFF by no timer
tick, no `KeepHighDiscoveryActive`, no start-up and no SET_DISCOVERY with a
nonzero byte, only by a SET_DISCOVERY with byte 0, which leaves no next state
scheduled; and a node that is OFF with no next state scheduled stays OFF over
every run of timer ticks, `KeepHighDiscoveryActive` calls and SET_DISCOVERY
commands with byte 0. -/
theorem discovery_off (s : Node) :
    (∀ ds : Nat, setDiscoveryTrigger s ds
        = ChangeState s (if ds = 0 then DiscoveryState.OFF else DiscoveryState.HIGH))
    ∧ (s.currentDiscoveryState ≠ DiscoveryState.OFF →
        s.nextDiscoveryState ≠ DiscoveryState.OFF →
        ∀ e : DiscoveryEvent,
          ((discoveryStep s e).currentDiscoveryState = DiscoveryState.OFF →
            e = DiscoveryEvent.setDiscovery 0)
          ∧ (discoveryStep s e).nextDiscoveryState ≠ DiscoveryState.OFF)
    ∧ (s.currentDiscoveryState ≠ DiscoveryState.OFF →
        (setDiscoveryTrigger s 0).currentDiscoveryState = DiscoveryState.OFF →
        (setDiscoveryTrigger s 0).nextDiscoveryState = DiscoveryState.INVALID)
    ∧ (s.currentDiscoveryState = DiscoveryState.OFF →
        s.nextDiscoveryState = DiscoveryState.INVALID →
        ∀ es : List DiscoveryEvent,
          (∀ e ∈ es, e.leavesOff = true) →
          (discoveryRun s es).currentDiscoveryState = DiscoveryState.OFF) := by
  refine ⟨?_, ?_, ?_, ?_⟩
  · intro ds
    unfold setDiscoveryTrigger
    split <;> rfl
  · intro hs hn e
    exact ⟨discoveryStep_off_only_by_command s e hs hn,
      discoveryStep_nextDiscoveryState_ne_off s e hn⟩
  · intro hs hoff
    revert hoff
    unfold setDiscoveryTrigger ChangeState
    rw [if_pos rfl]
    split
    · intro h
      exact absurd h hs
    · intro _
      rfl
  · intro hoff hnext es hes
    exact discoveryRun_stays_off es s hoff hnext hes

/-- C29 at a concrete input: `silentNode` is OFF and stays OFF over a timer
tick, a `KeepHighDiscoveryActive` call and another tick. -/
theorem discovery_off_witness :
    silentNode.currentDiscoveryState = DiscoveryState.OFF
    ∧ silentNode.nextDiscoveryState = DiscoveryState.INVALID
    ∧ (discoveryRun silentNode
        [DiscoveryEvent.tick 700, DiscoveryEvent.keepHigh,
          DiscoveryEvent.tick 5]).currentDiscoveryState = DiscoveryState.OFF :=
  ⟨rfl, rfl,
    (discovery_off silentNode).2.2.2 rfl rfl
      [DiscoveryEvent.tick 700, DiscoveryEvent.keepHigh, DiscoveryEvent.tick 5] (by decide)⟩

/-! ## The claims on the emergency disconnect -/

theorem emergencyVictimLoop_cons (cs : Int) (h r i : Nat) (c : MeshConnection)
    (rest : List (Nat × MeshConnection)) (sum : Nat) :
    emergencyVictimLoop cs h r ((i, c) :: rest) sum
      = if c.IsHandshakeDone = false then emergencyVictimLoop cs h r rest sum
        else if r < (sum + removalProbability cs h c) % 4294967296 then some i
        else emergencyVictimLoop cs h r rest ((sum + removalProbability cs h c) % 4294967296) := by
  rw [emergencyVictimLoop]

theorem emergencyVictimLoop_mem (cs : Int) (h r : Nat) :
    ∀ (conns : List (Nat × MeshConnection)) (sum v : Nat),
      emergencyVictimLoop cs h r conns sum = some v →
      ∃ c, (v, c) ∈ conns ∧ c.IsHandshakeDone = true := by
  intro conns
  induction conns with
  | nil =>
    intro sum v hv
    exact absurd hv (by simp [emergencyVictimLoop])
  | cons ic rest ih =>
    intro sum v hv
    obtain ⟨i, c⟩ := ic
    rw [emergencyVictimLoop_cons] at hv
    split at hv
    · obtain ⟨d, hd, hdone⟩ := ih sum v hv
      exact ⟨d, List.mem_cons_of_mem _ hd, hdone⟩
    · rename_i hnot
      split at hv
      · have hiv : i = v := Option.some.inj hv
        refine ⟨c, ?_, ?_⟩
        · rw [← hiv]
          exact List.mem_cons_self _ _
        · cases hc : c.IsHandshakeDone
          · exact absurd hc hnot
          · rfl
      · obtain ⟨d, hd, hdone⟩ := ih _ v hv
        exact ⟨d, List.mem_cons_of_mem _ hd, hdone⟩

theorem GetMeshConnections_mem (s : Node) (direction : ConnectionDirection) (v : Nat)
    (c : MeshConnection) (hmem : (v, c) ∈ GetMeshConnections s direction) :
    s.connections[v]? = some c
    ∧ (direction = ConnectionDirection.INVALID ∨ c.direction = direction) := by
  unfold GetMeshConnections at hmem
  rw [List.mem_filter] at hmem
  obtain ⟨hidx, hdir⟩ := hmem
  rw [List.mem_mapIdx] at hidx
  obtain ⟨i, hi, heq⟩ := hidx
  have h1 : i = v := congrArg Prod.fst heq
  have h2 : s.connections[i] = c := congrArg Prod.snd heq
  refine ⟨?_, of_decide_eq_true hdir⟩
  rw [← h1, ← h2]
  exact List.getElem?_eq_getElem hi

theorem emergencyVictim_outbound (s : Node) (randomInteger v : Nat)
    (hv : emergencyVictim s randomInteger = some v) :
    ∃ c, s.connections[v]? = some c ∧ c.direction = ConnectionDirection.DIRECTION_OUT
      ∧ c.IsHandshakeDone = true := by
  unfold emergencyVictim at hv
  obtain ⟨c, hmem, hdone⟩ := emergencyVictimLoop_mem _ _ _ _ _ _ hv
  obtain ⟨hget, hdir⟩ := GetMeshConnections_mem s _ v c hmem
  refine ⟨c, hget, ?_, hdone⟩
  rcases hdir with hdir | hdir
  · exact absurd hdir (by decide)
  · exact hdir

/-- C26: on an EMERGENCY_DISCONNECT trigger the node replies
NOT_ALL_CONNECTIONS_USED_UP if and only if it has a free outbound mesh slot,
and then disconnects no link; otherwise it replies SUCCESS if and only if a
victim was selected, and then disconnects exactly that link, an outbound
handshake-done link of the node, with the reason EMERGENCY_DISCONNECT;
otherwise it replies CANT_DISCONNECT_ANYBODY and disconnects no link. -/
theorem emergencyDisconnectTrigger_reply (s : Node) (randomInteger : Nat) :
    ((emergencyDisconnectTrigger s randomInteger).code
          = EmergencyDisconnectErrorCode.NOT_ALL_CONNECTIONS_USED_UP
        ↔ 0 < s.freeMeshOutConnections)
    ∧ (0 < s.freeMeshOutConnections →
        (emergencyDisconnectTrigger s randomInteger).disconnect = none)
    ∧ ((emergencyDisconnectTrigger s randomInteger).code = EmergencyDisconnectErrorCode.SUCCESS
        ↔ s.freeMeshOutConnections = 0 ∧ ∃ v, emergencyVictim s randomInteger = some v)
    ∧ (s.freeMeshOutConnections = 0 → ∀ v, emergencyVictim s randomInteger = some v →
        (emergencyDisconnectTrigger s randomInteger).disconnect
            = some (v, AppDisconnectReason.EMERGENCY_DISCONNECT)
          ∧ ∃ c, s.connections[v]? = some c
              ∧ c.direction = ConnectionDirection.DIRECTION_OUT ∧ c.IsHandshakeDone = true)
    ∧ ((emergencyDisconnectTrigger s randomInteger).code
          = EmergencyDisconnectErrorCode.CANT_DISCONNECT_ANYBODY
        ↔ s.freeMeshOutConnections = 0 ∧ emergencyVictim s randomInteger = none)
    ∧ (s.freeMeshOutConnections = 0 → emergencyVictim s randomInteger = none →
        (emergencyDisconnectTrigger s randomInteger).disconnect = none) := by
  have hsome : s.freeMeshOutConnections = 0 → ∀ w, emergencyVictim s randomInteger = some w →
      emergencyDisconnectTrigger s randomInteger
        = { code := EmergencyDisconnectErrorCode.SUCCESS
            disconnect := some (w, AppDisconnectReason.EMERGENCY_DISCONNECT) } := by
    intro hf w hw
    unfold emergencyDisconnectTrigger
    rw [if_pos hf, hw]
  have hnone : s.freeMeshOutConnections = 0 → emergencyVictim s randomInteger = none →
      emergencyDisconnectTrigger s randomInteger
        = { code := EmergencyDisconnectErrorCode.CANT_DISCONNECT_ANYBODY
            disconnect := none } := by
    intro hf hw
    unfold emergencyDisconnectTrigger
    rw [if_pos hf, hw]
  have hfull : s.freeMeshOutConnections ≠ 0 →
      emergencyDisconnectTrigger s randomInteger
        = { code := EmergencyDisconnectErrorCode.NOT_ALL_CONNECTIONS_USED_UP
            disconnect := none } := by
    intro hf
    unfold emergencyDisconnectTrigger
    rw [if_neg hf]
  by_cases hfree : s.freeMeshOutConnections = 0
  · cases hvictim : emergencyVictim s randomInteger with
    | none =>
      rw [hnone hfree hvictim]
      refine ⟨?_, ?_, ?_, ?_, ?_, ?_⟩
      · constructor
        · intro h
          exact absurd h (by decide)
        · intro h
          omega
      · intro h
        omega
      · constructor
        · intro h
          exact absurd h (by decide)
        · intro h
          obtain ⟨_, v, hv⟩ := h
          exact absurd hv (by simp)
      · intro _ v hv
        exact absurd hv (by simp)
      · constructor
        · intro _
          exact ⟨hfree, rfl⟩
        · intro _
          rfl
      · intro _ _
        rfl
    | some w =>
      rw [hsome hfree w hvictim]
      refine ⟨?_, ?_, ?_, ?_, ?_, ?_⟩
      · constructor
        · intro h
          exact absurd h (by simp)
        · intro h
          omega
      · intro h
        omega
      · constructor
        · intro _
          exact ⟨hfree, w, rfl⟩
        · intro _
          rfl
      · intro _ v hv
        have hwv : w = v := Option.some.inj hv
        refine ⟨?_, ?_⟩
        · rw [hwv]
        · rw [← hwv]
          exact emergencyVictim_outbound s randomInteger w hvictim
      · constructor
        · intro h
          exact absurd h (by simp)
        · intro h
          exact absurd h.2 (by simp)
      · intro _ h
        exact absurd h (by simp)
  · rw [hfull hfree]
    have hpos : 0 < s.freeMeshOutConnections := Nat.pos_of_ne_zero hfree
    refine ⟨?_, ?_, ?_, ?_, ?_, ?_⟩
    · exact ⟨fun _ => hpos, fun _ => rfl⟩
    · intro _
      rfl
    · constructor
      · intro h
        exact absurd h (by decide)
      · intro h
        exact absurd h.1 hfree
    · intro h
      exact absurd h hfree
    · constructor
      · intro h
        exact absurd h (by decide)
      · intro h
        exact absurd h.1 hfree
    · intro h
      exact absurd h hfree

/-- C26 at a concrete input: `crowdedNode` has no free outbound slot and the
draw 30000 selects its link at index 2. -/
theorem emergencyDisconnectTrigger_reply_witness :
    crowdedNode.freeMeshOutConnections = 0
    ∧ emergencyVictim crowdedNode 30000 = some 2
    ∧ (emergencyDisconnectTrigger crowdedNode 30000).disconnect
        = some (2, AppDisconnectReason.EMERGENCY_DISCONNECT) :=
  ⟨rfl, by decide,
    ((emergencyDisconnectTrigger_reply crowdedNode 30000).2.2.2.1 rfl 2 (by decide)).1⟩

theorem u16ToSigned_signedToU16 (v : Int) (hlo : -32768 ≤ v) (hhi : v ≤ 32767) :
    u16ToSigned (signedToU16 v % 256 + 256 * (signedToU16 v / 256 % 256)) = v := by
  unfold u16ToSigned signedToU16
  have hcast : (((v % 65536).toNat : Nat) : Int) = v % 65536 :=
    Int.toNat_of_nonneg (Int.emod_nonneg _ (by decide))
  generalize (v % 65536).toNat = n at hcast
  have hn : n % 256 + 256 * (n / 256 % 256) = n := by omega
  rw [hn]
  split <;> omega

theorem u8ToSigned_signedToU8 (v : Int) (hlo : -128 ≤ v) (hhi : v ≤ 127) :
    u8ToSigned (signedToU8 v) = v := by
  unfold u8ToSigned signedToU8
  have hcast : (((v % 256).toNat : Nat) : Int) = v % 256 :=
    Int.toNat_of_nonneg (Int.emod_nonneg _ (by decide))
  generalize (v % 256).toNat = n at hcast
  split <;> omega

theorem DeviceType_ofByte_toByte (d : DeviceType) : DeviceType.ofByte d.toByte = d := by
  cases d <;> rfl

theorem decodePayload_encodePayload (p : advPacketPayloadJoinMeV0) (hfit : FitsWire p) :
    decodePayload (encodePayload p) = p := by
  obtain ⟨h1, h2, h3, h4, h5, h6, h7, h8, h9, h10, h11, h12, h13⟩ := hfit
  cases p with
  | mk sender clusterId clusterSize freeIn freeOut battery txPower deviceType hops handle ack =>
    show ({ sender := sender % 256 + 256 * (sender / 256 % 256)
            clusterId := clusterId % 256 + 256 * (clusterId / 256 % 256)
              + 65536 * (clusterId / 65536 % 256) + 16777216 * (clusterId / 16777216 % 256)
            clusterSize := u16ToSigned (signedToU16 clusterSize % 256
              + 256 * (signedToU16 clusterSize / 256 % 256))
            freeMeshInConnections := freeIn % 256
            freeMeshOutConnections := freeOut % 256
            batteryRuntime := battery % 256
            txPower := u8ToSigned (signedToU8 txPower)
            deviceType := DeviceType.ofByte deviceType.toByte
            hopsToSink := u16ToSigned (signedToU16 hops % 256 + 256 * (signedToU16 hops / 256 % 256))
            meshWriteHandle := handle % 256 + 256 * (handle / 256 % 256)
            ackField := ack % 256 + 256 * (ack / 256 % 256) + 65536 * (ack / 65536 % 256)
              + 16777216 * (ack / 16777216 % 256) } : advPacketPayloadJoinMeV0) = _
    simp only at h1 h2 h3 h4 h5 h6 h7 h8 h9 h10 h11 h12 h13
    rw [u16ToSigned_signedToU16 clusterSize h3 h4, u16ToSigned_signedToU16 hops h10 h11,
      u8ToSigned_signedToU8 txPower h8 h9, DeviceType_ofByte_toByte]
    have e1 : sender % 256 + 256 * (sender / 256 % 256) = sender := by omega
    have e2 : clusterId % 256 + 256 * (clusterId / 256 % 256)
        + 65536 * (clusterId / 65536 % 256) + 16777216 * (clusterId / 16777216 % 256)
          = clusterId := by omega
    have e3 : freeIn % 256 = freeIn := by omega
    have e4 : freeOut % 256 = freeOut := by omega
    have e5 : battery % 256 = battery := by omega
    have e6 : handle % 256 + 256 * (handle / 256 % 256) = handle := by omega
    have e7 : ack % 256 + 256 * (ack / 256 % 256) + 65536 * (ack / 65536 % 256)
        + 16777216 * (ack / 16777216 % 256) = ack := by omega
    rw [e1, e2, e3, e4, e5, e6, e7]

theorem ChangeState_joinMePackets (s : Node) (n : DiscoveryState) :
    (ChangeState s n).joinMePackets = s.joinMePackets := by
  unfold ChangeState
  split
  · rfl
  · cases n <;> rfl

theorem KeepHighDiscoveryActive_joinMePackets (s : Node) :
    (KeepHighDiscoveryActive s).joinMePackets = s.joinMePackets := by
  unfold KeepHighDiscoveryActive
  split
  · rfl
  · split
    · rfl
    · exact ChangeState_joinMePackets s _

theorem findTargetBuffer_joinMePackets (k : Constants) (s : Node)
    (packet : advPacketPayloadJoinMeV0) :
    (findTargetBuffer k s packet).2.joinMePackets = s.joinMePackets := by
  unfold findTargetBuffer
  split
  · rfl
  · split
    · exact KeepHighDiscoveryActive_joinMePackets s
    · split <;> rfl

theorem GapAdvertisementMessageHandler_stores (w : AdvConstants) (k : Constants)
    (p : advPacketPayloadJoinMeV0) (hfit : FitsWire p) (hcode : w.JOIN_ME_V0 < 256)
    (t : Node) (event : GapAdvertisementReportEvent) (networkId i : Nat) (t1 : Node)
    (hdev : t.deviceType ≠ DeviceType.ASSET)
    (hdata : event.data = advHeader w networkId ++ encodePayload p)
    (hfind : findTargetBuffer k t p = (some i, t1)) (hi : i < t.joinMePackets.length) :
    ∃ stored, (GapAdvertisementMessageHandler w k t event).joinMePackets[i]? = some stored
      ∧ stored.payload = p := by
  have htype : event.data.getD 10 0 = w.JOIN_ME_V0 := by
    rw [hdata]
    show w.JOIN_ME_V0 % 256 = w.JOIN_ME_V0
    exact Nat.mod_eq_of_lt hcode
  have hlen : event.data.length = SIZEOF_ADV_PACKET_JOIN_ME := by
    rw [hdata]
    rfl
  have hpayload : decodePayload (event.data.drop SIZEOF_ADV_PACKET_HEADER) = p := by
    rw [hdata]
    exact decodePayload_encodePayload p hfit
  have hsame : t1.joinMePackets = t.joinMePackets := by
    have := findTargetBuffer_joinMePackets k t p
    rw [hfind] at this
    exact this
  unfold GapAdvertisementMessageHandler
  rw [if_neg hdev, if_pos htype, if_pos hlen]
  simp only [hpayload, hfind]
  rw [hsame, List.getElem?_modify_eq, List.getElem?_eq_getElem hi]
  exact ⟨_, rfl, rfl⟩

/-- C30: writing a JOIN_ME record into the advertisement buffer, as
`UpdateJoinMePacket` does, and reading that buffer on reception, as
`GapAdvertisementMessageHandler` does when it stores the payload in the
candidate buffer, is the identity on every field of the record, for every value
the field can take on the air: the bytes decode to the record that was
encoded, and the candidate stored in the slot chosen by `findTargetBuffer`
carries exactly that record. -/
theorem joinMe_encode_decode (w : AdvConstants) (k : Constants) (p : advPacketPayloadJoinMeV0)
    (hfit : FitsWire p) :
    decodePayload (encodePayload p) = p
    ∧ (∀ (ctx : AdvertisingContext) (s : Node) (advData : List Nat),
        s.networkId ≠ 0 → ctx.meshAdvJobRegistered = true → s.deviceType ≠ DeviceType.ASSET →
        joinMePayload ctx s (decodePayload (advData.drop SIZEOF_ADV_PACKET_HEADER)) = p →
        UpdateJoinMePacket w ctx s advData = advHeader w s.networkId ++ encodePayload p)
    ∧ (w.JOIN_ME_V0 < 256 →
        ∀ (t : Node) (event : GapAdvertisementReportEvent) (networkId i : Nat) (t1 : Node),
          t.deviceType ≠ DeviceType.ASSET →
          event.data = advHeader w networkId ++ encodePayload p →
          findTargetBuffer k t p = (some i, t1) → i < t.joinMePackets.length →
          ∃ stored, (GapAdvertisementMessageHandler w k t event).joinMePackets[i]? = some stored
            ∧ stored.payload = p) := by
  refine ⟨decodePayload_encodePayload p hfit, ?_, ?_⟩
  · intro ctx s advData hnet hjob hdev hrecord
    unfold UpdateJoinMePacket
    rw [if_neg hnet, if_neg (by rw [hjob]; decide), if_neg hdev, hrecord]
  · intro hcode t event networkId i t1 hdev hdata hfind hi
    exact GapAdvertisementMessageHandler_stores w k p hfit hcode t event networkId i t1 hdev
      hdata hfind hi

/-- C30 at a concrete input: the record that `beaconNode` advertises is
received by `fullBufferNode` and stored in its slot 0 field by field. -/
theorem joinMe_encode_decode_witness :
    FitsWire (joinMePayload beaconContext beaconNode {})
    ∧ decodePayload (encodePayload (joinMePayload beaconContext beaconNode {}))
        = joinMePayload beaconContext beaconNode {}
    ∧ ∃ stored,
        (GapAdvertisementMessageHandler sampleAdvConstants sampleConstants fullBufferNode
          { data := UpdateJoinMePacket sampleAdvConstants beaconContext beaconNode []
            peerAddr := 77, rssi := -50 }).joinMePackets[0]? = some stored
        ∧ stored.payload = joinMePayload beaconContext beaconNode {} := by
  have hfit : FitsWire (joinMePayload beaconContext beaconNode {}) := by
    unfold FitsWire
    decide
  have h := joinMe_encode_decode sampleAdvConstants sampleConstants
    (joinMePayload beaconContext beaconNode {}) hfit
  exact ⟨hfit, h.1,
    h.2.2 (by decide) fullBufferNode _ beaconNode.networkId 0 fullBufferNode (by decide)
      (h.2.1 beaconContext beaconNode [] (by decide) rfl (by decide) rfl) (by decide) (by decide)⟩

/-! ## The claims on the reboot schedule and on inbound advertisements and messages -/

/-- Counterexample to C39: a node at time 0 on which no reboot is scheduled is
asked to reboot with delay 0; afterwards `IsRebootScheduled` is false. -/
theorem Reboot_at_time_zero_not_scheduled :
    pairNode.appTimerDs = 0 ∧ pairNode.rebootTimeDs = 0
    ∧ IsRebootScheduled (Reboot pairNode 0 RebootReason.REMOTE_RESET) = false := by
  decide

/-- C39, amended: `Reboot(delay, reason)` remembers only the earliest
scheduled reboot: if no reboot is scheduled (`rebootTimeDs == 0`) or
`now + delay`, taken in unsigned 32-bit arithmetic, is earlier than the
scheduled time, the scheduled time becomes `now + delay` and the stored reason
becomes `reason`; otherwise the node is unchanged. `IsRebootScheduled` returns
true after a `Reboot` call exactly when `now + delay` is not 0. -/
theorem Reboot_earliest (s : Node) (delayDs : Nat) (reason : RebootReason) :
    ((s.rebootTimeDs = 0 ∨ (s.appTimerDs + delayDs) % 4294967296 < s.rebootTimeDs) →
        (Reboot s delayDs reason).rebootTimeDs = (s.appTimerDs + delayDs) % 4294967296
        ∧ (Reboot s delayDs reason).rebootReason = reason)
    ∧ (¬ (s.rebootTimeDs = 0 ∨ (s.appTimerDs + delayDs) % 4294967296 < s.rebootTimeDs) →
        Reboot s delayDs reason = s)
    ∧ (IsRebootScheduled (Reboot s delayDs reason) = true
        ↔ (s.appTimerDs + delayDs) % 4294967296 ≠ 0) := by
  refine ⟨?_, ?_, ?_⟩
  · intro h
    unfold Reboot
    simp only []
    rw [if_pos h]
    exact ⟨rfl, rfl⟩
  · intro h
    unfold Reboot
    simp only []
    rw [if_neg h]
  · unfold IsRebootScheduled Reboot
    simp only []
    by_cases h : s.rebootTimeDs = 0 ∨ (s.appTimerDs + delayDs) % 4294967296 < s.rebootTimeDs
    · rw [if_pos h]
      simp
    · rw [if_neg h]
      simp only [decide_eq_true_eq]
      constructor
      · intro _
        omega
      · intro _
        omega

/-- C39 (amended) at a concrete input: a reboot in 30 ds is scheduled on a
node at time 100 that has none scheduled. -/
theorem Reboot_earliest_witness :
    ((singleNodeAt 100).rebootTimeDs = 0
      ∨ ((singleNodeAt 100).appTimerDs + 30) % 4294967296 < (singleNodeAt 100).rebootTimeDs)
    ∧ (Reboot (singleNodeAt 100) 30 RebootReason.LOCAL_RESET).rebootTimeDs = 130
    ∧ (Reboot (singleNodeAt 100) 30 RebootReason.LOCAL_RESET).rebootReason
        = RebootReason.LOCAL_RESET :=
  ⟨Or.inl rfl,
    ((Reboot_earliest (singleNodeAt 100) 30 RebootReason.LOCAL_RESET).1 (Or.inl rfl)).1,
    ((Reboot_earliest (singleNodeAt 100) 30 RebootReason.LOCAL_RESET).1 (Or.inl rfl)).2⟩

/-- The handler on its own, called with an advertisement that the scan layer
would not pass on: `fullBufferNode`, of network 1, is handed the JOIN_ME
advertisement of `beaconNode`, of network 11, and stores it in its candidate
buffer. -/
theorem GapAdvertisementMessageHandler_stores_foreign_network :
    fullBufferNode.networkId = 1 ∧ beaconNode.networkId = 11
    ∧ (UpdateJoinMePacket sampleAdvConstants beaconContext beaconNode []).getD 8 0 = 11
    ∧ (UpdateJoinMePacket sampleAdvConstants beaconContext beaconNode []).getD 9 0 = 0
    ∧ (GapAdvertisementMessageHandler sampleAdvConstants sampleConstants fullBufferNode
        { data := UpdateJoinMePacket sampleAdvConstants beaconContext beaconNode []
          peerAddr := 77, rssi := -50 }).joinMePackets ≠ fullBufferNode.joinMePackets := by
  decide

/-- The handler `GapAdvertisementMessageHandler` does not look at the network
id of an advertisement: whatever the two network id bytes are, the result is
the same. It leaves the node, and so every slot of the candidate buffer,
unchanged on an asset device, for an advertisement whose message type is not
JOIN_ME_V0 and for one whose length is not that of a JOIN_ME advertisement. -/
theorem GapAdvertisementMessageHandler_network_id (w : AdvConstants) (k : Constants) (s : Node)
    (event : GapAdvertisementReportEvent) :
    (∀ b8 b9 : Nat,
      GapAdvertisementMessageHandler w k s
          { event with data := (event.data.set 8 b8).set 9 b9 }
        = GapAdvertisementMessageHandler w k s event)
    ∧ (s.deviceType = DeviceType.ASSET → GapAdvertisementMessageHandler w k s event = s)
    ∧ (event.data.getD 10 0 ≠ w.JOIN_ME_V0 → GapAdvertisementMessageHandler w k s event = s)
    ∧ (event.data.length ≠ SIZEOF_ADV_PACKET_JOIN_ME →
        GapAdvertisementMessageHandler w k s event = s) := by
  refine ⟨?_, ?_, ?_, ?_⟩
  · intro b8 b9
    have htype : ((event.data.set 8 b8).set 9 b9).getD 10 0 = event.data.getD 10 0 := by
      rw [List.getD_eq_getElem?_getD, List.getD_eq_getElem?_getD,
        List.getElem?_set_ne (by decide), List.getElem?_set_ne (by decide)]
    have hlen : ((event.data.set 8 b8).set 9 b9).length = event.data.length := by
      rw [List.length_set, List.length_set]
    have hdrop : ((event.data.set 8 b8).set 9 b9).drop SIZEOF_ADV_PACKET_HEADER
        = event.data.drop SIZEOF_ADV_PACKET_HEADER := by
      rw [List.drop_set_of_lt _ _ (by decide), List.drop_set_of_lt _ _ (by decide)]
    unfold GapAdvertisementMessageHandler
    simp only [htype, hlen, hdrop]
  · intro h
    unfold GapAdvertisementMessageHandler
    rw [if_pos h]
  · intro h
    unfold GapAdvertisementMessageHandler
    by_cases ha : s.deviceType = DeviceType.ASSET
    · rw [if_pos ha]
    · rw [if_neg ha, if_neg h]
  · intro h
    unfold GapAdvertisementMessageHandler
    by_cases ha : s.deviceType = DeviceType.ASSET
    · rw [if_pos ha]
    · by_cases ht : event.data.getD 10 0 = w.JOIN_ME_V0
      · rw [if_neg ha, if_pos ht, if_neg h]
      · rw [if_neg ha, if_neg ht]

/-- The handler at a concrete input: an advertisement of three bytes is not a
JOIN_ME advertisement and leaves `fullBufferNode` unchanged. -/
theorem GapAdvertisementMessageHandler_network_id_witness :
    ({ data := [2, 1, 6] } : GapAdvertisementReportEvent).data.length ≠ SIZEOF_ADV_PACKET_JOIN_ME
    ∧ GapAdvertisementMessageHandler sampleAdvConstants sampleConstants fullBufferNode
        { data := [2, 1, 6] } = fullBufferNode :=
  ⟨by decide,
    (GapAdvertisementMessageHandler_network_id sampleAdvConstants sampleConstants fullBufferNode
      { data := [2, 1, 6] }).2.2.2 (by decide)⟩

theorem dispatchAdvertisementReport_own_network (w : AdvConstants) (k : Constants) (s : Node)
    (event : GapAdvertisementReportEvent)
    (hown : advertisementNetworkId event.data = s.networkId) :
    dispatchAdvertisementReport w k s event = GapAdvertisementMessageHandler w k s event := by
  unfold dispatchAdvertisementReport
  rw [if_pos hown]

/-- C31: a received JOIN_ME advertisement whose network id differs from the
node's own network id is dropped: it is not passed on to
`GapAdvertisementMessageHandler`, and the node, and with it every slot of the
candidate buffer, is unchanged. -/
theorem dispatchAdvertisementReport_foreign_network (w : AdvConstants) (k : Constants)
    (s : Node) (event : GapAdvertisementReportEvent)
    (hforeign : advertisementNetworkId event.data ≠ s.networkId) :
    dispatchAdvertisementReport w k s event = s
    ∧ (dispatchAdvertisementReport w k s event).joinMePackets = s.joinMePackets
    ∧ ∀ j : Nat,
        (dispatchAdvertisementReport w k s event).joinMePackets[j]? = s.joinMePackets[j]? := by
  have h : dispatchAdvertisementReport w k s event = s := by
    unfold dispatchAdvertisementReport
    rw [if_neg hforeign]
  rw [h]
  exact ⟨rfl, rfl, fun _ => rfl⟩

/-- C31 at a concrete input: the JOIN_ME advertisement of `beaconNode`, of
network 11, is received by `fullBufferNode`, of network 1, and dropped. -/
theorem dispatchAdvertisementReport_foreign_network_witness :
    (fullBufferNode.networkId = 1
      ∧ advertisementNetworkId
          (UpdateJoinMePacket sampleAdvConstants beaconContext beaconNode []) = 11)
    ∧ (dispatchAdvertisementReport sampleAdvConstants sampleConstants fullBufferNode
        { data := UpdateJoinMePacket sampleAdvConstants beaconContext beaconNode []
          peerAddr := 77, rssi := -50 }).joinMePackets = fullBufferNode.joinMePackets :=
  ⟨by decide,
    (dispatchAdvertisementReport_foreign_network sampleAdvConstants sampleConstants
      fullBufferNode
      { data := UpdateJoinMePacket sampleAdvConstants beaconContext beaconNode []
        peerAddr := 77, rssi := -50 } (by decide)).2.1⟩

/-! ## The claims on coalescing, on the governor and on the removal probability -/

theorem single_le_sum_of_nonneg : ∀ (l : List Int), (∀ x ∈ l, 0 ≤ x) →
    ∀ (j : Nat) (b : Int), l[j]? = some b → b ≤ l.sum := by
  intro l
  induction l with
  | nil =>
    intro _ j b hj
    exact absurd hj (by simp)
  | cons x rest ih =>
    intro hall j b hj
    have hx : 0 ≤ x := hall x (List.mem_cons_self _ _)
    have hrest : 0 ≤ rest.sum := List.sum_nonneg (fun y hy => hall y (List.mem_cons_of_mem _ hy))
    rw [List.sum_cons]
    cases j with
    | zero =>
      rw [List.getElem?_cons_zero] at hj
      have : x = b := Option.some.inj hj
      omega
    | succ n =>
      rw [List.getElem?_cons_succ] at hj
      have := ih (fun y hy => hall y (List.mem_cons_of_mem _ hy)) n b hj
      omega

theorem pair_le_sum_of_nonneg : ∀ (l : List Int), (∀ x ∈ l, 0 ≤ x) →
    ∀ (i j : Nat) (a b : Int), i < j → l[i]? = some a → l[j]? = some b → a + b ≤ l.sum := by
  intro l
  induction l with
  | nil =>
    intro _ i j a b _ hi
    exact absurd hi (by simp)
  | cons x rest ih =>
    intro hall i j a b hij hi hj
    have hx : 0 ≤ x := hall x (List.mem_cons_self _ _)
    have hallrest : ∀ y ∈ rest, 0 ≤ y := fun y hy => hall y (List.mem_cons_of_mem _ hy)
    rw [List.sum_cons]
    cases j with
    | zero => omega
    | succ n =>
      rw [List.getElem?_cons_succ] at hj
      cases i with
      | zero =>
        rw [List.getElem?_cons_zero] at hi
        have hxa : x = a := Option.some.inj hi
        have := single_le_sum_of_nonneg rest hallrest n b hj
        omega
      | succ m =>
        rw [List.getElem?_cons_succ] at hi
        have := ih hallrest m n a b (by omega) hi hj
        omega

theorem handshakedSizes_getElem? (s : Node) (i : Nat) (c : MeshConnection)
    (hlink : s.connections[i]? = some c) (hdone : c.IsHandshakeDone = true) :
    (handshakedSizes s)[i]? = some c.connectedClusterSize := by
  unfold handshakedSizes
  rw [List.getElem?_map, hlink]
  show some (if c.IsHandshakeDone = true then c.connectedClusterSize else 0) = _
  rw [if_pos hdone]

theorem handshakedSizes_nonneg (s : Node)
    (hnonneg : ∀ c ∈ s.connections, c.IsHandshakeDone = true → 0 ≤ c.connectedClusterSize) :
    ∀ x ∈ handshakedSizes s, 0 ≤ x := by
  intro x hx
  unfold handshakedSizes at hx
  rw [List.mem_map] at hx
  obtain ⟨c, hc, hxc⟩ := hx
  rw [← hxc]
  split
  · rename_i hdone
    exact hnonneg c hc hdone
  · exact le_refl _

theorem wantsHandover_unique (s : Node)
    (hnonneg : ∀ c ∈ s.connections, c.IsHandshakeDone = true → 0 ≤ c.connectedClusterSize)
    (hsum : (handshakedSizes s).sum ≤ s.clusterSize - 1)
    (i j : Nat) (ci cj : MeshConnection)
    (hi : s.connections[i]? = some ci) (hj : s.connections[j]? = some cj)
    (hwi : wantsHandover s ci) (hwj : wantsHandover s cj) : i = j := by
  by_contra hne
  have hall := handshakedSizes_nonneg s hnonneg
  have gi := handshakedSizes_getElem? s i ci hi hwi.1
  have gj := handshakedSizes_getElem? s j cj hj hwj.1
  have h1 := hwi.2
  have h2 := hwj.2
  rcases Nat.lt_or_gt_of_ne hne with hlt | hgt
  · have := pair_le_sum_of_nonneg _ hall i j _ _ hlt gi gj
    omega
  · have := pair_le_sum_of_nonneg _ hall j i _ _ hgt gj gi
    omega

theorem governLink_ne_wantsHandover (s : Node) (c : MeshConnection)
    (hne : governLink s c ≠ c) : wantsHandover s c := by
  unfold governLink at hne
  by_cases hcond : (HasAllMasterBits s && (c.IsHandshakeDone
      && decide (s.clusterSize - c.connectedClusterSize < c.connectedClusterSize))) = true
  · simp only [Bool.and_eq_true, decide_eq_true_eq] at hcond
    exact ⟨hcond.2.1, hcond.2.2⟩
  · rw [if_neg hcond] at hne
    exact absurd rfl hne

/-- C36: a single run of `HandOverMasterBitIfNecessary` gives away at most one
master bit: in every node state in which the connected cluster sizes of the
handshake-done links are non-negative and sum to at most `clusterSize - 1`, at
most one link satisfies the handover condition, and at most one link is
changed by the run. -/
theorem HandOverMasterBitIfNecessary_at_most_one (s : Node)
    (hnonneg : ∀ c ∈ s.connections, c.IsHandshakeDone = true → 0 ≤ c.connectedClusterSize)
    (hsum : (handshakedSizes s).sum ≤ s.clusterSize - 1) :
    (∀ (i j : Nat) (ci cj : MeshConnection),
        s.connections[i]? = some ci → s.connections[j]? = some cj →
        wantsHandover s ci → wantsHandover s cj → i = j)
    ∧ (∀ i j : Nat,
        (HandOverMasterBitIfNecessary s).connections[i]? ≠ s.connections[i]? →
        (HandOverMasterBitIfNecessary s).connections[j]? ≠ s.connections[j]? → i = j) := by
  refine ⟨fun i j ci cj hi hj hwi hwj =>
    wantsHandover_unique s hnonneg hsum i j ci cj hi hj hwi hwj, ?_⟩
  intro i j hi hj
  have hchanged : ∀ n : Nat,
      (HandOverMasterBitIfNecessary s).connections[n]? ≠ s.connections[n]? →
      ∃ c, s.connections[n]? = some c ∧ wantsHandover s c := by
    intro n hn
    rw [HandOverMasterBitIfNecessary_getElem?] at hn
    cases hc : s.connections[n]? with
    | none =>
      rw [hc] at hn
      exact absurd rfl hn
    | some c =>
      rw [hc] at hn
      refine ⟨c, rfl, governLink_ne_wantsHandover s c ?_⟩
      intro heq
      apply hn
      show some (governLink s c) = some c
      rw [heq]
  obtain ⟨ci, hci, hwi⟩ := hchanged i hi
  obtain ⟨cj, hcj, hwj⟩ := hchanged j hj
  exact wantsHandover_unique s hnonneg hsum i j ci cj hci hcj hwi hwj

/-- C36 at a concrete input: `crowdedNode`, a cluster of 7 with 1, 2 and 3
nodes behind its handshake-done links. -/
theorem HandOverMasterBitIfNecessary_at_most_one_witness :
    (∀ c ∈ crowdedNode.connections, c.IsHandshakeDone = true → 0 ≤ c.connectedClusterSize)
    ∧ (handshakedSizes crowdedNode).sum ≤ crowdedNode.clusterSize - 1
    ∧ (∀ i j : Nat,
        (HandOverMasterBitIfNecessary crowdedNode).connections[i]? ≠ crowdedNode.connections[i]? →
        (HandOverMasterBitIfNecessary crowdedNode).connections[j]? ≠ crowdedNode.connections[j]? →
        i = j) :=
  ⟨by decide, by decide,
    (HandOverMasterBitIfNecessary_at_most_one crowdedNode (by decide) (by decide)).2⟩

/-- C38: the removal-probability computation of the EMERGENCY_DISCONNECT
handler never divides by zero: for every cluster size and every number `h` of
handshake-done outbound links the expression evaluates, with the value the
handler uses; the division is reached only when `h > 1` and
`clusterSize > 1`, and there the divisor `(h - 1) * (clusterSize - 1)` is at
least 1. -/
theorem removalProbability_never_divides_by_zero (clusterSize : Int) (h : Nat)
    (c : MeshConnection) :
    removalProbabilityChecked clusterSize h c = some (removalProbability clusterSize h c)
    ∧ ((h ≤ 1 ∨ clusterSize ≤ 1) → removalProbabilityChecked clusterSize h c = some 1)
    ∧ (¬ (h ≤ 1 ∨ clusterSize ≤ 1) →
        1 < h ∧ 1 < clusterSize ∧ 1 ≤ ((h : Int) - 1) * (clusterSize - 1)
        ∧ checkedDiv (((clusterSize - 1) - c.connectedClusterSize) * 65535)
            (((h : Int) - 1) * (clusterSize - 1)) ≠ none) := by
  have hdiv : ¬ (h ≤ 1 ∨ clusterSize ≤ 1) → 1 ≤ ((h : Int) - 1) * (clusterSize - 1) := by
    intro hg
    have h1 : (1 : Int) ≤ (h : Int) - 1 := by omega
    have h2 : (1 : Int) ≤ clusterSize - 1 := by omega
    calc (1 : Int) = 1 * 1 := by decide
      _ ≤ ((h : Int) - 1) * (clusterSize - 1) :=
        mul_le_mul h1 h2 (by decide) (by omega)
  refine ⟨?_, ?_, ?_⟩
  · unfold removalProbabilityChecked removalProbability checkedDiv
    by_cases hg : h ≤ 1 ∨ clusterSize ≤ 1
    · rw [if_pos hg, if_pos hg]
    · have := hdiv hg
      rw [if_neg hg, if_neg hg, if_neg (by omega)]
      rfl
  · intro hg
    unfold removalProbabilityChecked
    rw [if_pos hg]
  · intro hg
    have := hdiv hg
    refine ⟨by omega, by omega, this, ?_⟩
    unfold checkedDiv
    rw [if_neg (by omega)]
    exact Option.some_ne_none _

/-- C38 at a concrete input: 3 handshake-done outbound links in a cluster of 7
give the divisor 12. -/
theorem removalProbability_never_divides_by_zero_witness :
    ¬ ((3 : Nat) ≤ 1 ∨ (7 : Int) ≤ 1)
    ∧ (1 : Int) ≤ (((3 : Nat) : Int) - 1) * (7 - 1)
    ∧ removalProbabilityChecked 7 3 { connectedClusterSize := 2 } = some 21845 :=
  ⟨by decide,
    ((removalProbability_never_divides_by_zero 7 3 { connectedClusterSize := 2 }).2.2
      (by decide)).2.2.1,
    by decide⟩


/-! ## The claims on the CRC -/

theorem xor_mod_two_pow (a b n : Nat) : (a ^^^ b) % 2 ^ n = (a % 2 ^ n) ^^^ (b % 2 ^ n) := by
  apply Nat.eq_of_testBit_eq
  intro j
  simp only [Nat.testBit_xor, Nat.testBit_mod_two_pow]
  by_cases h : j < n <;> simp [h]

theorem shiftLeft_xor (a b n : Nat) : (a ^^^ b) <<< n = (a <<< n) ^^^ (b <<< n) := by
  apply Nat.eq_of_testBit_eq
  intro j
  simp only [Nat.testBit_xor, Nat.testBit_shiftLeft]
  by_cases h : j ≥ n <;> simp [h]

theorem shiftRight_xor (a b n : Nat) : (a ^^^ b) >>> n = (a >>> n) ^^^ (b >>> n) := by
  apply Nat.eq_of_testBit_eq
  intro j
  simp only [Nat.testBit_xor, Nat.testBit_shiftRight]

theorem crc16Tail_xor (a b : Nat) : crc16Tail (a ^^^ b) = crc16Tail a ^^^ crc16Tail b := by
  have e : (65536 : Nat) = 2 ^ 16 := by norm_num
  have e2 : (256 : Nat) = 2 ^ 8 := by norm_num
  simp only [crc16Tail, e, e2, xor_mod_two_pow, shiftLeft_xor, shiftRight_xor,
    Nat.and_xor_distrib_right, Nat.mod_mod]
  ac_rfl

theorem and_two_pow_of_lt (b n : Nat) (hb : b < 2 ^ n) : b &&& 2 ^ n = 0 := by
  apply Nat.eq_of_testBit_eq
  intro j
  simp only [Nat.testBit_and, Nat.testBit_two_pow, Nat.zero_testBit]
  by_cases h : n = j
  · subst h
    simp [Nat.testBit_lt_two_pow hb]
  · simp [h]

theorem shiftLeft_one_mod (b : Nat) (hb : b < 32768) : (b <<< 1) % 65536 = b <<< 1 := by
  rw [Nat.shiftLeft_eq]
  exact Nat.mod_eq_of_lt (by omega)

theorem crcCcittShift_xor (a b : Nat) (hb : b < 32768) :
    crcCcittShift (a ^^^ b) = crcCcittShift a ^^^ (b <<< 1) := by
  have e : (65536 : Nat) = 2 ^ 16 := by norm_num
  have hand : (a ^^^ b) &&& 32768 = a &&& 32768 := by
    have h0 : b &&& 2 ^ 15 = 0 := and_two_pow_of_lt b 15 (by omega)
    have e15 : (32768 : Nat) = 2 ^ 15 := by norm_num
    rw [e15, Nat.and_xor_distrib_right, h0, Nat.xor_zero]
  have hmod := shiftLeft_one_mod b hb
  unfold crcCcittShift
  rw [hand]
  by_cases h : a &&& 32768 ≠ 0
  · rw [if_pos h, if_pos h, shiftLeft_xor, e, xor_mod_two_pow, xor_mod_two_pow,
      xor_mod_two_pow, ← e, hmod]
    ac_rfl
  · rw [if_neg h, if_neg h, shiftLeft_xor, e, xor_mod_two_pow, ← e, hmod]

theorem mul_add_eq_xor (a b : Nat) (hb : b < 256) : 256 * a + b = (256 * a) ^^^ b := by
  have e : (256 : Nat) = 2 ^ 8 := by norm_num
  rw [e] at hb ⊢
  apply Nat.eq_of_testBit_eq
  intro j
  rw [Nat.testBit_xor, Nat.testBit_mul_pow_two_add a hb, Nat.testBit_mul_pow_two]
  by_cases h : j < 8
  · have : ¬ 8 ≤ j := by omega
    simp [h, this]
  · have h8 : 8 ≤ j := by omega
    have hf : b.testBit j = false :=
      Nat.testBit_lt_two_pow (lt_of_lt_of_le hb (Nat.pow_le_pow_right (by decide) h8))
    simp [h, h8, hf]

theorem crcCcittShift8_split (t lo : Nat) (hlo : lo < 256) :
    crcCcittShift8 ((256 * t) ^^^ lo) = crcCcittShift8 (256 * t) ^^^ (256 * lo) := by
  unfold crcCcittShift8
  rw [crcCcittShift_xor _ lo (by omega)]
  rw [crcCcittShift_xor _ (lo <<< 1) (by rw [Nat.shiftLeft_eq]; omega)]
  rw [crcCcittShift_xor _ (lo <<< 1 <<< 1) (by simp only [Nat.shiftLeft_eq]; omega)]
  rw [crcCcittShift_xor _ (lo <<< 1 <<< 1 <<< 1) (by simp only [Nat.shiftLeft_eq]; omega)]
  rw [crcCcittShift_xor _ (lo <<< 1 <<< 1 <<< 1 <<< 1) (by simp only [Nat.shiftLeft_eq]; omega)]
  rw [crcCcittShift_xor _ (lo <<< 1 <<< 1 <<< 1 <<< 1 <<< 1)
    (by simp only [Nat.shiftLeft_eq]; omega)]
  rw [crcCcittShift_xor _ (lo <<< 1 <<< 1 <<< 1 <<< 1 <<< 1 <<< 1)
    (by simp only [Nat.shiftLeft_eq]; omega)]
  rw [crcCcittShift_xor _ (lo <<< 1 <<< 1 <<< 1 <<< 1 <<< 1 <<< 1 <<< 1)
    (by simp only [Nat.shiftLeft_eq]; omega)]
  congr 1
  simp only [Nat.shiftLeft_eq]
  omega

set_option maxRecDepth 100000 in
theorem crc16Tail_high (lo : Nat) (hlo : lo < 256) : crc16Tail (256 * lo) = 256 * lo := by
  revert lo
  decide

set_option maxRecDepth 100000 in
theorem crc16Tail_low (t : Nat) (ht : t < 256) : crc16Tail t = crcCcittShift8 (256 * t) := by
  revert t
  decide

theorem crc16Tail_lt (c : Nat) : crc16Tail c < 65536 := by
  unfold crc16Tail
  exact Nat.mod_lt _ (by decide)

theorem crcCcittShift_lt (c : Nat) : crcCcittShift c < 65536 := by
  unfold crcCcittShift
  split <;> exact Nat.mod_lt _ (by decide)

theorem crc16Step_eq_tail (crc byte : Nat) :
    crc16Step crc byte
      = crc16Tail ((((((crc >>> 8) % 256) ||| (crc <<< 8)) % 65536) ^^^ (byte % 256)) % 65536) :=
  rfl

theorem crc16Step_eq_crcCcittByte (crc byte : Nat) (hcrc : crc < 65536) :
    crc16Step crc byte = crcCcittByte crc byte := by
  rw [crc16Step_eq_tail]
  unfold crcCcittByte
  have hb : byte % 256 < 256 := Nat.mod_lt _ (by decide)
  generalize byte % 256 = b at hb
  have hlo : crc % 256 < 256 := Nat.mod_lt _ (by decide)
  have hhi : crc / 256 < 256 := by omega
  have hcrc2 : crc = 256 * (crc / 256) + crc % 256 := by omega
  generalize crc / 256 = hi at hhi hcrc2
  generalize crc % 256 = lo at hlo hcrc2
  subst hcrc2
  have ht : hi ^^^ b < 256 := by
    have := @Nat.xor_lt_two_pow hi b 8 (by omega) (by omega)
    omega
  -- the byte-swapped register xored with the input byte
  have h1 : (((((256 * hi + lo) >>> 8) % 256) ||| ((256 * hi + lo) <<< 8)) % 65536 ^^^ b) % 65536
      = (256 * lo) ^^^ (hi ^^^ b) := by
    have e1 : (256 * hi + lo) >>> 8 = hi := by
      rw [Nat.shiftRight_eq_div_pow]; omega
    have e2 : (256 * hi + lo) <<< 8 = 2 ^ 8 * (256 * hi + lo) := by
      rw [Nat.shiftLeft_eq]; ring
    have e3 : hi % 256 < 2 ^ 8 := by omega
    rw [e1, e2, Nat.or_comm, ← Nat.mul_add_lt_is_or e3]
    have e4 : (2 ^ 8 * (256 * hi + lo) + hi % 256) % 65536 = 256 * lo + hi := by
      have e6 : 2 ^ 8 * (256 * hi + lo) + hi % 256 = 65536 * hi + (256 * lo + hi) := by
        rw [Nat.mod_eq_of_lt hhi]; ring
      rw [e6, Nat.mul_add_mod]
      exact Nat.mod_eq_of_lt (by omega)
    rw [e4, mul_add_eq_xor lo hi hhi, Nat.xor_assoc, ← mul_add_eq_xor lo _ ht]
    exact Nat.mod_eq_of_lt (by omega)
  -- the register xored with the input byte moved to the high half
  have h2 : (256 * hi + lo) ^^^ (b <<< 8) = (256 * (hi ^^^ b)) ^^^ lo := by
    have e5 : ∀ x : Nat, 256 * x = x <<< 8 := by
      intro x; rw [Nat.shiftLeft_eq]; ring
    rw [mul_add_eq_xor hi lo hlo, e5 hi, e5 (hi ^^^ b), shiftLeft_xor]
    ac_rfl
  rw [h1, h2, crc16Tail_xor, crc16Tail_high lo hlo, crc16Tail_low _ ht,
    crcCcittShift8_split _ lo hlo, Nat.xor_comm]

theorem crc16Step_lt (crc byte : Nat) : crc16Step crc byte < 65536 := by
  rw [crc16Step_eq_tail]
  exact crc16Tail_lt _

theorem foldl_crc16Step_lt (data : List Nat) (crc : Nat) (h : crc < 65536) :
    data.foldl crc16Step crc < 65536 := by
  induction data generalizing crc with
  | nil => exact h
  | cons b rest ih => exact ih _ (crc16Step_lt crc b)

theorem CalculateCrc16_lt (data : List Nat) (p_crc : Option Nat) :
    CalculateCrc16 data p_crc < 65536 := by
  unfold CalculateCrc16
  apply foldl_crc16Step_lt
  cases p_crc with
  | none => decide
  | some crc => exact Nat.mod_lt _ (by decide)

theorem foldl_crc16Step_eq (data : List Nat) (crc : Nat) (h : crc < 65536) :
    data.foldl crc16Step crc = data.foldl crcCcittByte crc := by
  induction data generalizing crc with
  | nil => rfl
  | cons b rest ih =>
    rw [List.foldl_cons, List.foldl_cons, ← crc16Step_eq_crcCcittByte crc b h]
    exact ih _ (crc16Step_lt crc b)

/-- C34: the CRC can be computed block by block. The CRC of a concatenation, started
without a previous CRC, is the CRC of the second block started from the CRC of the
first block; the CRC of no bytes, started without a previous CRC, is 0xFFFF. -/
theorem CalculateCrc16_blockwise :
    (∀ a b : List Nat,
        CalculateCrc16 (a ++ b) none = CalculateCrc16 b (some (CalculateCrc16 a none)))
      ∧ CalculateCrc16 [] none = 0xFFFF := by
  refine ⟨?_, rfl⟩
  intro a b
  have hlt := CalculateCrc16_lt a none
  show List.foldl crc16Step _ (a ++ b) = List.foldl crc16Step (CalculateCrc16 a none % 65536) b
  rw [List.foldl_append, Nat.mod_eq_of_lt hlt]
  rfl

set_option maxRecDepth 100000 in
theorem CalculateCrc16_check_value :
    CalculateCrc16 [0x31, 0x32, 0x33, 0x34, 0x35, 0x36, 0x37, 0x38, 0x39] none = 0x29B1 := by
  decide

set_option maxRecDepth 100000 in
theorem crcCcittBitwise_check_value :
    crcCcittBitwise [0x31, 0x32, 0x33, 0x34, 0x35, 0x36, 0x37, 0x38, 0x39] = 0x29B1 := by
  decide

/-- C35: started without a previous CRC, `CalculateCrc16` returns for every byte
sequence the value of the bit-by-bit CRC-CCITT (polynomial 0x1021, initial value
0xFFFF, most significant bit first, no reflection, no final xor), a 16-bit value; for
the ASCII bytes of "123456789" this is 0x29B1. -/
theorem CalculateCrc16_conforms_to_ccitt :
    (∀ data : List Nat,
        CalculateCrc16 data none = crcCcittBitwise data ∧ CalculateCrc16 data none < 65536)
      ∧ CalculateCrc16 [0x31, 0x32, 0x33, 0x34, 0x35, 0x36, 0x37, 0x38, 0x39] none = 0x29B1
      ∧ crcCcittBitwise [0x31, 0x32, 0x33, 0x34, 0x35, 0x36, 0x37, 0x38, 0x39] = 0x29B1 := by
  refine ⟨fun data => ⟨?_, CalculateCrc16_lt data none⟩, CalculateCrc16_check_value,
    crcCcittBitwise_check_value⟩
  exact foldl_crc16Step_eq data 65535 (by decide)

/-! ## The claim that the candidate buffer always yields a slot -/

theorem ModifyScoreBasedOnPreferredPartners_lt (s : Node) (score partner bound : Nat)
    (h : score < bound) (hb : 1 < bound) :
    ModifyScoreBasedOnPreferredPartners s score partner < bound := by
  unfold ModifyScoreBasedOnPreferredPartners
  split
  · split
    · split
      · exact hb
      · exact lt_of_le_of_lt (Nat.div_le_self _ _) h
    · omega
  · exact h

theorem rssiScore_cases (rssi : Int) (h1 : -128 ≤ rssi) (h2 : rssi ≤ 127) :
    (-100 ≤ rssi ∧ (rssiScore rssi : Int) = 100 + rssi)
    ∨ (rssi < -100 ∧ (rssiScore rssi : Int) = 4294967296 + 100 + rssi) := by
  unfold rssiScore
  by_cases h : -100 ≤ rssi
  · left
    refine ⟨h, ?_⟩
    rw [Int.toNat_of_nonneg (Int.emod_nonneg _ (by decide))]
    exact Int.emod_eq_of_lt (by omega) (by omega)
  · right
    refine ⟨by omega, ?_⟩
    rw [Int.toNat_of_nonneg (Int.emod_nonneg _ (by decide))]
    have e : (100 + rssi) % 4294967296 = (100 + rssi + 4294967296) % 4294967296 := by
      rw [Int.add_emod_self]
    rw [e]
    have := Int.emod_eq_of_lt (a := 100 + rssi + 4294967296) (b := 4294967296)
      (by omega) (by omega)
    omega

theorem sum_mod_lt (base score : Nat)
    (h2 : base + score < 4294967295 ∨
      (4294967296 ≤ base + score ∧ base + score < 4294967295 + 4294967296)) :
    (base + score) % 4294967296 < UINT32_MAX := by
  unfold UINT32_MAX
  rcases h2 with h | ⟨ha, hb⟩
  · rw [Nat.mod_eq_of_lt (by omega)]
    exact h
  · obtain ⟨y, hy⟩ : ∃ y, base + score = y + 4294967296 := ⟨base + score - 4294967296, by omega⟩
    rw [hy, Nat.add_mod_right, Nat.mod_eq_of_lt (by omega)]
    omega

theorem masterSum_lt (freeIn freeOut : Nat) (rssi : Int) (h0 : freeIn ≠ 0)
    (hin : freeIn < 256) (hout : freeOut < 256) (h1 : -128 ≤ rssi) (h2 : rssi ≤ 127) :
    (freeIn * 10000 + freeOut * 100 + rssiScore rssi) % 4294967296 < UINT32_MAX := by
  exact sum_mod_lt _ _ (by
    rcases rssiScore_cases rssi h1 h2 with ⟨_, hr⟩ | ⟨_, hr⟩ <;> omega)

theorem slaveSum_lt (size : Int) (freeOut : Nat) (rssi : Int) (h0 : 1 ≤ size)
    (hsize : size ≤ 32767) (hout : freeOut < 256) (h1 : -128 ≤ rssi) (h2 : rssi ≤ 127) :
    (clusterSizeAsU32 size * 10000 + freeOut * 100 + rssiScore rssi) % 4294967296
      < UINT32_MAX := by
  have hc : (clusterSizeAsU32 size : Int) = size := by
    unfold clusterSizeAsU32
    rw [Int.toNat_of_nonneg (Int.emod_nonneg _ (by decide))]
    exact Int.emod_eq_of_lt (by omega) (by omega)
  exact sum_mod_lt _ _ (by
    rcases rssiScore_cases rssi h1 h2 with ⟨_, hr⟩ | ⟨_, hr⟩ <;> omega)

theorem CalculateClusterScoreAsMaster_lt (k : Constants) (s : Node) (b : joinMeBufferPacket)
    (hb : SlotInRange b) : CalculateClusterScoreAsMaster k s b < UINT32_MAX := by
  obtain ⟨hin, hout, h1, h2, _⟩ := hb
  have h0 : 0 < UINT32_MAX := by decide
  unfold CalculateClusterScoreAsMaster
  split_ifs with c1 c2 c3
  all_goals first
    | exact h0
    | exact ModifyScoreBasedOnPreferredPartners_lt s _ _ _
        (masterSum_lt _ _ _ c3 hin hout h1 h2) (by decide)

theorem CalculateClusterScoreAsSlave_lt (k : Constants) (s : Node) (b : joinMeBufferPacket)
    (hb : SlotInRange b) (hs : 1 ≤ s.clusterSize) :
    CalculateClusterScoreAsSlave k s b < UINT32_MAX := by
  obtain ⟨_, hout, h1, h2, hsize⟩ := hb
  have h0 : 0 < UINT32_MAX := by decide
  unfold CalculateClusterScoreAsSlave
  split_ifs with c1 c2 c3
  all_goals first
    | exact h0
    | exact ModifyScoreBasedOnPreferredPartners_lt s _ _ _
        (slaveSum_lt _ _ _ (by omega) hsize hout h1 h2) (by decide)

theorem replacementScore_lt (k : Constants) (s : Node) (packet : advPacketPayloadJoinMeV0)
    (b : joinMeBufferPacket) (hb : SlotInRange b)
    (hs : 1 ≤ s.clusterSize ∨ s.clusterSize ≤ packet.clusterSize) :
    replacementScore k s packet b < UINT32_MAX := by
  unfold replacementScore
  by_cases h : s.clusterSize ≤ packet.clusterSize
  · rw [if_pos h]
    exact CalculateClusterScoreAsMaster_lt k s b hb
  · rw [if_neg h]
    exact CalculateClusterScoreAsSlave_lt k s b hb (by omega)

theorem firstSlotLoop_some (test : joinMeBufferPacket → Bool) (l : List joinMeBufferPacket)
    (i : Nat) (h : firstSlotLoop test l 0 = some i) : ∃ b, l[i]? = some b := by
  rcases firstSlotLoop_spec test l 0 with ⟨hr, _⟩ | ⟨j, b, hj, hr, _, _⟩
  · rw [hr] at h; cases h
  · rw [hr] at h
    have hij : i = j := by
      have := Option.some.inj h
      omega
    exact ⟨b, by rw [hij]; exact hj⟩

theorem lowestSlotLoop_some (cond : joinMeBufferPacket → Bool) (key : joinMeBufferPacket → Nat)
    (l : List joinMeBufferPacket) (lowest i : Nat)
    (h : lowestSlotLoop cond key l 0 lowest none = some i) : ∃ b, l[i]? = some b := by
  rcases lowestSlotLoop_spec cond key l 0 lowest none with ⟨hr, _⟩ | ⟨j, b, hj, hr, _, _, _, _⟩
  · rw [hr] at h; cases h
  · rw [hr] at h
    have hij : i = j := by
      have := Option.some.inj h
      omega
    exact ⟨b, by rw [hij]; exact hj⟩

theorem findTargetBuffer_some (k : Constants) (s : Node) (packet : advPacketPayloadJoinMeV0)
    (hne : s.joinMePackets ≠ [])
    (hs : 1 ≤ s.clusterSize ∨ s.clusterSize ≤ packet.clusterSize)
    (hslots : ∀ b ∈ s.joinMePackets, SlotInRange b) :
    ∃ i b, (findTargetBuffer k s packet).1 = some i ∧ s.joinMePackets[i]? = some b := by
  cases h1 : firstSlotLoop (fun slot => decide (packet.sender = slot.payload.sender))
      s.joinMePackets 0 with
  | some i =>
    obtain ⟨b, hb⟩ := firstSlotLoop_some _ _ i h1
    exact ⟨i, b, findTargetBuffer_of_sender k s packet i h1, hb⟩
  | none =>
    cases h2 : firstSlotLoop (fun slot => decide (slot.payload.sender = 0)) s.joinMePackets 0 with
    | some i =>
      obtain ⟨b, hb⟩ := firstSlotLoop_some _ _ i h2
      exact ⟨i, b, findTargetBuffer_of_empty k s packet i h1 h2, hb⟩
    | none =>
      cases h3 : lowestSlotLoop (fun slot => decide (slot.payload.clusterId = s.clusterId))
          (fun slot => slot.receivedTimeDs) s.joinMePackets 0 UINT32_MAX none with
      | some i =>
        obtain ⟨b, hb⟩ := lowestSlotLoop_some _ _ _ _ i h3
        exact ⟨i, b, findTargetBuffer_of_own_cluster k s packet i h1 h2 h3, hb⟩
      | none =>
        rw [findTargetBuffer_of_score k s packet h1 h2 h3]
        rcases lowestSlotLoop_spec (fun _ => true) (replacementScore k s packet) s.joinMePackets
            0 UINT32_MAX none with ⟨_, hall⟩ | ⟨j, b, hj, hr, _, _, _, _⟩
        · exfalso
          obtain ⟨b0, hb0⟩ := List.exists_mem_of_ne_nil _ hne
          have h4 := hall b0 hb0 rfl
          have h5 := replacementScore_lt k s packet b0 (hslots b0 hb0) hs
          omega
        · exact ⟨j, b, by rw [hr, Nat.zero_add], hj⟩

/-- Where `findTargetBuffer` does return a slot: for every candidate buffer with
at least one slot whose entries hold values in the ranges of their wire types,
every local state whose cluster size is at least 1 (or at most the observed
one) and every JOIN_ME observation it returns a slot of the buffer, so on a
node that is not an asset the received JOIN_ME of the right length is stored in
a slot of the buffer. -/
theorem findTargetBuffer_returns_slot (w : AdvConstants) (k : Constants) (s : Node)
    (packet : advPacketPayloadJoinMeV0)
    (hne : s.joinMePackets ≠ [])
    (hs : 1 ≤ s.clusterSize ∨ s.clusterSize ≤ packet.clusterSize)
    (hslots : ∀ b ∈ s.joinMePackets, SlotInRange b) :
    (∃ i b, (findTargetBuffer k s packet).1 = some i ∧ s.joinMePackets[i]? = some b)
    ∧ ∀ (event : GapAdvertisementReportEvent) (networkId : Nat),
        FitsWire packet → w.JOIN_ME_V0 < 256 → s.deviceType ≠ DeviceType.ASSET →
        event.data = advHeader w networkId ++ encodePayload packet →
        event.data.length = SIZEOF_ADV_PACKET_JOIN_ME
        ∧ ∃ i stored, i < s.joinMePackets.length
            ∧ (GapAdvertisementMessageHandler w k s event).joinMePackets[i]? = some stored
            ∧ stored.payload = packet := by
  have hsome := findTargetBuffer_some k s packet hne hs hslots
  refine ⟨hsome, ?_⟩
  intro event networkId hfit hcode hdev hdata
  obtain ⟨i, b, hi, hb⟩ := hsome
  have hlt : i < s.joinMePackets.length := by
    rcases Nat.lt_or_ge i s.joinMePackets.length with h | h
    · exact h
    · rw [List.getElem?_eq_none h] at hb; cases hb
  have hfind : findTargetBuffer k s packet = (some i, (findTargetBuffer k s packet).2) := by
    rw [← hi]
  obtain ⟨stored, h1, h2⟩ := GapAdvertisementMessageHandler_stores w k packet hfit hcode s event
    networkId i _ hdev hdata hfind hlt
  refine ⟨?_, i, stored, hlt, h1, h2⟩
  rw [hdata]
  rfl

theorem findTargetBuffer_returns_slot_witness :
    (∃ i b, (findTargetBuffer sampleConstants fullBufferNode observedPayload).1 = some i
        ∧ fullBufferNode.joinMePackets[i]? = some b)
    ∧ ∀ (event : GapAdvertisementReportEvent) (networkId : Nat),
        FitsWire observedPayload → sampleAdvConstants.JOIN_ME_V0 < 256 →
        fullBufferNode.deviceType ≠ DeviceType.ASSET →
        event.data = advHeader sampleAdvConstants networkId ++ encodePayload observedPayload →
        event.data.length = SIZEOF_ADV_PACKET_JOIN_ME
        ∧ ∃ i stored, i < fullBufferNode.joinMePackets.length
            ∧ (GapAdvertisementMessageHandler sampleAdvConstants sampleConstants fullBufferNode
                event).joinMePackets[i]? = some stored
            ∧ stored.payload = observedPayload :=
  findTargetBuffer_returns_slot sampleAdvConstants sampleConstants fullBufferNode observedPayload
    (by decide) (Or.inl (by decide)) (by
      intro b hb
      simp only [fullBufferNode, List.mem_cons, List.mem_singleton, List.not_mem_nil,
        or_false] at hb
      rcases hb with rfl | rfl <;> (unfold SlotInRange; decide))

/-! ## The claims on malformed messages and on byte swapping -/

theorem MeshMessageReceivedHandler_short_update (m : MessageConstants) (s : Node)
    (connection : Option Nat) (dataLength : Nat) (packet : connPacketClusterInfoUpdate)
    (h : dataLength < m.SIZEOF_CONN_PACKET_CLUSTER_INFO_UPDATE) :
    MeshMessageReceivedHandler m s connection dataLength (.CLUSTER_INFO_UPDATE packet) = s := by
  unfold MeshMessageReceivedHandler
  cases connection with
  | none => rfl
  | some c =>
    have hn : ¬ m.SIZEOF_CONN_PACKET_CLUSTER_INFO_UPDATE ≤ dataLength := by omega
    simp only [if_neg hn]

theorem MeshMessageReceivedHandler_oversize_preferred (m : MessageConstants) (s : Node)
    (connection : Option Nat) (dataLength requestHandle : Nat) (forNodeModule : Bool)
    (message : PreferredConnectionMessage)
    (h : m.MAX_AMOUNT_PREFERRED_PARTNER_IDS < message.amountOfPreferredPartnerIds) :
    MeshMessageReceivedHandler m s connection dataLength
      (.MODULE_TRIGGER_ACTION forNodeModule requestHandle (.SET_PREFERRED_CONNECTIONS message))
      = s := by
  unfold MeshMessageReceivedHandler
  cases forNodeModule with
  | false => rfl
  | true => simp only [if_pos h, if_true]

/-- C32 fails on the code for the trigger actions that carry no payload: `calmNode`
is in discovery state LOW with no reboot scheduled and no load generation set up,
and the trigger action has the length of the module header alone (8 bytes, no
payload byte). SET_DISCOVERY still changes the discovery state, whatever byte the
handler finds behind the message; RESET_NODE still schedules a reboot;
START_GENERATE_LOAD still overwrites the load-generator settings. -/
theorem MeshMessageReceivedHandler_short_trigger_mutates :
    sampleMessageConstants.SIZEOF_CONN_PACKET_MODULE = 8
    ∧ calmNode.currentDiscoveryState = DiscoveryState.LOW
    ∧ (∀ ds : Nat,
        (MeshMessageReceivedHandler sampleMessageConstants calmNode (some 0) 8
          (.MODULE_TRIGGER_ACTION true 0 (.SET_DISCOVERY ds))).currentDiscoveryState
          = if ds = 0 then DiscoveryState.OFF else DiscoveryState.HIGH)
    ∧ IsRebootScheduled calmNode = false
    ∧ IsRebootScheduled (MeshMessageReceivedHandler sampleMessageConstants calmNode (some 0) 8
        (.MODULE_TRIGGER_ACTION true 0 (.RESET_NODE { resetSeconds := 3 }))) = true
    ∧ (MeshMessageReceivedHandler sampleMessageConstants calmNode (some 0) 8
        (.MODULE_TRIGGER_ACTION true 0 (.RESET_NODE { resetSeconds := 3 }))).rebootTimeDs = 30
    ∧ calmNode.generateLoadMessagesLeft = 0
    ∧ (MeshMessageReceivedHandler sampleMessageConstants calmNode (some 0) 8
        (.MODULE_TRIGGER_ACTION true 5
          (.START_GENERATE_LOAD ⟨2, 10, 4, 1⟩))).generateLoadMessagesLeft = 4 := by
  refine ⟨rfl, rfl, ?_, by decide, by decide, by decide, rfl, by decide⟩
  intro ds
  by_cases h : ds = 0
  · subst h
    decide
  · rw [if_neg h]
    show (setDiscoveryTrigger calmNode ds).currentDiscoveryState = DiscoveryState.HIGH
    unfold setDiscoveryTrigger
    rw [if_neg h]
    decide

theorem getD_at (pre : List Nat) (x : Nat) (rest : List Nat) (i : Nat) (h : pre.length = i) :
    (pre ++ x :: rest).getD i 0 = x := by
  subst h
  induction pre with
  | nil => rfl
  | cons a l ih => simpa using ih

theorem set_at (pre : List Nat) (x y : Nat) (rest : List Nat) (i : Nat) (h : pre.length = i) :
    (pre ++ x :: rest).set i y = pre ++ y :: rest := by
  subst h
  induction pre with
  | nil => rfl
  | cons a l ih => simp

theorem swapBytesLoop_succ (fuel : Nat) (p : List Nat) (lo hi : Nat) :
    swapBytesLoop (fuel + 1) p lo hi
      = if hi > lo then
          if p.length ≤ lo then .outOfBounds lo
          else if p.length ≤ hi then .outOfBounds hi
          else swapBytesLoop fuel ((p.set lo (p.getD hi 0)).set hi (p.getD lo 0)) (lo + 1) (hi - 1)
        else .done p :=
  rfl

theorem swapBytesLoop_reverses (n : Nat) :
    ∀ (mid pre post : List Nat) (fuel lo hi : Nat), mid.length ≤ n → pre.length = lo →
      hi + 1 = lo + mid.length → mid.length < 2 * fuel →
      swapBytesLoop fuel (pre ++ mid ++ post) lo hi = .done (pre ++ mid.reverse ++ post) := by
  induction n using Nat.strong_induction_on with
  | _ n ih =>
    intro mid pre post fuel lo hi hn hpre hhi hfuel
    cases fuel with
    | zero => omega
    | succ fuel =>
      rw [swapBytesLoop_succ]
      match mid, hn, hhi, hfuel with
      | [], _, hhi, _ =>
        have hle : ¬ hi > lo := by simp at hhi; omega
        rw [if_neg hle]
        rfl
      | [a], _, hhi, _ =>
        have hle : ¬ hi > lo := by simp at hhi; omega
        rw [if_neg hle]
        rfl
      | a :: c :: rest, hn, hhi, hfuel =>
        obtain ⟨mid2, b, hmid⟩ : ∃ mid2 b, c :: rest = mid2 ++ [b] :=
          ⟨(c :: rest).dropLast, (c :: rest).getLast (by simp),
            (List.dropLast_append_getLast (by simp)).symm⟩
        rw [hmid] at hn hhi hfuel ⊢
        simp only [List.length_cons, List.length_append, List.length_nil] at hn hhi hfuel
        have hgt : hi > lo := by omega
        have e1 : pre ++ a :: (mid2 ++ [b]) ++ post = pre ++ a :: (mid2 ++ b :: post) := by simp
        have e2 : pre ++ a :: (mid2 ++ b :: post) = (pre ++ a :: mid2) ++ b :: post := by simp
        have hlen1 : (pre ++ a :: mid2).length = hi := by
          simp only [List.length_append, List.length_cons]; omega
        have hlen : (pre ++ a :: (mid2 ++ [b]) ++ post).length = hi + 1 + post.length := by
          simp only [List.length_append, List.length_cons, List.length_nil]; omega
        rw [if_pos hgt, if_neg (by rw [hlen]; omega), if_neg (by rw [hlen]; omega)]
        have hgetlo : (pre ++ a :: (mid2 ++ [b]) ++ post).getD lo 0 = a := by
          rw [e1]; exact getD_at pre a _ lo hpre
        have hgethi : (pre ++ a :: (mid2 ++ [b]) ++ post).getD hi 0 = b := by
          rw [e1, e2]; exact getD_at _ b _ hi hlen1
        rw [hgetlo, hgethi, e1, set_at pre a b _ lo hpre]
        have e3 : pre ++ b :: (mid2 ++ b :: post) = (pre ++ b :: mid2) ++ b :: post := by simp
        have hlen2 : (pre ++ b :: mid2).length = hi := by
          simp only [List.length_append, List.length_cons]; omega
        rw [e3, set_at _ b a _ hi hlen2]
        have e4 : (pre ++ b :: mid2) ++ a :: post = (pre ++ [b]) ++ mid2 ++ (a :: post) := by simp
        rw [e4, ih mid2.length (by omega) mid2 (pre ++ [b]) (a :: post) fuel (lo + 1) (hi - 1)
          (le_refl _) (by simp [hpre]) (by omega) (by omega)]
        simp

theorem swapBytes_reverses (SIZE_MAX : Nat) (data : List Nat) (h1 : 1 ≤ data.length)
    (h2 : data.length ≤ SIZE_MAX) : swapBytes SIZE_MAX data = .done data.reverse := by
  unfold swapBytes
  have hhi : (data.length + SIZE_MAX) % (SIZE_MAX + 1) = data.length - 1 := by
    have e : data.length + SIZE_MAX = (data.length - 1) + (SIZE_MAX + 1) := by omega
    rw [e, Nat.add_mod_right]
    exact Nat.mod_eq_of_lt (by omega)
  rw [hhi]
  have := swapBytesLoop_reverses data.length data [] [] (data.length + 1) 0 (data.length - 1)
    (le_refl _) rfl (by omega) (by omega)
  simpa using this

theorem swapBytes_nil (SIZE_MAX : Nat) (h : 0 < SIZE_MAX) :
    swapBytes SIZE_MAX [] = .outOfBounds 0 := by
  unfold swapBytes
  have hhi : ([] : List Nat).length + SIZE_MAX = SIZE_MAX := by simp
  rw [hhi, Nat.mod_eq_of_lt (Nat.lt_succ_self _), List.length_nil, swapBytesLoop_succ,
    if_pos h, if_pos (by simp)]

/-- C40 fails on the code for the empty buffer: with `length = 0` the start value
`hi = length - 1` wraps to `SIZE_MAX` (shown for a 32-bit and a 64-bit `size_t`),
the loop condition `hi > lo` holds and the first iteration reads `p[0]`, an index
outside the buffer. For buffers of 1 to 4 bytes the loop reverses the buffer. -/
theorem swapBytes_empty_buffer_out_of_bounds :
    swapBytes 4294967295 [] = SwapOutcome.outOfBounds 0
    ∧ swapBytes 18446744073709551615 [] = SwapOutcome.outOfBounds 0
    ∧ swapBytes 4294967295 [7] = SwapOutcome.done [7]
    ∧ swapBytes 4294967295 [7, 8] = SwapOutcome.done [8, 7]
    ∧ swapBytes 4294967295 [7, 8, 9] = SwapOutcome.done [9, 8, 7]
    ∧ swapBytes 4294967295 [6, 7, 8, 9] = SwapOutcome.done [9, 8, 7, 6] := by
  decide
end FruityMesh
